import Mathlib

/-!
# USB-info: extraction of USB mass-storage devices from `system_profiler` JSON

A shallow embedding of `src/main.go` (`GetVolumes`, `GetMedia`, `FindInItems`,
`FindUSBStickInfo`) together with the two Go standard-library functions the
walker calls (`strconv.ParseUint`, `strings.SplitN`).

Conventions of the embedding:

* a decoded JSON value (`any` as produced by `encoding/json`) is the inductive type `JSON`;
* a Go slice is `Slice α`: either `nil` or a sequence;
* a Go `error` is a `GoError` tree, rendered to its message by `GoError.Error`;
* a call either returns its `(slice, error)` pair or panics: `Outcome α`;
* a block of a function body is a value of `Except (Outcome α) β`: it either falls through
  with a `β` or leaves the function with an outcome (an early `return` or a panic);
* the trace lines written with `fmt.Printf` are not modelled.
-/

namespace USBStick

/-! ## Data model -/

/-- A decoded JSON value, the dynamic type `any` after `json.Unmarshal`: `nil`, `bool`,
`float64` (its exact real value), `string`, `[]any`, `map[string]any`. An object is an
association list read through `JSON.get`, which returns the first binding of a key. -/
inductive JSON where
  | null
  | bool (b : Bool)
  | num (x : ℚ)
  | str (s : String)
  | arr (xs : List JSON)
  | obj (kvs : List (String × JSON))

/-- A Go slice: the `nil` slice or a slice holding the given elements. -/
inductive Slice (α : Type) where
  | nil
  | of (elems : List α)
deriving DecidableEq, Repr

/-- The elements of a slice (`nil` has none). -/
def Slice.elems {α : Type} : Slice α → List α
  | .nil => []
  | .of l => l

/-- Go `len`. -/
def Slice.len {α : Type} (s : Slice α) : Nat := s.elems.length

structure VolumeInfo where
  Name : String
  DevName : String
  Size : Int
  FileSystem : String
  UUID : String
  Mounted : Bool
  MountPoint : String
  Free : Int
  Writable : Bool
deriving DecidableEq, Repr

structure MediaInfo where
  Name : String
  DevName : String
  PartitionName : String
  Size : Int
  Volumes : Slice VolumeInfo
deriving DecidableEq, Repr

structure USBInfo where
  Name : String
  ProductID : Nat
  VendorID : Nat
  SerialNumber : String
  Manufacturer : String
  Media : Slice MediaInfo
deriving DecidableEq, Repr

/-! ## Errors, outcomes -/

/-- The causes carried by a `*strconv.NumError`: the sentinels `ErrSyntax` and `ErrRange`,
and the two causes for an argument of `ParseUint` that is itself out of bounds. -/
inductive NumErrKind where
  | invalid
  | outOfRange
  | badBase (base : Nat)
  | badBitSize (bitSize : Nat)
deriving DecidableEq, Repr

/-- The text of the cause of a `*strconv.NumError`: `ErrSyntax`, `ErrRange`, and the causes
made by `baseError` and `bitSizeError`. -/
def NumErrKind.text : NumErrKind → String
  | .invalid => "invalid syntax"
  | .outOfRange => "value out of range"
  | .badBase base => "invalid base " ++ toString base
  | .badBitSize bitSize => "invalid bit size " ++ toString bitSize

/-- A Go `error` value.
* `errorf msg`: `fmt.Errorf` without `%w`, whose formatted text is `msg`;
* `valuef msg v`: `fmt.Errorf(msg + "%+v", v)`;
* `wrapf msg inner`: `fmt.Errorf(msg + "%w", inner)`, which wraps `inner`;
* `numError fn num kind`: `&strconv.NumError{Func: fn, Num: num, Err: kind}`. -/
inductive GoError where
  | errorf (msg : String)
  | valuef (msg : String) (v : JSON)
  | wrapf (msg : String) (inner : GoError)
  | numError (fn : String) (num : String) (kind : NumErrKind)

/-- The message of an error (`err.Error()`). The two renderers of the standard library that the
messages go through are parameters: `quote` is `strconv.Quote` and `plusV` is the `%+v` verb. -/
def GoError.Error (quote : String → String) (plusV : JSON → String) : GoError → String
  | .errorf msg => msg
  | .valuef msg v => msg ++ plusV v
  | .wrapf msg inner => msg ++ inner.Error quote plusV
  | .numError fn num kind => "strconv." ++ fn ++ ": parsing " ++ quote num ++ ": " ++ kind.text

/-- The error directly wrapped by an error (`errors.Unwrap`): the `%w` operand of
`fmt.Errorf`, and the field `Err` of a `*strconv.NumError`, which is a sentinel made by
`errors.New` and so an error with the text of the cause and nothing wrapped. -/
def GoError.Unwrap : GoError → Option GoError
  | .wrapf _ inner => some inner
  | .numError _ _ kind => some (.errorf kind.text)
  | _ => none

/-- What a call of one of the four extraction functions does: it returns the pair
`(vals, err)`, or it panics with a run-time error. -/
inductive Outcome (α : Type) where
  | returns (vals : Slice α) (err : Option GoError)
  | panics (msg : String)

/-! ## Dynamic values -/

/-- The `%T` verb on a decoded JSON value. -/
def JSON.typeName : JSON → String
  | .null => "<nil>"
  | .bool _ => "bool"
  | .num _ => "float64"
  | .str _ => "string"
  | .arr _ => "[]interface {}"
  | .obj _ => "map[string]interface {}"

/-- The two-valued map read `v, ok := m[k]`. -/
def JSON.get (k : String) : List (String × JSON) → Option JSON
  | [] => none
  | (k', v) :: rest => if k' = k then some v else JSON.get k rest

/-- The one-valued map read `m[k]`: the zero value `nil` when the key is absent. -/
def JSON.index (m : List (String × JSON)) (k : String) : JSON :=
  (JSON.get k m).getD .null

/-- The dynamic type named in the run-time error of a failed type assertion. -/
def JSON.dynName : JSON → String
  | .null => "nil"
  | v => v.typeName

/-- The message of the run-time error of the failed type assertion `v.(ty)`. -/
def castPanic (v : JSON) (ty : String) : String :=
  "interface conversion: interface {} is " ++ v.dynName ++ ", not " ++ ty

/-- The unchecked type assertion `v.(string)`: panics unless `v` holds a string. -/
def assertString {ρ : Type} (v : JSON) : Except (Outcome ρ) String :=
  match v with
  | .str s => .ok s
  | other => .error (.panics (castPanic other "string"))

/-- The unchecked type assertion `v.(float64)`: panics unless `v` holds a number. -/
def assertFloat64 {ρ : Type} (v : JSON) : Except (Outcome ρ) ℚ :=
  match v with
  | .num x => .ok x
  | other => .error (.panics (castPanic other "float64"))

/-- The conversion `int64(f)` of a `float64`: the fraction is discarded (truncation towards
zero). A value outside the `int64` range gives an implementation-dependent result in Go; the
saturating result of arm64 is taken here. -/
def int64 (f : ℚ) : Int :=
  let t := Int.tdiv f.num f.den
  if t < -(2 : Int) ^ 63 then -(2 : Int) ^ 63
  else if (2 : Int) ^ 63 ≤ t then (2 : Int) ^ 63 - 1
  else t

/-- The conversion `uint16(val)` of a `uint64`. -/
def uint16 (val : Nat) : Nat := val % 2 ^ 16

/-- The `%d` verb on a loop index. -/
def fmtInt (i : Nat) : String := toString i

/-! ## Standard library: `strconv.ParseUint` and `strings.SplitN`

Both are Go standard-library functions, outside the repository; they are transcribed from the
library. A Go string is a byte sequence and both functions work on bytes. The embedding works
on the characters of a `String`: every byte these functions test for is ASCII, and in UTF-8 a
character beyond ASCII consists only of bytes above `0x7f`, which fall in the same branch as the
character itself. -/

/-- The helper `lower(c)` of `strconv`: `c | ('x' - 'X')`. -/
def lower (c : Char) : Nat := c.toNat ||| 0x20

/-- The value `d` of a digit byte in the loop of `ParseUint`, `none` in the `default` case. -/
def digitVal (c : Char) : Option Nat :=
  if '0'.toNat ≤ c.toNat ∧ c.toNat ≤ '9'.toNat then some (c.toNat - '0'.toNat)
  else if 'a'.toNat ≤ lower c ∧ lower c ≤ 'z'.toNat then some (lower c - 'a'.toNat + 10)
  else none

/-- How the digit loop of `ParseUint` ends. -/
inductive ParseLoop where
  | invalid
  | outOfRange
  | done (n : Nat) (underscores : Bool)
deriving DecidableEq, Repr

/-- The digit loop of `ParseUint` (`n` is a `uint64`). -/
def ParseUint.loop (base0 : Bool) (base cutoff maxVal : Nat) :
    List Char → Nat → Bool → ParseLoop
  | [], n, underscores => .done n underscores
  | c :: cs, n, underscores =>
    if c = '_' ∧ base0 = true then ParseUint.loop base0 base cutoff maxVal cs n true
    else
      match digitVal c with
      | none => .invalid
      | some d =>
        if d ≥ base then .invalid
        else if n ≥ cutoff then .outOfRange
        else
          let n' := (n * base) % 2 ^ 64
          let n1 := (n' + d) % 2 ^ 64
          if n1 < n' ∨ n1 > maxVal then .outOfRange
          else ParseUint.loop base0 base cutoff maxVal cs n1 underscores

/-- The scan of the number proper in `underscoreOK`; `saw` is the kind of the last character. -/
def underscoreOK.loop (hex : Bool) : List Char → Char → Bool
  | [], saw => saw != '_'
  | c :: cs, saw =>
    if ('0'.toNat ≤ c.toNat ∧ c.toNat ≤ '9'.toNat) ∨
        (hex = true ∧ 'a'.toNat ≤ lower c ∧ lower c ≤ 'f'.toNat) then
      underscoreOK.loop hex cs '0'
    else if c = '_' then
      if saw ≠ '0' then false else underscoreOK.loop hex cs '_'
    else if saw = '_' then false
    else underscoreOK.loop hex cs '!'

/-- The function `underscoreOK` of `strconv`: an underscore may appear only between digits or
between a base marker and a digit. -/
def underscoreOK (s : List Char) : Bool :=
  let s1 := match s with
    | c :: rest => if c = '-' ∨ c = '+' then rest else s
    | [] => s
  match s1 with
  | c0 :: c1 :: rest =>
    if c0 = '0' ∧ (lower c1 = 'b'.toNat ∨ lower c1 = 'o'.toNat ∨ lower c1 = 'x'.toNat) then
      underscoreOK.loop (decide (lower c1 = 'x'.toNat)) rest '0'
    else underscoreOK.loop false s1 '^'
  | _ => underscoreOK.loop false s1 '^'

/-- The base selection of `ParseUint` for `base == 0`: the base and the digits that remain. -/
def ParseUint.detect (s : List Char) : Nat × List Char :=
  match s with
  | c0 :: rest =>
    if c0 = '0' then
      match rest with
      | c1 :: c2 :: more =>
        if lower c1 = 'b'.toNat then (2, c2 :: more)
        else if lower c1 = 'o'.toNat then (8, c2 :: more)
        else if lower c1 = 'x'.toNat then (16, c2 :: more)
        else (8, rest)
      | _ => (8, rest)
    else (10, s)
  | [] => (10, s)

/-- Go `strconv.ParseUint(s, base, bitSize)`: the value and the error. -/
def ParseUint (s : String) (base bitSize : Nat) : Nat × Option GoError :=
  if s.data = [] then (0, some (.numError "ParseUint" s .invalid))
  else
    let base0 := decide (base = 0)
    let sel : Option (Nat × List Char) :=
      if 2 ≤ base ∧ base ≤ 36 then some (base, s.data)
      else if base = 0 then some (ParseUint.detect s.data)
      else none
    match sel with
    | none => (0, some (.numError "ParseUint" s (.badBase base)))
    | some (b, digits) =>
      if bitSize > 64 then (0, some (.numError "ParseUint" s (.badBitSize bitSize)))
      else
        let bits := if bitSize = 0 then 64 else bitSize
        let cutoff := (2 ^ 64 - 1) / b + 1
        let maxVal := 2 ^ bits - 1
        match ParseUint.loop base0 b cutoff maxVal digits 0 false with
        | .invalid => (0, some (.numError "ParseUint" s .invalid))
        | .outOfRange => (maxVal, some (.numError "ParseUint" s .outOfRange))
        | .done n underscores =>
          if underscores = true ∧ underscoreOK s.data = false then
            (0, some (.numError "ParseUint" s .invalid))
          else (n, none)

/-- The split of a byte sequence at the first separator byte: what is before it and what is
after it, `none` when it does not occur (`strings.Index` and the two slicings). -/
def SplitN.cut (sep : Char) : List Char → Option (List Char × List Char)
  | [] => none
  | c :: cs =>
    if c = sep then some ([], cs)
    else
      match SplitN.cut sep cs with
      | none => none
      | some (before, rest) => some (c :: before, rest)

/-- Go `strings.SplitN(s, sep, 2)` for a separator `sep` of one byte: `s` alone when `sep` does
not occur in it, else the text before the first `sep` and the text after it. -/
def SplitN (s : String) (sep : Char) : List String :=
  match SplitN.cut sep s.data with
  | none => [s]
  | some (before, rest) => [String.mk before, String.mk rest]

/-! ## The extraction functions of `main.go` -/

/-- The loop `for i, x := range xs { ... }` of the extraction functions, from index `i`: the
slice under construction is `acc` (made non-nil before the loop and only appended to), and
`body i x acc` either gives the slice after the element or leaves the function. When the
elements are exhausted the function returns the slice and a nil error. -/
def forRange {α : Type} (body : Nat → JSON → List α → Except (Outcome α) (List α)) :
    Nat → List JSON → List α → Outcome α
  | _, [], acc => .returns (.of acc) none
  | i, x :: rest, acc =>
    match body i x acc with
    | .error out => out
    | .ok acc1 => forRange body (i + 1) rest acc1

/-- The body of the loop of `GetVolumes` after the shape check (lines 117-130): the
`VolumeInfo` of one volume object. -/
def GetVolumes.volume (vMap : List (String × JSON)) : Except (Outcome VolumeInfo) VolumeInfo := do
  let name ← assertString (JSON.index vMap "_name")
  let devName ← assertString (JSON.index vMap "bsd_name")
  let size ← assertFloat64 (JSON.index vMap "size_in_bytes")
  let fileSystem ← assertString (JSON.index vMap "file_system")
  let uuid ← assertString (JSON.index vMap "volume_uuid")
  let vi : VolumeInfo :=
    { Name := name, DevName := devName, Size := int64 size, FileSystem := fileSystem,
      UUID := uuid, Mounted := false, MountPoint := "", Free := 0, Writable := false }
  match JSON.get "mount_point" vMap with
  | some m =>
    let mountPoint ← assertString m
    let free ← assertFloat64 (JSON.index vMap "free_space_in_bytes")
    let writable ← assertString (JSON.index vMap "writable")
    pure { vi with Mounted := true, MountPoint := mountPoint, Free := int64 free,
                   Writable := decide (writable = "yes") }
  | none => pure vi

/-- The body of the loop of `GetVolumes` for the element `vol` at index `i`, with the volumes
`vis` collected so far. -/
def GetVolumes.body (path : String) (i : Nat) (vol : JSON) (vis : List VolumeInfo) :
    Except (Outcome VolumeInfo) (List VolumeInfo) :=
  match vol with
  | .obj vMap =>
    match GetVolumes.volume vMap with
    | .error out => .error out
    | .ok vi => .ok (vis ++ [vi])
  | other => .error (.returns .nil (some (.errorf
      (path ++ "[" ++ fmtInt i ++ "] (" ++ other.typeName ++
        ") is not map[string]interface{} type"))))

/-- Go `GetVolumes(volumes, path)`. -/
def GetVolumes (volumes : JSON) (path : String) : Outcome VolumeInfo :=
  match volumes with
  | .arr vols => forRange (GetVolumes.body path) 0 vols []
  | other => .returns .nil (some (.errorf
      (path ++ " (" ++ other.typeName ++ ") is not []interface{} type")))

/-- The body of the loop of `GetMedia` after the shape check (lines 147-163): the `MediaInfo`
of one medium object at index `i`. -/
def GetMedia.medium (mi : List (String × JSON)) (path : String) (i : Nat) :
    Except (Outcome MediaInfo) MediaInfo := do
  let name ← assertString (JSON.index mi "_name")
  let devName ← assertString (JSON.index mi "bsd_name")
  let partitionName ← assertString (JSON.index mi "partition_map_type")
  let size ← assertFloat64 (JSON.index mi "size_in_bytes")
  let mii : MediaInfo :=
    { Name := name, DevName := devName, PartitionName := partitionName, Size := int64 size,
      Volumes := .nil }
  match JSON.get "volumes" mi with
  | none => pure mii
  | some it =>
    match GetVolumes it (path ++ "[" ++ fmtInt i ++ "][volumes]") with
    | .panics msg => .error (.panics msg)
    | .returns _ (some err) => .error (.returns .nil (some (.wrapf
        ("failed to get " ++ path ++ "[" ++ fmtInt i ++ "][volumes]: ") err)))
    | .returns vols none => pure { mii with Volumes := vols }

/-- The body of the loop of `GetMedia` for the element `m` at index `i`, with the media `mis`
collected so far. -/
def GetMedia.body (path : String) (i : Nat) (m : JSON) (mis : List MediaInfo) :
    Except (Outcome MediaInfo) (List MediaInfo) :=
  match m with
  | .obj mi =>
    match GetMedia.medium mi path i with
    | .error out => .error out
    | .ok mii => .ok (mis ++ [mii])
  | other => .error (.returns .nil (some (.errorf
      (path ++ "[" ++ fmtInt i ++ "] (" ++ other.typeName ++
        ") is not map[string]interface{} type"))))

/-- Go `GetMedia(media, path)`. -/
def GetMedia (media : JSON) (path : String) : Outcome MediaInfo :=
  match media with
  | .arr ma => forRange (GetMedia.body path) 0 ma []
  | other => .returns .nil (some (.errorf
      (path ++ " (" ++ other.typeName ++ ") is not []interface{} type")))

/-- The body of the loop of `FindInItems` for an entry that has a "Media" key, whose value is
`it` (lines 194-220): the `USBInfo` of the entry at index `i`. -/
def FindInItems.usbInfo (itemMap : List (String × JSON)) (it : JSON) (path : String) (i : Nat) :
    Except (Outcome USBInfo) USBInfo := do
  let name ← assertString (JSON.index itemMap "_name")
  let serialNumber ← assertString (JSON.index itemMap "serial_num")
  let manufacturer ← assertString (JSON.index itemMap "manufacturer")
  let s ← assertString (JSON.index itemMap "product_id")
  match ParseUint s 0 16 with
  | (_, some err) => .error (.returns .nil (some (.wrapf
      ("failed to parse " ++ path ++ "[" ++ fmtInt i ++ "][product_id] (" ++ s ++ "): ") err)))
  | (val, none) =>
    let productID := uint16 val
    let s ← assertString (JSON.index itemMap "vendor_id")
    match SplitN s ' ' with
    | [] => .error (.panics "runtime error: index out of range [0] with length 0")
    | field0 :: _ =>
      match ParseUint field0 0 16 with
      | (_, some err) => .error (.returns .nil (some (.wrapf
          ("failed to parse " ++ path ++ "[" ++ fmtInt i ++ "][vendor_id] (" ++ field0 ++ "): ")
          err)))
      | (val, none) =>
        let vendorID := uint16 val
        match GetMedia it (path ++ "[" ++ fmtInt i ++ "][Media]") with
        | .panics msg => .error (.panics msg)
        | .returns _ (some err) => .error (.returns .nil (some (.wrapf
            ("failed to get " ++ path ++ "[" ++ fmtInt i ++ "][Media]: ") err)))
        | .returns mi none =>
          pure { Name := name, ProductID := productID, VendorID := vendorID,
                 SerialNumber := serialNumber, Manufacturer := manufacturer,
                 Media := if mi.len > 0 then mi else .nil }

mutual
/-- Go `FindInItems(items, path)`. -/
def FindInItems (items : JSON) (path : String) : Outcome USBInfo :=
  match items with
  | .arr ita => FindInItems.loop ita path 0 []
  | other => .returns .nil (some (.errorf
      (path ++ " (" ++ other.typeName ++ ") is not []interface{} type")))
/-- The loop of `FindInItems` from index `i`, with the devices collected so far (`uis` is made
non-nil and only appended to). It is `forRange (FindInItems.body path)`, written out so that
the recursion follows the structure of the value (see `FindInItems.loop_eq`). -/
def FindInItems.loop (ita : List JSON) (path : String) (i : Nat) (uis : List USBInfo) :
    Outcome USBInfo :=
  match ita with
  | [] => .returns (.of uis) none
  | item :: rest =>
    match item with
    | .obj itemMap =>
      let children : Except (Outcome USBInfo) (List USBInfo) :=
        match FindInItems.items itemMap (path ++ "[" ++ fmtInt i ++ "][_items]") with
        | none => .ok uis
        | some (.panics msg) => .error (.panics msg)
        | some (.returns _ (some err)) => .error (.returns .nil (some (.wrapf
            ("failed to parse " ++ path ++ "[" ++ fmtInt i ++ "][_items]: ") err)))
        | some (.returns ui none) => .ok (uis ++ ui.elems)
      match children with
      | .error out => out
      | .ok uis1 =>
        match JSON.get "Media" itemMap with
        | none => FindInItems.loop rest path (i + 1) uis1
        | some it =>
          match FindInItems.usbInfo itemMap it path i with
          | .error out => out
          | .ok usbInfo => FindInItems.loop rest path (i + 1) (uis1 ++ [usbInfo])
    | other => .returns .nil (some (.errorf
        (path ++ "[" ++ fmtInt i ++ "] (" ++ other.typeName ++
          ") is not map[string]interface{} type")))
/-- The read `it, ok := itemMap["_items"]` together with the recursive call on `it` under the
label `path`: `none` when the key is absent. The read and the call are one function so that
the recursion follows the structure of the value (see `FindInItems.items_eq`). -/
def FindInItems.items (itemMap : List (String × JSON)) (path : String) :
    Option (Outcome USBInfo) :=
  match itemMap with
  | [] => none
  | (k, v) :: rest => if k = "_items" then some (FindInItems v path) else FindInItems.items rest path
end

/-- The body of the loop of `FindUSBStickInfo` for the element `dti` at index `i`, with the
devices `uis` collected so far. -/
def FindUSBStickInfo.body (i : Nat) (dti : JSON) (uis : List USBInfo) :
    Except (Outcome USBInfo) (List USBInfo) :=
  match dti with
  | .obj dtiMap =>
    match JSON.get "_items" dtiMap with
    | some dt =>
      match FindInItems dt ("data[SPUSBDataType][" ++ fmtInt i ++ "][_items]") with
      | .panics msg => .error (.panics msg)
      | .returns _ (some err) => .error (.returns .nil (some (.wrapf
          ("failed to parse data[SPUSBDataType][" ++ fmtInt i ++ "][_items]: ") err)))
      | .returns ui none => .ok (uis ++ ui.elems)
    | none => .ok uis
  | other => .error (.returns .nil (some (.errorf
      ("data[SPUSBDataType][" ++ fmtInt i ++ "] (" ++ other.typeName ++
        ") is not map[string]interface{} type"))))

/-- Go `FindUSBStickInfo(data)`. -/
def FindUSBStickInfo (data : JSON) : Outcome USBInfo :=
  match data with
  | .obj d =>
    match JSON.get "SPUSBDataType" d with
    | none => .returns .nil (some (.valuef "data missing SPUSBDataType entry: " data))
    | some dt =>
      match dt with
      | .arr dta => forRange FindUSBStickInfo.body 0 dta []
      | other => .returns .nil (some (.errorf
          ("data[SPUSBDataType] (" ++ other.typeName ++ ") is not []interface{} type")))
  | other => .returns .nil (some (.errorf
      ("data (" ++ other.typeName ++ ") is not map[string]interface{} type")))

/-- The body of the loop of `FindInItems` for the element `item` at index `i` (lines 176-220),
written with the map read and the recursive call apart, as the source has them: the devices
collected after the element, or the outcome with which the function is left. -/
def FindInItems.body (path : String) (i : Nat) (item : JSON) (uis : List USBInfo) :
    Except (Outcome USBInfo) (List USBInfo) :=
  match item with
  | .obj itemMap =>
    let children : Except (Outcome USBInfo) (List USBInfo) :=
      match JSON.get "_items" itemMap with
      | none => .ok uis
      | some it =>
        match FindInItems it (path ++ "[" ++ fmtInt i ++ "][_items]") with
        | .panics msg => .error (.panics msg)
        | .returns _ (some err) => .error (.returns .nil (some (.wrapf
            ("failed to parse " ++ path ++ "[" ++ fmtInt i ++ "][_items]: ") err)))
        | .returns ui none => .ok (uis ++ ui.elems)
    match children with
    | .error out => .error out
    | .ok uis1 =>
      match JSON.get "Media" itemMap with
      | none => .ok uis1
      | some it =>
        match FindInItems.usbInfo itemMap it path i with
        | .error out => .error out
        | .ok usbInfo => .ok (uis1 ++ [usbInfo])
  | other => .error (.returns .nil (some (.errorf
      (path ++ "[" ++ fmtInt i ++ "] (" ++ other.typeName ++
        ") is not map[string]interface{} type"))))

/-! ## Vocabulary of the statements -/

/-- An outcome by which a function is left without a result: an error with the nil slice, or a
panic. -/
def Outcome.Failed {α : Type} : Outcome α → Prop
  | .returns .nil (some _) => True
  | .panics _ => True
  | _ => False

/-- The call returned a non-nil slice and a nil error. -/
def Outcome.isOk {α : Type} : Outcome α → Bool
  | .returns (.of _) none => true
  | _ => false

/-- The elements of the slice a call returned (none when it panicked). -/
def Outcome.vals {α : Type} : Outcome α → List α
  | .returns vals _ => vals.elems
  | .panics _ => []

/-- The text `sub` occurs in the text `msg` as a contiguous piece. -/
def Occurs (sub msg : String) : Prop := sub.data <:+: msg.data

/-- The call returned a nil slice and an error whose message, however the standard library
renders quoted strings and `%+v`, contains each of the given texts. -/
def Outcome.FailsNaming {α : Type} (out : Outcome α) (texts : List String) : Prop :=
  ∃ e, out = .returns .nil (some e) ∧
    ∀ (quote : String → String) (plusV : JSON → String), ∀ t ∈ texts,
      Occurs t (e.Error quote plusV)

/-- The string held under key `k`, `none` when the key is absent or holds another type. -/
def strField (m : List (String × JSON)) (k : String) : Option String :=
  match JSON.index m k with
  | .str s => some s
  | _ => none

/-- The number held under key `k`, `none` when the key is absent or holds another type. -/
def numField (m : List (String × JSON)) (k : String) : Option ℚ :=
  match JSON.index m k with
  | .num x => some x
  | _ => none

/-- The walk of `FindInItems` under the label `path` gets to the "Media" check of the object
`m` that follows the elements `pre`: the elements before it are walked without failure, and so
is the value of its "_items" key when it has one. -/
def ReachesEntry (path : String) (pre : List JSON) (m : List (String × JSON)) : Prop :=
  (FindInItems (.arr pre) path).isOk = true ∧
    match JSON.get "_items" m with
    | none => True
    | some it => (FindInItems it (path ++ "[" ++ fmtInt pre.length ++ "][_items]")).isOk = true

/-- The devices collected when the walk gets to the "Media" check of the object `m` that
follows the elements `pre`: those of `pre`, then those under the "_items" key of `m`. -/
def collectedBefore (path : String) (pre : List JSON) (m : List (String × JSON)) :
    List USBInfo :=
  (FindInItems (.arr pre) path).vals ++
    match JSON.get "_items" m with
    | none => []
    | some it => (FindInItems it (path ++ "[" ++ fmtInt pre.length ++ "][_items]")).vals

/-- The identity of a device entry whose five identity fields are well formed: "_name",
"serial_num", "manufacturer" are strings, "product_id" is a string that `ParseUint` accepts,
and "vendor_id" is a string whose text before the first space `ParseUint` accepts. The device
has no media yet; `none` when a field is not well formed. -/
def identityOf (m : List (String × JSON)) : Option USBInfo :=
  match strField m "_name", strField m "serial_num", strField m "manufacturer",
      strField m "product_id", strField m "vendor_id" with
  | some name, some serial, some manufacturer, some pid, some vid =>
    match ParseUint pid 0 16, SplitN vid ' ' with
    | (val, none), field0 :: _ =>
      match ParseUint field0 0 16 with
      | (val2, none) =>
        some { Name := name, ProductID := uint16 val, VendorID := uint16 val2,
               SerialNumber := serial, Manufacturer := manufacturer, Media := .nil }
      | _ => none
    | _, _ => none
  | _, _, _, _, _ => none

/-- The value of a hexadecimal digit, of either case. -/
def hexDigitValue (c : Char) : Option Nat :=
  if 48 ≤ c.toNat ∧ c.toNat ≤ 57 then some (c.toNat - 48)
  else if 97 ≤ c.toNat ∧ c.toNat ≤ 102 then some (c.toNat - 87)
  else if 65 ≤ c.toNat ∧ c.toNat ≤ 70 then some (c.toNat - 55)
  else none

/-- The value of a decimal digit. -/
def decDigitValue (c : Char) : Option Nat :=
  if 48 ≤ c.toNat ∧ c.toNat ≤ 57 then some (c.toNat - 48) else none

/-- The number that a string of digits denotes in the given base, read after the value `n` of
the digits before it; `none` when a character is not a digit. -/
def denotes (digit : Char → Option Nat) (base : Nat) : List Char → Nat → Option Nat
  | [], n => some n
  | c :: cs, n =>
    match digit c with
    | none => none
    | some d => denotes digit base cs (n * base + d)

/-- The number denoted by a hexadecimal literal: `0x` or `0X` followed by one or more
hexadecimal digits; `none` for any other text. -/
def hexLiteral (s : String) : Option Nat :=
  match s.data with
  | c0 :: x :: d :: ds =>
    if c0 = '0' ∧ (x = 'x' ∨ x = 'X') then denotes hexDigitValue 16 (d :: ds) 0 else none
  | _ => none

/-- The number denoted by a string of one or more decimal digits; `none` for any other
text. -/
def decLiteral (s : String) : Option Nat :=
  match s.data with
  | [] => none
  | d :: ds => denotes decDigitValue 10 (d :: ds) 0

/-- The text starts with the digit `0` and is not `0` itself. -/
def leadingZero (s : String) : Bool :=
  match s.data with
  | c :: _ :: _ => decide (c = '0')
  | _ => false

/-- The text `s` is an integer literal that denotes `n`: a hexadecimal literal (`0x` or `0X`
and hexadecimal digits), or a string of decimal digits that does not start with a `0` followed
by more digits. -/
def IsLiteral (s : String) (n : Nat) : Prop :=
  hexLiteral s = some n ∨ (decLiteral s = some n ∧ leadingZero s = false)

/-! ## The schema and the reference flattening

The input schema of the specification (section 6) as executable checks, and the records and
the order of devices that the specification describes (sections 3 and 4), written without
labels, loops or failures. -/

/-- The key-value pairs of an object (none for any other value). -/
def fieldsOf : JSON → List (String × JSON)
  | .obj m => m
  | _ => []

/-- A well-formed volume: an object with the strings "_name", "bsd_name", "file_system",
"volume_uuid" and the number "size_in_bytes", which, when it has a "mount_point", has it as a
string together with the number "free_space_in_bytes" and the string "writable". -/
def wfVolume : JSON → Bool
  | .obj m =>
    (strField m "_name").isSome && (strField m "bsd_name").isSome &&
    (numField m "size_in_bytes").isSome && (strField m "file_system").isSome &&
    (strField m "volume_uuid").isSome &&
    (match JSON.get "mount_point" m with
     | none => true
     | some _ => (strField m "mount_point").isSome &&
        (numField m "free_space_in_bytes").isSome && (strField m "writable").isSome)
  | _ => false

/-- A well-formed "volumes" value: an array of well-formed volumes. -/
def wfVolumes : JSON → Bool
  | .arr vs => vs.all wfVolume
  | _ => false

/-- A well-formed medium: an object with the strings "_name", "bsd_name",
"partition_map_type" and the number "size_in_bytes", whose "volumes", when present, is well
formed. -/
def wfMedium : JSON → Bool
  | .obj m =>
    (strField m "_name").isSome && (strField m "bsd_name").isSome &&
    (strField m "partition_map_type").isSome && (numField m "size_in_bytes").isSome &&
    (match JSON.get "volumes" m with
     | none => true
     | some v => wfVolumes v)
  | _ => false

/-- A well-formed "Media" value: an array of well-formed media. -/
def wfMedia : JSON → Bool
  | .arr ms => ms.all wfMedium
  | _ => false

mutual
/-- A well-formed "_items" value: an array of well-formed entries. -/
def wfItems : JSON → Bool
  | .arr xs => wfEntries xs
  | _ => false
/-- Every element of the list is a well-formed entry. -/
def wfEntries : List JSON → Bool
  | [] => true
  | x :: xs => wfEntry x && wfEntries xs
/-- A well-formed entry under "_items": an object whose "_items", when present, is well
formed, and which, when it has a "Media" key, carries well-formed identity fields and
well-formed media. -/
def wfEntry : JSON → Bool
  | .obj m =>
    wfItemsField m &&
    (match JSON.get "Media" m with
     | none => true
     | some md => (identityOf m).isSome && wfMedia md)
  | _ => false
/-- The value of the "_items" key of the object, when it has one, is well formed. -/
def wfItemsField : List (String × JSON) → Bool
  | [] => true
  | (k, v) :: rest => if k = "_items" then wfItems v else wfItemsField rest
end

/-- A well-formed bus: an object whose "_items", when present, is well formed. -/
def wfBus : JSON → Bool
  | .obj m => wfItemsField m
  | _ => false

/-- A well-formed input: an object whose "SPUSBDataType" is an array of well-formed buses. -/
def wfRoot : JSON → Bool
  | .obj d =>
    match JSON.get "SPUSBDataType" d with
    | some (.arr buses) => buses.all wfBus
    | _ => false
  | _ => false

/-- The `Volume` record of a volume object. -/
def volumeOf (v : JSON) : VolumeInfo :=
  let m := fieldsOf v
  let mounted := (JSON.get "mount_point" m).isSome
  { Name := (strField m "_name").getD "",
    DevName := (strField m "bsd_name").getD "",
    Size := int64 ((numField m "size_in_bytes").getD 0),
    FileSystem := (strField m "file_system").getD "",
    UUID := (strField m "volume_uuid").getD "",
    Mounted := mounted,
    MountPoint := if mounted then (strField m "mount_point").getD "" else "",
    Free := if mounted then int64 ((numField m "free_space_in_bytes").getD 0) else 0,
    Writable := mounted && decide (strField m "writable" = some "yes") }

/-- The `Medium` record of a medium object: one `Volume` per element of "volumes", in order. -/
def mediumOf (v : JSON) : MediaInfo :=
  let m := fieldsOf v
  { Name := (strField m "_name").getD "",
    DevName := (strField m "bsd_name").getD "",
    PartitionName := (strField m "partition_map_type").getD "",
    Size := int64 ((numField m "size_in_bytes").getD 0),
    Volumes :=
      match JSON.get "volumes" m with
      | some (.arr vs) => .of (vs.map volumeOf)
      | _ => .nil }

/-- The `StorageDevice` record of an entry that has a "Media" key: its identity, and one
`Medium` per element of "Media", in order (the nil slice when there is none). -/
def deviceOf (m : List (String × JSON)) : USBInfo :=
  let id := (identityOf m).getD ⟨"", 0, 0, "", "", .nil⟩
  { id with
    Media :=
      match JSON.get "Media" m with
      | some (.arr (x :: ms)) => .of ((x :: ms).map mediumOf)
      | _ => .nil }

mutual
/-- The entries with a "Media" key found under an "_items" value, in the order of a
depth-first, left-to-right traversal. -/
def mediaItems : JSON → List (List (String × JSON))
  | .arr xs => mediaEntries xs
  | _ => []
/-- The entries with a "Media" key found in or under the elements of a list, in order. -/
def mediaEntries : List JSON → List (List (String × JSON))
  | [] => []
  | x :: xs => mediaEntry x ++ mediaEntries xs
/-- The entries with a "Media" key found in or under one element: those under its "_items",
then the element itself if it has a "Media" key. -/
def mediaEntry : JSON → List (List (String × JSON))
  | .obj m => mediaItemsField m ++ (if (JSON.get "Media" m).isSome then [m] else [])
  | _ => []
/-- The entries with a "Media" key found under the "_items" key of an object. -/
def mediaItemsField : List (String × JSON) → List (List (String × JSON))
  | [] => []
  | (k, v) :: rest => if k = "_items" then mediaItems v else mediaItemsField rest
end

/-- The entries with a "Media" key found under the "_items" of the top-level entries, in
order. -/
def mediaBuses : List JSON → List (List (String × JSON))
  | [] => []
  | b :: bs => mediaItemsField (fieldsOf b) ++ mediaBuses bs

/-- The reference flattening of an input: the `StorageDevice` records of the entries with a
"Media" key found under the "_items" of the top-level entries, at any depth, in the order of
a depth-first, left-to-right traversal. -/
def referenceDevices : JSON → List USBInfo
  | .obj d =>
    match JSON.get "SPUSBDataType" d with
    | some (.arr buses) => (mediaBuses buses).map deviceOf
    | _ => []
  | _ => []

/-- A small input that conforms to the schema: a bus without items, and a bus with a keyboard
(no "Media"), a hub whose "_items" holds a pen drive with one medium and two volumes, and a
card reader that has both "_items" (holding a card with no media) and "Media". -/
def sampleTree : JSON :=
  .obj [("SPUSBDataType", .arr [
    .obj [("_name", .str "USB31Bus")],
    .obj [("_items", .arr [
      .obj [("_name", .str "Keyboard"), ("vendor_id", .str "apple_vendor_id")],
      .obj [("_name", .str "Hub"), ("_items", .arr [
        .obj [("_name", .str "PenDrive"), ("manufacturer", .str "Innostor"),
          ("Media", .arr [
            .obj [("_name", .str "Innostor"), ("bsd_name", .str "disk5"),
              ("partition_map_type", .str "guid_partition_map_type"),
              ("size_in_bytes", .num 62495038464),
              ("volumes", .arr [
                .obj [("_name", .str "EFI"), ("bsd_name", .str "disk5s1"),
                  ("file_system", .str "MS-DOS FAT32"), ("size_in_bytes", .num 209715200),
                  ("volume_uuid", .str "0E239BC6-F960-3107-89CF-1C97F78BB46B")],
                .obj [("_name", .str "OEL9"), ("bsd_name", .str "disk5s2"),
                  ("file_system", .str "ExFAT"), ("free_space_in_bytes", .num 62491787264),
                  ("mount_point", .str "/Volumes/OEL9"), ("size_in_bytes", .num 62283317248),
                  ("volume_uuid", .str "DCB7A2E4-4A50-3E8E-B1B4-12F4B8A1F0C5"),
                  ("writable", .str "yes")]])]]),
          ("product_id", .str "0x0917"), ("serial_num", .str "000000000000000049"),
          ("vendor_id", .str "0x1f75  (Innostor Co., Ltd.)")]])],
      .obj [("_name", .str "Reader"), ("manufacturer", .str "Generic"),
        ("_items", .arr [
          .obj [("_name", .str "Card"), ("manufacturer", .str "Generic"),
            ("Media", .arr []), ("product_id", .str "8"), ("serial_num", .str "7"),
            ("vendor_id", .str "0x05e3")]]),
        ("Media", .arr [
          .obj [("_name", .str "Slot"), ("bsd_name", .str "disk6"),
            ("partition_map_type", .str "unknown_partition_map_type"),
            ("size_in_bytes", .num 0)]]),
        ("product_id", .str "0x0749"), ("serial_num", .str "1"),
        ("vendor_id", .str "0x05e3  (Genesys Logic, Inc.)")]])]])]

/-- Two well-formed media: one without a "volumes" key, one with an empty "volumes" array. -/
def sampleMedia : List JSON :=
  [.obj [("_name", .str "UDisk"), ("bsd_name", .str "disk5"),
     ("partition_map_type", .str "unknown_partition_map_type"),
     ("size_in_bytes", .num 63909113344)],
   .obj [("_name", .str "Card"), ("bsd_name", .str "disk6"),
     ("partition_map_type", .str "master_boot_record_partition_map_type"),
     ("size_in_bytes", .num 1930428416), ("volumes", .arr [])]]

/-- Two well-formed volumes: an unmounted one and a mounted one. -/
def sampleVolumes : List JSON :=
  [.obj [("_name", .str "EFI"), ("bsd_name", .str "disk5s1"),
     ("file_system", .str "MS-DOS FAT32"), ("size_in_bytes", .num 209715200),
     ("volume_uuid", .str "0E239BC6-F960-3107-89CF-1C97F78BB46B")],
   .obj [("_name", .str "OEL9"), ("bsd_name", .str "disk5s2"),
     ("file_system", .str "MS-DOS FAT32"), ("free_space_in_bytes", .num 62491787264),
     ("mount_point", .str "/Volumes/OEL9"), ("size_in_bytes", .num 63697846272),
     ("volume_uuid", .str "6ABA678A-0FF6-3876-83B7-FE44B24110EB"),
     ("writable", .str "yes")]]

/-- A well-formed mounted volume whose "writable" field is the string `w`. -/
def sampleMounted (w : String) : List (String × JSON) :=
  [("_name", .str "TEST"), ("bsd_name", .str "disk5s1"), ("file_system", .str "MS-DOS FAT16"),
   ("free_space_in_bytes", .num 1926168576), ("mount_point", .str "/Volumes/TEST"),
   ("size_in_bytes", .num 1929379840),
   ("volume_uuid", .str "5B2B1E4C-3C9C-3A6B-8F3E-0A1F3B1F4F0E"), ("writable", .str w)]

/-- A volume without a "mount_point" key, whose required fields are well typed and whose
"free_space_in_bytes" and "writable" are the given values when they are given. -/
def sampleUnmounted (free writable : Option JSON) : List (String × JSON) :=
  [("_name", .str "EFI"), ("bsd_name", .str "disk5s1"), ("file_system", .str "MS-DOS FAT32"),
   ("size_in_bytes", .num 209715200),
   ("volume_uuid", .str "0E239BC6-F960-3107-89CF-1C97F78BB46B")] ++
  (match free with
   | some v => [("free_space_in_bytes", v)]
   | none => []) ++
  (match writable with
   | some v => [("writable", v)]
   | none => [])

/-- An entry with well-formed identity fields and "Media": []. -/
def sampleEmptyMedia : List (String × JSON) :=
  [("_name", .str "Card Reader"), ("Media", .arr []), ("manufacturer", .str "Generic"),
   ("product_id", .str "0x0749"), ("serial_num", .str "000000001206"),
   ("vendor_id", .str "0x05e3  (Genesys Logic, Inc.)")]

/-- Entries with neither an "_items" nor a "Media" key: a keyboard without "serial_num" and
"manufacturer" whose "vendor_id" is not a number, a display, and an empty object. -/
def samplePlain : List JSON :=
  [.obj [("_name", .str "Apple Internal Keyboard / Trackpad"),
     ("product_id", .str "0x0341"), ("vendor_id", .str "apple_vendor_id")],
   .obj [("_name", .str "LG UltraFine Display Camera"), ("serial_num", .num 7)],
   .obj []]

/-- The object without the key `k` (the Go `delete(m, k)` on a copy). -/
def eraseKey (k : String) : List (String × JSON) → List (String × JSON)
  | [] => []
  | (k1, v) :: rest => if k1 = k then eraseKey k rest else (k1, v) :: eraseKey k rest

/-- The element of the top-level array as `FindUSBStickInfo` reads it: an object without its
"Media" key, any other value as it is. -/
def dropMedia : JSON → JSON
  | .obj m => .obj (eraseKey "Media" m)
  | other => other

/-- A well-formed entry that has both an "_items" key, holding the entry `sampleEmptyMedia`,
and a "Media" key. -/
def sampleBoth : List (String × JSON) :=
  [("_name", .str "Hub Disk"), ("_items", .arr [.obj sampleEmptyMedia]),
   ("Media", .arr sampleMedia), ("manufacturer", .str "Generic"),
   ("product_id", .str "0x0610"), ("serial_num", .str "1"),
   ("vendor_id", .str "0x05e3  (Genesys Logic, Inc.)")]

/-- A medium whose required fields are well typed and whose "volumes" value is a string, not
an array. -/
def sampleBadMedium : List (String × JSON) :=
  [("_name", .str "Innostor"), ("bsd_name", .str "disk5"),
   ("partition_map_type", .str "guid_partition_map_type"),
   ("size_in_bytes", .num 63909113344), ("volumes", .str "none")]

/-- An entry with well-formed identity fields whose "Media" holds `sampleBadMedium`. -/
def sampleBadEntry : List (String × JSON) :=
  [("_name", .str "PenDrive"), ("manufacturer", .str "Innostor"),
   ("Media", .arr [.obj sampleBadMedium]),
   ("product_id", .str "0x0917"), ("serial_num", .str "000000000000004010"),
   ("vendor_id", .str "0x1f75  (Innostor Co., Ltd.)")]

/-- An input in which the "volumes" value of medium 0 of item 2 of top-level entry 3 is a
string, not an array; everything walked before it is well formed. -/
def sampleBadVolumes : JSON :=
  .obj [("SPUSBDataType", .arr [
    .obj [("_name", .str "USB31Bus")],
    .obj [("_name", .str "USB31Bus")],
    .obj [("_name", .str "USB31Bus")],
    .obj [("_name", .str "USB31Bus"), ("_items", .arr [
      .obj [("_name", .str "Keyboard")],
      .obj [("_name", .str "Camera")],
      .obj sampleBadEntry])]])]

/-- The ids of the device `u` are those written in the entry `m`: `u` has the name of `m`,
its `ProductID` is the number that `ParseUint`, with base 0 and 16 bits, reads without error
from the "product_id" string of `m`, its `VendorID` the number read from the text before the
first space of the "vendor_id" string of `m`, both are at most 65535, and when one of the
two texts is an integer literal the id is the number that the literal denotes. -/
def IdsOf (m : List (String × JSON)) (u : USBInfo) : Prop :=
  strField m "_name" = some u.Name ∧
    ∃ (pid vid field0 : String) (rest : List String),
      strField m "product_id" = some pid ∧ strField m "vendor_id" = some vid ∧
      SplitN vid ' ' = field0 :: rest ∧
      ParseUint pid 0 16 = (u.ProductID, none) ∧ ParseUint field0 0 16 = (u.VendorID, none) ∧
      u.ProductID ≤ 65535 ∧ u.VendorID ≤ 65535 ∧
      (∀ n, IsLiteral pid n → u.ProductID = n) ∧ (∀ n, IsLiteral field0 n → u.VendorID = n)

mutual
/-- The nesting depth of a JSON value: 0 for a scalar, one more than the deepest element for
an array, one more than the deepest value for an object. -/
def JSON.depth : JSON → Nat
  | .arr xs => JSON.depthList xs + 1
  | .obj m => JSON.depthFields m + 1
  | _ => 0
/-- The depth of the deepest element of a list. -/
def JSON.depthList : List JSON → Nat
  | [] => 0
  | x :: xs => max (JSON.depth x) (JSON.depthList xs)
/-- The depth of the deepest value of the bindings of an object. -/
def JSON.depthFields : List (String × JSON) → Nat
  | [] => 0
  | (_, v) :: rest => max (JSON.depth v) (JSON.depthFields rest)
end

/-- The loop `for i, x := range xs { ... }` as in `forRange`, for a body that makes a call
which may not have returned: `none` is a run that has not ended. -/
def forRangeRun {α : Type}
    (body : Nat → JSON → List α → Option (Except (Outcome α) (List α))) :
    Nat → List JSON → List α → Option (Outcome α)
  | _, [], acc => some (.returns (.of acc) none)
  | i, x :: rest, acc =>
    match body i x acc with
    | none => none
    | some (.error out) => some out
    | some (.ok acc1) => forRangeRun body (i + 1) rest acc1

/-- The body of the loop of `FindInItems` for the element `item` at index `i` (lines 176-220)
when the call `FindInItems(it, ...)` of line 182 is run by `callee`, which gives `none` when
the call has not returned. -/
def FindInItems.bodyRun (callee : JSON → String → Option (Outcome USBInfo)) (path : String)
    (i : Nat) (item : JSON) (uis : List USBInfo) :
    Option (Except (Outcome USBInfo) (List USBInfo)) :=
  match item with
  | .obj itemMap =>
    let children : Option (Except (Outcome USBInfo) (List USBInfo)) :=
      match JSON.get "_items" itemMap with
      | none => some (.ok uis)
      | some it =>
        match callee it (path ++ "[" ++ fmtInt i ++ "][_items]") with
        | none => none
        | some (.panics msg) => some (.error (.panics msg))
        | some (.returns _ (some err)) => some (.error (.returns .nil (some (.wrapf
            ("failed to parse " ++ path ++ "[" ++ fmtInt i ++ "][_items]: ") err))))
        | some (.returns ui none) => some (.ok (uis ++ ui.elems))
    match children with
    | none => none
    | some (.error out) => some (.error out)
    | some (.ok uis1) =>
      match JSON.get "Media" itemMap with
      | none => some (.ok uis1)
      | some it =>
        match FindInItems.usbInfo itemMap it path i with
        | .error out => some (.error out)
        | .ok usbInfo => some (.ok (uis1 ++ [usbInfo]))
  | other => some (.error (.returns .nil (some (.errorf
      (path ++ "[" ++ fmtInt i ++ "] (" ++ other.typeName ++
        ") is not map[string]interface{} type")))))

/-- Go `FindInItems(items, path)` as the source has it, a function that calls itself (line
182), run with a bound on the depth of the nested calls: a call made with no `fuel` left has
not returned (`none`), and the calls made by a call with `fuel + 1` are run with `fuel`. -/
def FindInItems.run : Nat → JSON → String → Option (Outcome USBInfo)
  | 0, _, _ => none
  | fuel + 1, items, path =>
    match items with
    | .arr ita => forRangeRun (FindInItems.bodyRun (FindInItems.run fuel) path) 0 ita []
    | other => some (.returns .nil (some (.errorf
        (path ++ " (" ++ other.typeName ++ ") is not []interface{} type"))))

/-- The body of the loop of `FindUSBStickInfo` for the element `dti` at index `i` (lines
240-253) when the call of `FindInItems` is run by `callee`. -/
def FindUSBStickInfo.bodyRun (callee : JSON → String → Option (Outcome USBInfo)) (i : Nat)
    (dti : JSON) (uis : List USBInfo) : Option (Except (Outcome USBInfo) (List USBInfo)) :=
  match dti with
  | .obj dtiMap =>
    match JSON.get "_items" dtiMap with
    | some dt =>
      match callee dt ("data[SPUSBDataType][" ++ fmtInt i ++ "][_items]") with
      | none => none
      | some (.panics msg) => some (.error (.panics msg))
      | some (.returns _ (some err)) => some (.error (.returns .nil (some (.wrapf
          ("failed to parse data[SPUSBDataType][" ++ fmtInt i ++ "][_items]: ") err))))
      | some (.returns ui none) => some (.ok (uis ++ ui.elems))
    | none => some (.ok uis)
  | other => some (.error (.returns .nil (some (.errorf
      ("data[SPUSBDataType][" ++ fmtInt i ++ "] (" ++ other.typeName ++
        ") is not map[string]interface{} type")))))

/-- Go `FindUSBStickInfo(data)` with its calls of `FindInItems` run with `fuel`. -/
def FindUSBStickInfo.run (fuel : Nat) (data : JSON) : Option (Outcome USBInfo) :=
  match data with
  | .obj d =>
    match JSON.get "SPUSBDataType" d with
    | none => some (.returns .nil (some (.valuef "data missing SPUSBDataType entry: " data)))
    | some dt =>
      match dt with
      | .arr dta => forRangeRun (FindUSBStickInfo.bodyRun (FindInItems.run fuel)) 0 dta []
      | other => some (.returns .nil (some (.errorf
          ("data[SPUSBDataType] (" ++ other.typeName ++ ") is not []interface{} type"))))
  | other => some (.returns .nil (some (.errorf
      ("data (" ++ other.typeName ++ ") is not map[string]interface{} type"))))

/-! ## The fixtures of `main.go` -/

/-- The constant `noPartition` of `main.go` (un-partitioned USB stick) as `json.Unmarshal`
decodes it: the keys of each object in the order of the text (no key occurs twice in an
object), and every number the `float64` of the integer written. -/
def noPartition : JSON :=
  .obj [
   ("SPUSBDataType", .arr [
    .obj [
     ("_name", .str "USB31Bus"),
     ("host_controller", .str "AppleT6000USBXHCI")],
    .obj [
     ("_items", .arr [
      .obj [
       ("_name", .str "YubiKey OTP+FIDO+CCID"),
       ("bcd_device", .str "5.43"),
       ("bus_power", .str "500"),
       ("bus_power_used", .str "30"),
       ("device_speed", .str "full_speed"),
       ("extra_current_used", .str "0"),
       ("location_id", .str "0x00100000 / 1"),
       ("manufacturer", .str "Yubico"),
       ("product_id", .str "0x0407"),
       ("vendor_id", .str "0x1050")]]),
     ("_name", .str "USB31Bus"),
     ("host_controller", .str "AppleT6000USBXHCI")],
    .obj [
     ("_name", .str "USB31Bus"),
     ("host_controller", .str "AppleT6000USBXHCI")],
    .obj [
     ("_items", .arr [
      .obj [
       ("_items", .arr [
        .obj [
         ("_items", .arr [
          .obj [
           ("_name", .str "LG UltraFine Display Camera"),
           ("bcd_device", .str "1.13"),
           ("bus_power", .str "900"),
           ("bus_power_used", .str "96"),
           ("device_speed", .str "super_speed"),
           ("extra_current_used", .str "0"),
           ("location_id", .str "0x03543000 / 8"),
           ("manufacturer", .str "LG Electronlcs Inc."),
           ("product_id", .str "0x9a4d"),
           ("vendor_id", .str "0x043e  (LG Electronics USA Inc.)")]]),
         ("_name", .str "hub_device"),
         ("bcd_device", .str "1.00"),
         ("bus_power", .str "900"),
         ("bus_power_used", .str "0"),
         ("device_speed", .str "super_speed"),
         ("extra_current_used", .str "0"),
         ("location_id", .str "0x03540000 / 3"),
         ("product_id", .str "0x9a00"),
         ("vendor_id", .str "0x043e  (LG Electronics USA Inc.)")]]),
       ("_name", .str "USB3.1 Hub"),
       ("bcd_device", .str "52.35"),
       ("bus_power", .str "900"),
       ("bus_power_used", .str "0"),
       ("device_speed", .str "super_speed"),
       ("extra_current_used", .str "0"),
       ("location_id", .str "0x03500000 / 1"),
       ("manufacturer", .str "LG Electronics Inc."),
       ("product_id", .str "0x9a44"),
       ("vendor_id", .str "0x043e  (LG Electronics USA Inc.)")],
      .obj [
       ("_items", .arr [
        .obj [
         ("_name", .str "Magic Keyboard"),
         ("bcd_device", .str "4.20"),
         ("bus_power", .str "500"),
         ("bus_power_used", .str "500"),
         ("device_speed", .str "full_speed"),
         ("extra_current_used", .str "1000"),
         ("location_id", .str "0x03120000 / 5"),
         ("manufacturer", .str "Apple Inc."),
         ("product_id", .str "0x029c"),
         ("serial_num", .str "F0T2534RK0212HXAT"),
         ("sleep_current", .str "1500"),
         ("vendor_id", .str "apple_vendor_id")],
        .obj [
         ("_items", .arr [
          .obj [
           ("_name", .str "USB Controls"),
           ("bcd_device", .str "3.04"),
           ("bus_power", .str "500"),
           ("bus_power_used", .str "0"),
           ("device_speed", .str "full_speed"),
           ("extra_current_used", .str "0"),
           ("location_id", .str "0x03142000 / 7"),
           ("manufacturer", .str "LG Electronics Inc."),
           ("product_id", .str "0x9a40"),
           ("vendor_id", .str "0x043e  (LG Electronics USA Inc.)")],
          .obj [
           ("_name", .str "USB Audio"),
           ("bcd_device", .str "0.1e"),
           ("bus_power", .str "500"),
           ("bus_power_used", .str "0"),
           ("device_speed", .str "high_speed"),
           ("extra_current_used", .str "0"),
           ("location_id", .str "0x03141000 / 6"),
           ("manufacturer", .str "LG Electronics Inc."),
           ("product_id", .str "0x9a4b"),
           ("vendor_id", .str "0x043e  (LG Electronics USA Inc.)")]]),
         ("_name", .str "hub_device"),
         ("bcd_device", .str "1.00"),
         ("bus_power", .str "500"),
         ("bus_power_used", .str "0"),
         ("device_speed", .str "high_speed"),
         ("extra_current_used", .str "0"),
         ("location_id", .str "0x03140000 / 4"),
         ("product_id", .str "0x9a02"),
         ("serial_num", .str "610C00596BFB"),
         ("vendor_id", .str "0x043e  (LG Electronics USA Inc.)")]]),
       ("_name", .str "USB2.1 Hub"),
       ("bcd_device", .str "52.35"),
       ("bus_power", .str "500"),
       ("bus_power_used", .str "100"),
       ("device_speed", .str "high_speed"),
       ("extra_current_used", .str "0"),
       ("location_id", .str "0x03100000 / 2"),
       ("manufacturer", .str "LG Electronics Inc."),
       ("product_id", .str "0x9a46"),
       ("vendor_id", .str "0x043e  (LG Electronics USA Inc.)")]]),
     ("_name", .str "USB30Bus"),
     ("host_controller", .str "AppleUSBXHCIFL1100"),
     ("pci_device", .str "0x1100 "),
     ("pci_revision", .str "0x0010 "),
     ("pci_vendor", .str "0x1b73 ")],
    .obj [
     ("_items", .arr [
      .obj [
       ("_items", .arr [
        .obj [
         ("_name", .str "Apple Thunderbolt Display"),
         ("bcd_device", .str "1.39"),
         ("Built-in_Device", .str "Yes"),
         ("bus_power", .str "500"),
         ("bus_power_used", .str "2"),
         ("device_speed", .str "full_speed"),
         ("extra_current_used", .str "0"),
         ("location_id", .str "0x40170000 / 3"),
         ("manufacturer", .str "Apple Inc."),
         ("product_id", .str "0x9227"),
         ("serial_num", .str "182F0F36"),
         ("vendor_id", .str "apple_vendor_id")],
        .obj [
         ("_name", .str "FaceTime HD Camera (Display)"),
         ("bcd_device", .str "71.60"),
         ("Built-in_Device", .str "Yes"),
         ("bus_power", .str "500"),
         ("bus_power_used", .str "500"),
         ("device_speed", .str "high_speed"),
         ("extra_current_used", .str "0"),
         ("location_id", .str "0x40150000 / 2"),
         ("manufacturer", .str "Apple Inc."),
         ("product_id", .str "0x1112"),
         ("serial_num", .str "CC2D3C067PDJ9FLP"),
         ("vendor_id", .str "apple_vendor_id")],
        .obj [
         ("_name", .str "Display Audio"),
         ("bcd_device", .str "2.09"),
         ("Built-in_Device", .str "Yes"),
         ("bus_power", .str "500"),
         ("bus_power_used", .str "2"),
         ("device_speed", .str "full_speed"),
         ("extra_current_used", .str "0"),
         ("location_id", .str "0x40140000 / 4"),
         ("manufacturer", .str "Apple Inc."),
         ("product_id", .str "0x1107"),
         ("serial_num", .str "182F0F36"),
         ("vendor_id", .str "apple_vendor_id")],
        .obj [
         ("_name", .str "PenDrive"),
         ("bcd_device", .str "0.01"),
         ("bus_power", .str "500"),
         ("bus_power_used", .str "200"),
         ("device_speed", .str "high_speed"),
         ("extra_current_used", .str "0"),
         ("location_id", .str "0x40120000 / 5"),
         ("manufacturer", .str "Innostor"),
         ("Media", .arr [
          .obj [
           ("_name", .str "Innostor"),
           ("bsd_name", .str "disk5"),
           ("Logical Unit", .num 0),
           ("partition_map_type", .str "unknown_partition_map_type"),
           ("removable_media", .str "yes"),
           ("size", .str "63.91 GB"),
           ("size_in_bytes", .num 63909113344),
           ("smart_status", .str "Verified"),
           ("USB Interface", .num 0)]]),
         ("product_id", .str "0x0917"),
         ("serial_num", .str "000000000000005309"),
         ("vendor_id", .str "0x1f75  (Innostor Co., Ltd.)")]]),
       ("_name", .str "hub_device"),
       ("bcd_device", .str "1.00"),
       ("Built-in_Device", .str "Yes"),
       ("bus_power", .str "500"),
       ("bus_power_used", .str "100"),
       ("device_speed", .str "high_speed"),
       ("extra_current_used", .str "0"),
       ("location_id", .str "0x40100000 / 1"),
       ("product_id", .str "0x9127"),
       ("vendor_id", .str "apple_vendor_id")]]),
     ("_name", .str "USB20Bus"),
     ("host_controller", .str "AppleUSBEHCIPI7C9X440SL"),
     ("pci_device", .str "0x400f "),
     ("pci_revision", .str "0x0003 "),
     ("pci_vendor", .str "0x12d8 ")]])]

/-- The constant `GPTPartitioned` of `main.go` (GPT-partitioned USB stick) as `json.Unmarshal`
decodes it: the keys of each object in the order of the text (no key occurs twice in an
object), and every number the `float64` of the integer written. -/
def GPTPartitioned : JSON :=
  .obj [
   ("SPUSBDataType", .arr [
    .obj [
     ("_name", .str "USB31Bus"),
     ("host_controller", .str "AppleT6000USBXHCI")],
    .obj [
     ("_items", .arr [
      .obj [
       ("_name", .str "YubiKey OTP+FIDO+CCID"),
       ("bcd_device", .str "5.43"),
       ("bus_power", .str "500"),
       ("bus_power_used", .str "30"),
       ("device_speed", .str "full_speed"),
       ("extra_current_used", .str "0"),
       ("location_id", .str "0x00100000 / 1"),
       ("manufacturer", .str "Yubico"),
       ("product_id", .str "0x0407"),
       ("vendor_id", .str "0x1050")]]),
     ("_name", .str "USB31Bus"),
     ("host_controller", .str "AppleT6000USBXHCI")],
    .obj [
     ("_name", .str "USB31Bus"),
     ("host_controller", .str "AppleT6000USBXHCI")],
    .obj [
     ("_items", .arr [
      .obj [
       ("_items", .arr [
        .obj [
         ("_items", .arr [
          .obj [
           ("_name", .str "LG UltraFine Display Camera"),
           ("bcd_device", .str "1.13"),
           ("bus_power", .str "900"),
           ("bus_power_used", .str "96"),
           ("device_speed", .str "super_speed"),
           ("extra_current_used", .str "0"),
           ("location_id", .str "0x03543000 / 8"),
           ("manufacturer", .str "LG Electronlcs Inc."),
           ("product_id", .str "0x9a4d"),
           ("vendor_id", .str "0x043e  (LG Electronics USA Inc.)")]]),
         ("_name", .str "hub_device"),
         ("bcd_device", .str "1.00"),
         ("bus_power", .str "900"),
         ("bus_power_used", .str "0"),
         ("device_speed", .str "super_speed"),
         ("extra_current_used", .str "0"),
         ("location_id", .str "0x03540000 / 3"),
         ("product_id", .str "0x9a00"),
         ("vendor_id", .str "0x043e  (LG Electronics USA Inc.)")]]),
       ("_name", .str "USB3.1 Hub"),
       ("bcd_device", .str "52.35"),
       ("bus_power", .str "900"),
       ("bus_power_used", .str "0"),
       ("device_speed", .str "super_speed"),
       ("extra_current_used", .str "0"),
       ("location_id", .str "0x03500000 / 1"),
       ("manufacturer", .str "LG Electronics Inc."),
       ("product_id", .str "0x9a44"),
       ("vendor_id", .str "0x043e  (LG Electronics USA Inc.)")],
      .obj [
       ("_items", .arr [
        .obj [
         ("_name", .str "Magic Keyboard"),
         ("bcd_device", .str "4.20"),
         ("bus_power", .str "500"),
         ("bus_power_used", .str "500"),
         ("device_speed", .str "full_speed"),
         ("extra_current_used", .str "1000"),
         ("location_id", .str "0x03120000 / 5"),
         ("manufacturer", .str "Apple Inc."),
         ("product_id", .str "0x029c"),
         ("serial_num", .str "F0T2534RK0212HXAT"),
         ("sleep_current", .str "1500"),
         ("vendor_id", .str "apple_vendor_id")],
        .obj [
         ("_items", .arr [
          .obj [
           ("_name", .str "USB Controls"),
           ("bcd_device", .str "3.04"),
           ("bus_power", .str "500"),
           ("bus_power_used", .str "0"),
           ("device_speed", .str "full_speed"),
           ("extra_current_used", .str "0"),
           ("location_id", .str "0x03142000 / 7"),
           ("manufacturer", .str "LG Electronics Inc."),
           ("product_id", .str "0x9a40"),
           ("vendor_id", .str "0x043e  (LG Electronics USA Inc.)")],
          .obj [
           ("_name", .str "USB Audio"),
           ("bcd_device", .str "0.1e"),
           ("bus_power", .str "500"),
           ("bus_power_used", .str "0"),
           ("device_speed", .str "high_speed"),
           ("extra_current_used", .str "0"),
           ("location_id", .str "0x03141000 / 6"),
           ("manufacturer", .str "LG Electronics Inc."),
           ("product_id", .str "0x9a4b"),
           ("vendor_id", .str "0x043e  (LG Electronics USA Inc.)")]]),
         ("_name", .str "hub_device"),
         ("bcd_device", .str "1.00"),
         ("bus_power", .str "500"),
         ("bus_power_used", .str "0"),
         ("device_speed", .str "high_speed"),
         ("extra_current_used", .str "0"),
         ("location_id", .str "0x03140000 / 4"),
         ("product_id", .str "0x9a02"),
         ("serial_num", .str "610C00596BFB"),
         ("vendor_id", .str "0x043e  (LG Electronics USA Inc.)")]]),
       ("_name", .str "USB2.1 Hub"),
       ("bcd_device", .str "52.35"),
       ("bus_power", .str "500"),
       ("bus_power_used", .str "100"),
       ("device_speed", .str "high_speed"),
       ("extra_current_used", .str "0"),
       ("location_id", .str "0x03100000 / 2"),
       ("manufacturer", .str "LG Electronics Inc."),
       ("product_id", .str "0x9a46"),
       ("vendor_id", .str "0x043e  (LG Electronics USA Inc.)")]]),
     ("_name", .str "USB30Bus"),
     ("host_controller", .str "AppleUSBXHCIFL1100"),
     ("pci_device", .str "0x1100 "),
     ("pci_revision", .str "0x0010 "),
     ("pci_vendor", .str "0x1b73 ")],
    .obj [
     ("_items", .arr [
      .obj [
       ("_items", .arr [
        .obj [
         ("_name", .str "Apple Thunderbolt Display"),
         ("bcd_device", .str "1.39"),
         ("Built-in_Device", .str "Yes"),
         ("bus_power", .str "500"),
         ("bus_power_used", .str "2"),
         ("device_speed", .str "full_speed"),
         ("extra_current_used", .str "0"),
         ("location_id", .str "0x40170000 / 3"),
         ("manufacturer", .str "Apple Inc."),
         ("product_id", .str "0x9227"),
         ("serial_num", .str "182F0F36"),
         ("vendor_id", .str "apple_vendor_id")],
        .obj [
         ("_name", .str "FaceTime HD Camera (Display)"),
         ("bcd_device", .str "71.60"),
         ("Built-in_Device", .str "Yes"),
         ("bus_power", .str "500"),
         ("bus_power_used", .str "500"),
         ("device_speed", .str "high_speed"),
         ("extra_current_used", .str "0"),
         ("location_id", .str "0x40150000 / 2"),
         ("manufacturer", .str "Apple Inc."),
         ("product_id", .str "0x1112"),
         ("serial_num", .str "CC2D3C067PDJ9FLP"),
         ("vendor_id", .str "apple_vendor_id")],
        .obj [
         ("_name", .str "Display Audio"),
         ("bcd_device", .str "2.09"),
         ("Built-in_Device", .str "Yes"),
         ("bus_power", .str "500"),
         ("bus_power_used", .str "2"),
         ("device_speed", .str "full_speed"),
         ("extra_current_used", .str "0"),
         ("location_id", .str "0x40140000 / 4"),
         ("manufacturer", .str "Apple Inc."),
         ("product_id", .str "0x1107"),
         ("serial_num", .str "182F0F36"),
         ("vendor_id", .str "apple_vendor_id")],
        .obj [
         ("_name", .str "PenDrive"),
         ("bcd_device", .str "0.01"),
         ("bus_power", .str "500"),
         ("bus_power_used", .str "200"),
         ("device_speed", .str "high_speed"),
         ("extra_current_used", .str "0"),
         ("location_id", .str "0x40110000 / 5"),
         ("manufacturer", .str "Innostor"),
         ("Media", .arr [
          .obj [
           ("_name", .str "Innostor"),
           ("bsd_name", .str "disk5"),
           ("Logical Unit", .num 0),
           ("partition_map_type", .str "guid_partition_map_type"),
           ("removable_media", .str "yes"),
           ("size", .str "63.91 GB"),
           ("size_in_bytes", .num 63909113344),
           ("smart_status", .str "Verified"),
           ("USB Interface", .num 0),
           ("volumes", .arr [
            .obj [
             ("_name", .str "EFI"),
             ("bsd_name", .str "disk5s1"),
             ("file_system", .str "MS-DOS FAT32"),
             ("iocontent", .str "EFI"),
             ("size", .str "209.7 MB"),
             ("size_in_bytes", .num 209715200),
             ("volume_uuid", .str "0E239BC6-F960-3107-89CF-1C97F78BB46B")],
            .obj [
             ("_name", .str "OEL9"),
             ("bsd_name", .str "disk5s2"),
             ("file_system", .str "MS-DOS FAT32"),
             ("free_space", .str "62.49 GB"),
             ("free_space_in_bytes", .num 62491787264),
             ("iocontent", .str "Microsoft Basic Data"),
             ("mount_point", .str "/Volumes/OEL9"),
             ("size", .str "63.7 GB"),
             ("size_in_bytes", .num 63697846272),
             ("volume_uuid", .str "6ABA678A-0FF6-3876-83B7-FE44B24110EB"),
             ("writable", .str "yes")]])]]),
         ("product_id", .str "0x0917"),
         ("serial_num", .str "000000000000004010"),
         ("vendor_id", .str "0x1f75  (Innostor Co., Ltd.)")]]),
       ("_name", .str "hub_device"),
       ("bcd_device", .str "1.00"),
       ("Built-in_Device", .str "Yes"),
       ("bus_power", .str "500"),
       ("bus_power_used", .str "100"),
       ("device_speed", .str "high_speed"),
       ("extra_current_used", .str "0"),
       ("location_id", .str "0x40100000 / 1"),
       ("product_id", .str "0x9127"),
       ("vendor_id", .str "apple_vendor_id")]]),
     ("_name", .str "USB20Bus"),
     ("host_controller", .str "AppleUSBEHCIPI7C9X440SL"),
     ("pci_device", .str "0x400f "),
     ("pci_revision", .str "0x0003 "),
     ("pci_vendor", .str "0x12d8 ")]])]

/-- The constant `MBRPartitioned` of `main.go` (MBR-partitioned USB stick) as `json.Unmarshal`
decodes it: the keys of each object in the order of the text (no key occurs twice in an
object), and every number the `float64` of the integer written. -/
def MBRPartitioned : JSON :=
  .obj [
   ("SPUSBDataType", .arr [
    .obj [
     ("_name", .str "USB31Bus"),
     ("host_controller", .str "AppleT6000USBXHCI")],
    .obj [
     ("_items", .arr [
      .obj [
       ("_name", .str "YubiKey OTP+FIDO+CCID"),
       ("bcd_device", .str "5.43"),
       ("bus_power", .str "500"),
       ("bus_power_used", .str "30"),
       ("device_speed", .str "full_speed"),
       ("extra_current_used", .str "0"),
       ("location_id", .str "0x00100000 / 1"),
       ("manufacturer", .str "Yubico"),
       ("product_id", .str "0x0407"),
       ("vendor_id", .str "0x1050")]]),
     ("_name", .str "USB31Bus"),
     ("host_controller", .str "AppleT6000USBXHCI")],
    .obj [
     ("_name", .str "USB31Bus"),
     ("host_controller", .str "AppleT6000USBXHCI")],
    .obj [
     ("_items", .arr [
      .obj [
       ("_items", .arr [
        .obj [
         ("_items", .arr [
          .obj [
           ("_name", .str "LG UltraFine Display Camera"),
           ("bcd_device", .str "1.13"),
           ("bus_power", .str "900"),
           ("bus_power_used", .str "96"),
           ("device_speed", .str "super_speed"),
           ("extra_current_used", .str "0"),
           ("location_id", .str "0x03543000 / 8"),
           ("manufacturer", .str "LG Electronlcs Inc."),
           ("product_id", .str "0x9a4d"),
           ("vendor_id", .str "0x043e  (LG Electronics USA Inc.)")]]),
         ("_name", .str "hub_device"),
         ("bcd_device", .str "1.00"),
         ("bus_power", .str "900"),
         ("bus_power_used", .str "0"),
         ("device_speed", .str "super_speed"),
         ("extra_current_used", .str "0"),
         ("location_id", .str "0x03540000 / 3"),
         ("product_id", .str "0x9a00"),
         ("vendor_id", .str "0x043e  (LG Electronics USA Inc.)")]]),
       ("_name", .str "USB3.1 Hub"),
       ("bcd_device", .str "52.35"),
       ("bus_power", .str "900"),
       ("bus_power_used", .str "0"),
       ("device_speed", .str "super_speed"),
       ("extra_current_used", .str "0"),
       ("location_id", .str "0x03500000 / 1"),
       ("manufacturer", .str "LG Electronics Inc."),
       ("product_id", .str "0x9a44"),
       ("vendor_id", .str "0x043e  (LG Electronics USA Inc.)")],
      .obj [
       ("_items", .arr [
        .obj [
         ("_name", .str "Magic Keyboard"),
         ("bcd_device", .str "4.20"),
         ("bus_power", .str "500"),
         ("bus_power_used", .str "500"),
         ("device_speed", .str "full_speed"),
         ("extra_current_used", .str "1000"),
         ("location_id", .str "0x03120000 / 5"),
         ("manufacturer", .str "Apple Inc."),
         ("product_id", .str "0x029c"),
         ("serial_num", .str "F0T2534RK0212HXAT"),
         ("sleep_current", .str "1500"),
         ("vendor_id", .str "apple_vendor_id")],
        .obj [
         ("_items", .arr [
          .obj [
           ("_name", .str "USB Controls"),
           ("bcd_device", .str "3.04"),
           ("bus_power", .str "500"),
           ("bus_power_used", .str "0"),
           ("device_speed", .str "full_speed"),
           ("extra_current_used", .str "0"),
           ("location_id", .str "0x03142000 / 7"),
           ("manufacturer", .str "LG Electronics Inc."),
           ("product_id", .str "0x9a40"),
           ("vendor_id", .str "0x043e  (LG Electronics USA Inc.)")],
          .obj [
           ("_name", .str "USB Audio"),
           ("bcd_device", .str "0.1e"),
           ("bus_power", .str "500"),
           ("bus_power_used", .str "0"),
           ("device_speed", .str "high_speed"),
           ("extra_current_used", .str "0"),
           ("location_id", .str "0x03141000 / 6"),
           ("manufacturer", .str "LG Electronics Inc."),
           ("product_id", .str "0x9a4b"),
           ("vendor_id", .str "0x043e  (LG Electronics USA Inc.)")]]),
         ("_name", .str "hub_device"),
         ("bcd_device", .str "1.00"),
         ("bus_power", .str "500"),
         ("bus_power_used", .str "0"),
         ("device_speed", .str "high_speed"),
         ("extra_current_used", .str "0"),
         ("location_id", .str "0x03140000 / 4"),
         ("product_id", .str "0x9a02"),
         ("serial_num", .str "610C00596BFB"),
         ("vendor_id", .str "0x043e  (LG Electronics USA Inc.)")]]),
       ("_name", .str "USB2.1 Hub"),
       ("bcd_device", .str "52.35"),
       ("bus_power", .str "500"),
       ("bus_power_used", .str "100"),
       ("device_speed", .str "high_speed"),
       ("extra_current_used", .str "0"),
       ("location_id", .str "0x03100000 / 2"),
       ("manufacturer", .str "LG Electronics Inc."),
       ("product_id", .str "0x9a46"),
       ("vendor_id", .str "0x043e  (LG Electronics USA Inc.)")]]),
     ("_name", .str "USB30Bus"),
     ("host_controller", .str "AppleUSBXHCIFL1100"),
     ("pci_device", .str "0x1100 "),
     ("pci_revision", .str "0x0010 "),
     ("pci_vendor", .str "0x1b73 ")],
    .obj [
     ("_items", .arr [
      .obj [
       ("_items", .arr [
        .obj [
         ("_name", .str "Apple Thunderbolt Display"),
         ("bcd_device", .str "1.39"),
         ("Built-in_Device", .str "Yes"),
         ("bus_power", .str "500"),
         ("bus_power_used", .str "2"),
         ("device_speed", .str "full_speed"),
         ("extra_current_used", .str "0"),
         ("location_id", .str "0x40170000 / 3"),
         ("manufacturer", .str "Apple Inc."),
         ("product_id", .str "0x9227"),
         ("serial_num", .str "182F0F36"),
         ("vendor_id", .str "apple_vendor_id")],
        .obj [
         ("_name", .str "FaceTime HD Camera (Display)"),
         ("bcd_device", .str "71.60"),
         ("Built-in_Device", .str "Yes"),
         ("bus_power", .str "500"),
         ("bus_power_used", .str "500"),
         ("device_speed", .str "high_speed"),
         ("extra_current_used", .str "0"),
         ("location_id", .str "0x40150000 / 2"),
         ("manufacturer", .str "Apple Inc."),
         ("product_id", .str "0x1112"),
         ("serial_num", .str "CC2D3C067PDJ9FLP"),
         ("vendor_id", .str "apple_vendor_id")],
        .obj [
         ("_name", .str "Display Audio"),
         ("bcd_device", .str "2.09"),
         ("Built-in_Device", .str "Yes"),
         ("bus_power", .str "500"),
         ("bus_power_used", .str "2"),
         ("device_speed", .str "full_speed"),
         ("extra_current_used", .str "0"),
         ("location_id", .str "0x40140000 / 4"),
         ("manufacturer", .str "Apple Inc."),
         ("product_id", .str "0x1107"),
         ("serial_num", .str "182F0F36"),
         ("vendor_id", .str "apple_vendor_id")],
        .obj [
         ("_name", .str "Flash Disk"),
         ("bcd_device", .str "1.09"),
         ("bus_power", .str "500"),
         ("bus_power_used", .str "200"),
         ("device_speed", .str "high_speed"),
         ("extra_current_used", .str "0"),
         ("location_id", .str "0x40110000 / 5"),
         ("manufacturer", .str "USB"),
         ("Media", .arr [
          .obj [
           ("_name", .str "Flash Disk"),
           ("bsd_name", .str "disk5"),
           ("Logical Unit", .num 0),
           ("partition_map_type", .str "master_boot_record_partition_map_type"),
           ("removable_media", .str "yes"),
           ("size", .str "1.93 GB"),
           ("size_in_bytes", .num 1930428416),
           ("smart_status", .str "Verified"),
           ("USB Interface", .num 0),
           ("volumes", .arr [
            .obj [
             ("_name", .str "TEST"),
             ("bsd_name", .str "disk5s1"),
             ("file_system", .str "MS-DOS FAT16"),
             ("free_space", .str "1.93 GB"),
             ("free_space_in_bytes", .num 1926168576),
             ("iocontent", .str "DOS_FAT_16"),
             ("mount_point", .str "/Volumes/TEST"),
             ("size", .str "1.93 GB"),
             ("size_in_bytes", .num 1929379840),
             ("volume_uuid", .str "182684DE-533E-394C-A563-1D491C94108A"),
             ("writable", .str "yes")]])]]),
         ("product_id", .str "0x6387"),
         ("serial_num", .str "59402D7A"),
         ("vendor_id", .str "0x058f  (Alcor Micro, Corp.)")]]),
       ("_name", .str "hub_device"),
       ("bcd_device", .str "1.00"),
       ("Built-in_Device", .str "Yes"),
       ("bus_power", .str "500"),
       ("bus_power_used", .str "100"),
       ("device_speed", .str "high_speed"),
       ("extra_current_used", .str "0"),
       ("location_id", .str "0x40100000 / 1"),
       ("product_id", .str "0x9127"),
       ("vendor_id", .str "apple_vendor_id")]]),
     ("_name", .str "USB20Bus"),
     ("host_controller", .str "AppleUSBEHCIPI7C9X440SL"),
     ("pci_device", .str "0x400f "),
     ("pci_revision", .str "0x0003 "),
     ("pci_vendor", .str "0x12d8 ")]])]

/-! ## Unfolding of the walker -/

theorem FindInItems.items_eq (itemMap : List (String × JSON)) (path : String) :
    FindInItems.items itemMap path =
      (JSON.get "_items" itemMap).map (fun it => FindInItems it path) := by
  induction itemMap with
  | nil => simp [FindInItems.items, JSON.get]
  | cons kv rest ih =>
    obtain ⟨k, v⟩ := kv
    by_cases hk : k = "_items"
    · simp [FindInItems.items, JSON.get, hk]
    · simp [FindInItems.items, JSON.get, hk, ih]

theorem FindInItems.loop_eq (ita : List JSON) (path : String) (i : Nat) (uis : List USBInfo) :
    FindInItems.loop ita path i uis = forRange (FindInItems.body path) i ita uis := by
  induction ita generalizing i uis with
  | nil => simp [FindInItems.loop, forRange]
  | cons item rest ih =>
    cases item with
    | obj itemMap =>
      rw [FindInItems.loop]
      simp only [FindInItems.items_eq, FindInItems.body, forRange]
      cases hget : JSON.get "_items" itemMap with
      | none =>
        simp only [Option.map]
        cases JSON.get "Media" itemMap with
        | none => exact ih _ _
        | some it =>
          simp only []
          cases FindInItems.usbInfo itemMap it path i with
          | error out => rfl
          | ok u => exact ih _ _
      | some it0 =>
        simp only [Option.map]
        cases FindInItems it0 (path ++ "[" ++ fmtInt i ++ "][_items]") with
        | panics msg => rfl
        | returns ui err =>
          cases err with
          | some e => rfl
          | none =>
            simp only []
            cases JSON.get "Media" itemMap with
            | none => exact ih _ _
            | some it =>
              simp only []
              cases FindInItems.usbInfo itemMap it path i with
              | error out => rfl
              | ok u => exact ih _ _
    | null => simp [FindInItems.loop, FindInItems.body, forRange]
    | bool b => simp [FindInItems.loop, FindInItems.body, forRange]
    | num x => simp [FindInItems.loop, FindInItems.body, forRange]
    | str s => simp [FindInItems.loop, FindInItems.body, forRange]
    | arr xs => simp [FindInItems.loop, FindInItems.body, forRange]

/-- The function `FindInItems` in the shape of the source: the check of the argument, then the
loop over its elements. -/
theorem FindInItems_arr (ita : List JSON) (path : String) :
    FindInItems (.arr ita) path = forRange (FindInItems.body path) 0 ita [] := by
  rw [FindInItems, FindInItems.loop_eq]

/-! ## Failed outcomes and the loop -/

theorem Outcome.failed_iff {α : Type} (out : Outcome α) :
    out.Failed ↔ (∃ e, out = .returns .nil (some e)) ∨ ∃ msg, out = .panics msg := by
  cases out with
  | panics msg => simp [Outcome.Failed]
  | returns vals err =>
    cases vals <;> cases err <;> simp [Outcome.Failed]

theorem Outcome.Failed.ne_ok {α : Type} {out : Outcome α} (h : out.Failed) (l : List α) :
    out ≠ .returns (.of l) none := by
  intro heq
  subst heq
  exact h

theorem assertString_error {ρ : Type} {v : JSON} {out : Outcome ρ}
    (h : assertString v = .error out) : out.Failed := by
  cases v <;> simp [assertString] at h <;> subst h <;> trivial

theorem assertFloat64_error {ρ : Type} {v : JSON} {out : Outcome ρ}
    (h : assertFloat64 v = .error out) : out.Failed := by
  cases v <;> simp [assertFloat64] at h <;> subst h <;> trivial

/-- A sequencing step of a block: a failure of the whole comes from the first part or from
the continuation. -/
theorem bind_error {ρ β γ : Type} {x : Except ρ β} {f : β → Except ρ γ} {out : ρ}
    (h : x >>= f = .error out) :
    x = .error out ∨ ∃ b, x = .ok b ∧ f b = .error out := by
  cases x with
  | error e => left; simpa [bind, Except.bind] using h
  | ok b => right; exact ⟨b, rfl, by simpa [bind, Except.bind] using h⟩

theorem GetVolumes.volume_error {vMap : List (String × JSON)} {out : Outcome VolumeInfo}
    (h : GetVolumes.volume vMap = .error out) : out.Failed := by
  unfold GetVolumes.volume at h
  rcases bind_error h with h1 | ⟨_, -, h⟩
  · exact assertString_error h1
  rcases bind_error h with h1 | ⟨_, -, h⟩
  · exact assertString_error h1
  rcases bind_error h with h1 | ⟨_, -, h⟩
  · exact assertFloat64_error h1
  rcases bind_error h with h1 | ⟨_, -, h⟩
  · exact assertString_error h1
  rcases bind_error h with h1 | ⟨_, -, h⟩
  · exact assertString_error h1
  split at h
  · rcases bind_error h with h1 | ⟨_, -, h⟩
    · exact assertString_error h1
    rcases bind_error h with h1 | ⟨_, -, h⟩
    · exact assertFloat64_error h1
    rcases bind_error h with h1 | ⟨_, -, h⟩
    · exact assertString_error h1
    simp [pure, Except.pure] at h
  · simp [pure, Except.pure] at h

/-- A loop whose body only leaves with failed outcomes ends with a non-nil slice and no error,
or with a failed outcome. -/
theorem forRange_ok_or_failed {α : Type}
    {body : Nat → JSON → List α → Except (Outcome α) (List α)}
    (hbody : ∀ i x acc out, body i x acc = .error out → out.Failed)
    (xs : List JSON) (i : Nat) (acc : List α) :
    (∃ l, forRange body i xs acc = .returns (.of l) none) ∨ (forRange body i xs acc).Failed := by
  induction xs generalizing i acc with
  | nil => exact Or.inl ⟨acc, rfl⟩
  | cons x rest ih =>
    simp only [forRange]
    cases hb : body i x acc with
    | error out => exact Or.inr (hbody _ _ _ _ hb)
    | ok acc1 => exact ih _ _

/-- The loop over `pre ++ post` continues with `post` where the loop over `pre` ended. -/
theorem forRange_append {α : Type}
    {body : Nat → JSON → List α → Except (Outcome α) (List α)}
    (hbody : ∀ i x acc out, body i x acc = .error out → out.Failed)
    (pre post : List JSON) (i : Nat) (acc acc1 : List α)
    (hpre : forRange body i pre acc = .returns (.of acc1) none) :
    forRange body i (pre ++ post) acc = forRange body (i + pre.length) post acc1 := by
  induction pre generalizing i acc with
  | nil =>
    simp only [forRange, Outcome.returns.injEq, Slice.of.injEq, and_true] at hpre
    subst hpre
    simp
  | cons x rest ih =>
    simp only [List.cons_append, forRange] at hpre ⊢
    cases hb : body i x acc with
    | error out =>
      rw [hb] at hpre
      exact absurd hpre ((hbody _ _ _ _ hb).ne_ok acc1)
    | ok acc2 =>
      rw [hb] at hpre
      have h2 := ih (i + 1) acc2 hpre
      have hlen : i + 1 + rest.length = i + (x :: rest).length := by
        simp only [List.length_cons]; omega
      rw [hlen] at h2
      exact h2

/-- The loop at an element whose body leaves the function: the loop over `pre ++ x :: post`
ends with the outcome of the body at `x`. -/
theorem forRange_stops {α : Type}
    {body : Nat → JSON → List α → Except (Outcome α) (List α)}
    (hbody : ∀ i x acc out, body i x acc = .error out → out.Failed)
    (pre post : List JSON) (x : JSON) (acc1 : List α) (out : Outcome α)
    (hpre : forRange body 0 pre [] = .returns (.of acc1) none)
    (hx : body pre.length x acc1 = .error out) :
    forRange body 0 (pre ++ x :: post) [] = out := by
  rw [forRange_append hbody pre (x :: post) 0 [] acc1 hpre]
  simp [forRange, hx]

/-- The loop at an element whose body falls through: the loop over `pre ++ [x]` returns the
slice after `x`. -/
theorem forRange_snoc {α : Type}
    {body : Nat → JSON → List α → Except (Outcome α) (List α)}
    (hbody : ∀ i x acc out, body i x acc = .error out → out.Failed)
    (pre : List JSON) (x : JSON) (acc1 acc2 : List α)
    (hpre : forRange body 0 pre [] = .returns (.of acc1) none)
    (hx : body pre.length x acc1 = .ok acc2) :
    forRange body 0 (pre ++ [x]) [] = .returns (.of acc2) none := by
  rw [forRange_append hbody pre [x] 0 [] acc1 hpre]
  simp [forRange, hx]

theorem GetVolumes_body_error (path : String) (i : Nat) (vol : JSON) (vis : List VolumeInfo)
    (out : Outcome VolumeInfo) (h : GetVolumes.body path i vol vis = .error out) :
    out.Failed := by
  unfold GetVolumes.body at h
  split at h
  · split at h
    · next hv => cases h; exact GetVolumes.volume_error hv
    · cases h
  · cases h; trivial

theorem GetVolumes_ok_or_failed (volumes : JSON) (path : String) :
    (∃ l, GetVolumes volumes path = .returns (.of l) none) ∨ (GetVolumes volumes path).Failed := by
  unfold GetVolumes
  split
  · exact forRange_ok_or_failed (GetVolumes_body_error path) _ _ _
  · exact Or.inr trivial

theorem GetMedia.medium_error {mi : List (String × JSON)} {path : String} {i : Nat}
    {out : Outcome MediaInfo} (h : GetMedia.medium mi path i = .error out) : out.Failed := by
  unfold GetMedia.medium at h
  rcases bind_error h with h1 | ⟨_, -, h⟩
  · exact assertString_error h1
  rcases bind_error h with h1 | ⟨_, -, h⟩
  · exact assertString_error h1
  rcases bind_error h with h1 | ⟨_, -, h⟩
  · exact assertString_error h1
  rcases bind_error h with h1 | ⟨_, -, h⟩
  · exact assertFloat64_error h1
  split at h
  · simp [pure, Except.pure] at h
  · split at h
    · cases h; trivial
    · cases h; trivial
    · simp [pure, Except.pure] at h

theorem GetMedia_body_error (path : String) (i : Nat) (m : JSON) (mis : List MediaInfo)
    (out : Outcome MediaInfo) (h : GetMedia.body path i m mis = .error out) : out.Failed := by
  unfold GetMedia.body at h
  split at h
  · split at h
    · next hv => cases h; exact GetMedia.medium_error hv
    · cases h
  · cases h; trivial

theorem GetMedia_ok_or_failed (media : JSON) (path : String) :
    (∃ l, GetMedia media path = .returns (.of l) none) ∨ (GetMedia media path).Failed := by
  unfold GetMedia
  split
  · exact forRange_ok_or_failed (GetMedia_body_error path) _ _ _
  · exact Or.inr trivial

theorem FindInItems.usbInfo_error {itemMap : List (String × JSON)} {it : JSON} {path : String}
    {i : Nat} {out : Outcome USBInfo} (h : FindInItems.usbInfo itemMap it path i = .error out) :
    out.Failed := by
  unfold FindInItems.usbInfo at h
  rcases bind_error h with h1 | ⟨_, -, h⟩
  · exact assertString_error h1
  rcases bind_error h with h1 | ⟨_, -, h⟩
  · exact assertString_error h1
  rcases bind_error h with h1 | ⟨_, -, h⟩
  · exact assertString_error h1
  rcases bind_error h with h1 | ⟨_, -, h⟩
  · exact assertString_error h1
  split at h
  · cases h; trivial
  · rcases bind_error h with h1 | ⟨_, -, h⟩
    · exact assertString_error h1
    split at h
    · cases h; trivial
    · split at h
      · cases h; trivial
      · split at h
        · cases h; trivial
        · cases h; trivial
        · simp [pure, Except.pure] at h

theorem FindInItems_body_error (path : String) (i : Nat) (item : JSON) (uis : List USBInfo)
    (out : Outcome USBInfo) (h : FindInItems.body path i item uis = .error out) :
    out.Failed := by
  unfold FindInItems.body at h
  split at h
  · simp only [] at h
    split at h
    · next hc =>
      cases h
      split at hc
      · cases hc
      · split at hc
        · cases hc; trivial
        · cases hc; trivial
        · cases hc
    · split at h
      · cases h
      · split at h
        · next hu => cases h; exact FindInItems.usbInfo_error hu
        · cases h
  · cases h; trivial

theorem FindInItems_ok_or_failed (items : JSON) (path : String) :
    (∃ l, FindInItems items path = .returns (.of l) none) ∨ (FindInItems items path).Failed := by
  cases items with
  | arr ita =>
    rw [FindInItems_arr]
    exact forRange_ok_or_failed (FindInItems_body_error path) _ _ _
  | null => right; simp [FindInItems, Outcome.Failed]
  | bool b => right; simp [FindInItems, Outcome.Failed]
  | num x => right; simp [FindInItems, Outcome.Failed]
  | str s => right; simp [FindInItems, Outcome.Failed]
  | obj kvs => right; simp [FindInItems, Outcome.Failed]

theorem FindUSBStickInfo_body_error (i : Nat) (dti : JSON) (uis : List USBInfo)
    (out : Outcome USBInfo) (h : FindUSBStickInfo.body i dti uis = .error out) :
    out.Failed := by
  unfold FindUSBStickInfo.body at h
  split at h
  · split at h
    · split at h
      · cases h; trivial
      · cases h; trivial
      · cases h
    · cases h
  · cases h; trivial

theorem FindUSBStickInfo_ok_or_failed (data : JSON) :
    (∃ l, FindUSBStickInfo data = .returns (.of l) none) ∨ (FindUSBStickInfo data).Failed := by
  unfold FindUSBStickInfo
  split
  · split
    · exact Or.inr trivial
    · split
      · exact forRange_ok_or_failed FindUSBStickInfo_body_error _ _ _
      · exact Or.inr trivial
  · exact Or.inr trivial

/-! ## Texts and messages -/

theorem Occurs.append_left {sub a : String} (b : String) (h : Occurs sub a) :
    Occurs sub (a ++ b) := by
  obtain ⟨u, v, huv⟩ := h
  refine ⟨u, v ++ b.data, ?_⟩
  simp only [String.data_append, ← huv, List.append_assoc]

theorem Occurs.append_right {sub b : String} (a : String) (h : Occurs sub b) :
    Occurs sub (a ++ b) := by
  obtain ⟨u, v, huv⟩ := h
  refine ⟨a.data ++ u, v, ?_⟩
  simp only [String.data_append, ← huv, List.append_assoc]

theorem Occurs.refl (s : String) : Occurs s s := List.infix_refl _

theorem Occurs.middle (a s b : String) : Occurs s (a ++ s ++ b) :=
  Occurs.append_left b (Occurs.append_right a (Occurs.refl s))

theorem Outcome.isOk_iff {α : Type} (out : Outcome α) :
    out.isOk = true ↔ out = .returns (.of out.vals) none := by
  cases out with
  | panics msg => simp [Outcome.isOk]
  | returns vals err =>
    cases vals <;> cases err <;> simp [Outcome.isOk, Outcome.vals, Slice.elems]

/-- An error passed on with `%w` keeps every text of the message it wraps. -/
theorem FailsNaming_wrapf {α β : Type} {out : Outcome α} {texts : List String}
    (h : out.FailsNaming texts) (msg : String) :
    ∃ e, out = .returns .nil (some e) ∧
      (Outcome.returns (α := β) .nil (some (.wrapf msg e))).FailsNaming texts := by
  obtain ⟨e, he, hn⟩ := h
  refine ⟨e, he, .wrapf msg e, rfl, ?_⟩
  intro quote plusV t ht
  exact Occurs.append_right msg (hn quote plusV t ht)

/-! ## Whole-input errors and all-or-nothing returns -/

theorem top_element_ne_data (a b c : String) :
    "data[SPUSBDataType][" ++ a ++ "] (" ++ b ++ ") is not map[string]interface{} type" ≠
      "data (" ++ c ++ ") is not map[string]interface{} type" := by
  intro h
  have := congrArg String.data h
  simp [String.data_append] at this

theorem top_element_ne_array (a b c : String) :
    "data[SPUSBDataType][" ++ a ++ "] (" ++ b ++ ") is not map[string]interface{} type" ≠
      "data[SPUSBDataType] (" ++ c ++ ") is not []interface{} type" := by
  intro h
  have := congrArg String.data h
  simp [String.data_append] at this

/-- The errors of the loop of `FindUSBStickInfo`: the element error of an index, or an error
passed on from `FindInItems`. -/
theorem FindUSBStickInfo_loop_error (xs : List JSON) (i : Nat) (acc : List USBInfo)
    (vals : Slice USBInfo) (e : GoError)
    (h : forRange FindUSBStickInfo.body i xs acc = .returns vals (some e)) :
    (∃ j ty, e = .errorf ("data[SPUSBDataType][" ++ fmtInt j ++ "] (" ++ ty ++
        ") is not map[string]interface{} type")) ∨ ∃ msg inner, e = .wrapf msg inner := by
  induction xs generalizing i acc with
  | nil => simp [forRange] at h
  | cons x rest ih =>
    simp only [forRange] at h
    cases hb : FindUSBStickInfo.body i x acc with
    | ok acc1 =>
      rw [hb] at h
      exact ih _ _ h
    | error out =>
      rw [hb] at h
      simp only [] at h
      subst h
      unfold FindUSBStickInfo.body at hb
      split at hb
      · split at hb
        · split at hb
          · cases hb
          · cases hb; exact Or.inr ⟨_, _, rfl⟩
          · cases hb
        · cases hb
      · cases hb; exact Or.inl ⟨_, _, rfl⟩

/-- C4. `FindUSBStickInfo` returns an error and the nil slice when the root is not an object,
when the root object has no "SPUSBDataType" key, and when the value under that key is not an
array; when the root is an object whose "SPUSBDataType" is an array, none of these three
errors is returned, whatever else happens. -/
theorem FindUSBStickInfo_whole_input_errors (data dt : JSON) (d : List (String × JSON))
    (dta : List JSON) :
    ((∀ m, data ≠ .obj m) →
      FindUSBStickInfo data = .returns .nil (some (.errorf
        ("data (" ++ data.typeName ++ ") is not map[string]interface{} type")))) ∧
    (JSON.get "SPUSBDataType" d = none →
      FindUSBStickInfo (.obj d) = .returns .nil (some
        (.valuef "data missing SPUSBDataType entry: " (.obj d)))) ∧
    (JSON.get "SPUSBDataType" d = some dt → (∀ xs, dt ≠ .arr xs) →
      FindUSBStickInfo (.obj d) = .returns .nil (some (.errorf
        ("data[SPUSBDataType] (" ++ dt.typeName ++ ") is not []interface{} type")))) ∧
    (JSON.get "SPUSBDataType" d = some (.arr dta) →
      ∀ (vals : Slice USBInfo) (ty msg : String) (v : JSON),
        FindUSBStickInfo (.obj d) ≠ .returns vals (some (.errorf
          ("data (" ++ ty ++ ") is not map[string]interface{} type"))) ∧
        FindUSBStickInfo (.obj d) ≠ .returns vals (some (.valuef msg v)) ∧
        FindUSBStickInfo (.obj d) ≠ .returns vals (some (.errorf
          ("data[SPUSBDataType] (" ++ ty ++ ") is not []interface{} type")))) := by
  refine ⟨?_, ?_, ?_, ?_⟩
  · intro h
    cases data with
    | obj m => exact absurd rfl (h m)
    | null => rfl
    | bool b => rfl
    | num x => rfl
    | str s => rfl
    | arr xs => rfl
  · intro h
    simp [FindUSBStickInfo, h]
  · intro h hna
    cases dt with
    | arr xs => exact absurd rfl (hna xs)
    | null => simp [FindUSBStickInfo, h]
    | bool b => simp [FindUSBStickInfo, h]
    | num x => simp [FindUSBStickInfo, h]
    | str s => simp [FindUSBStickInfo, h]
    | obj m => simp [FindUSBStickInfo, h]
  · intro h vals ty msg v
    have hF : FindUSBStickInfo (.obj d) = forRange FindUSBStickInfo.body 0 dta [] := by
      simp [FindUSBStickInfo, h]
    rw [hF]
    refine ⟨?_, ?_, ?_⟩
    · intro hcon
      rcases FindUSBStickInfo_loop_error _ _ _ _ _ hcon with ⟨j, ty1, he⟩ | ⟨m1, inner, he⟩
      · injection he with he
        exact top_element_ne_data _ _ _ he.symm
      · cases he
    · intro hcon
      rcases FindUSBStickInfo_loop_error _ _ _ _ _ hcon with ⟨j, ty1, he⟩ | ⟨m1, inner, he⟩
      · cases he
      · cases he
    · intro hcon
      rcases FindUSBStickInfo_loop_error _ _ _ _ _ hcon with ⟨j, ty1, he⟩ | ⟨m1, inner, he⟩
      · injection he with he
        exact top_element_ne_array _ _ _ he.symm
      · cases he

/-- C4, at concrete inputs: the root `3`; the root `{}`; the root `{"SPUSBDataType": "x"}`; and
the root `{"SPUSBDataType": [3]}`, whose first element is not an object. -/
theorem FindUSBStickInfo_whole_input_errors_witness :
    FindUSBStickInfo (.num 3) = .returns .nil (some (.errorf
        "data (float64) is not map[string]interface{} type")) ∧
    FindUSBStickInfo (.obj []) = .returns .nil (some
        (.valuef "data missing SPUSBDataType entry: " (.obj []))) ∧
    FindUSBStickInfo (.obj [("SPUSBDataType", .str "x")]) = .returns .nil (some (.errorf
        "data[SPUSBDataType] (string) is not []interface{} type")) ∧
    FindUSBStickInfo (.obj [("SPUSBDataType", .arr [.num 3])]) ≠ .returns .nil (some (.errorf
        "data[SPUSBDataType] ([]interface {}) is not []interface{} type")) :=
  ⟨(FindUSBStickInfo_whole_input_errors (.num 3) .null [] []).1 (by intro m h; cases h),
   (FindUSBStickInfo_whole_input_errors .null .null [] []).2.1 rfl,
   (FindUSBStickInfo_whole_input_errors .null (.str "x") [("SPUSBDataType", .str "x")] []).2.2.1
      rfl (by intro xs h; cases h),
   ((FindUSBStickInfo_whole_input_errors .null .null [("SPUSBDataType", .arr [.num 3])]
      [.num 3]).2.2.2 rfl .nil "[]interface {}" "" .null).2.2⟩

theorem ok_or_failed_cases {α : Type} {out : Outcome α}
    (h : (∃ l, out = .returns (.of l) none) ∨ out.Failed) :
    (∃ l, out = .returns (.of l) none) ∨ (∃ e, out = .returns .nil (some e)) ∨
      ∃ msg, out = .panics msg := by
  rcases h with h | h
  · exact Or.inl h
  · exact Or.inr ((Outcome.failed_iff out).1 h)

/-- C2, as stated, fails: on `{"SPUSBDataType": [{"_items": [{"Media": []}]}]}` the call of
`FindUSBStickInfo` returns neither a list with no error nor an error with no list, for it does
not return: the assertion `itemMap["_name"].(string)` panics. -/
theorem all_or_nothing_counterexample :
    FindUSBStickInfo (.obj [("SPUSBDataType",
        .arr [.obj [("_items", .arr [.obj [("Media", .arr [])]])]])]) =
      .panics "interface conversion: interface {} is nil, not string" ∧
    ¬ ∃ (vals : Slice USBInfo) (err : Option GoError),
      FindUSBStickInfo (.obj [("SPUSBDataType",
        .arr [.obj [("_items", .arr [.obj [("Media", .arr [])]])]])]) = .returns vals err := by
  refine ⟨rfl, ?_⟩
  rintro ⟨vals, err, h⟩
  have h2 : FindUSBStickInfo (.obj [("SPUSBDataType",
        .arr [.obj [("_items", .arr [.obj [("Media", .arr [])]])]])]) =
      .panics "interface conversion: interface {} is nil, not string" := rfl
  rw [h2] at h
  cases h

/-- C2, amended. For every JSON value (and every label), each of `FindUSBStickInfo`,
`FindInItems`, `GetMedia` and `GetVolumes` ends in one of three ways: it returns a non-nil list
and a nil error, or it returns the nil list and an error, or it does not return (a run-time
panic). An error is never returned together with a list. -/
theorem all_or_nothing (v : JSON) (path : String) :
    ((∃ l, FindUSBStickInfo v = .returns (.of l) none) ∨
      (∃ e, FindUSBStickInfo v = .returns .nil (some e)) ∨
      ∃ msg, FindUSBStickInfo v = .panics msg) ∧
    ((∃ l, FindInItems v path = .returns (.of l) none) ∨
      (∃ e, FindInItems v path = .returns .nil (some e)) ∨
      ∃ msg, FindInItems v path = .panics msg) ∧
    ((∃ l, GetMedia v path = .returns (.of l) none) ∨
      (∃ e, GetMedia v path = .returns .nil (some e)) ∨
      ∃ msg, GetMedia v path = .panics msg) ∧
    ((∃ l, GetVolumes v path = .returns (.of l) none) ∨
      (∃ e, GetVolumes v path = .returns .nil (some e)) ∨
      ∃ msg, GetVolumes v path = .panics msg) :=
  ⟨ok_or_failed_cases (FindUSBStickInfo_ok_or_failed v),
   ok_or_failed_cases (FindInItems_ok_or_failed v path),
   ok_or_failed_cases (GetMedia_ok_or_failed v path),
   ok_or_failed_cases (GetVolumes_ok_or_failed v path)⟩

/-! ## The walk at one element -/

theorem ok_bind {ρ β γ : Type} (b : β) (f : β → Except ρ γ) :
    (Except.ok b : Except ρ β) >>= f = f b := rfl

theorem error_bind {ρ β γ : Type} (out : ρ) (f : β → Except ρ γ) :
    (Except.error out : Except ρ β) >>= f = .error out := rfl

theorem assertString_some {ρ : Type} {m : List (String × JSON)} {k s : String}
    (h : strField m k = some s) : assertString (ρ := ρ) (JSON.index m k) = .ok s := by
  unfold strField at h
  split at h
  · next hs => cases h; rw [hs]; rfl
  · cases h

theorem assertString_none {ρ : Type} {m : List (String × JSON)} {k : String}
    (h : strField m k = none) :
    assertString (ρ := ρ) (JSON.index m k) = .error (.panics
      (castPanic (JSON.index m k) "string")) := by
  unfold strField at h
  cases hv : JSON.index m k with
  | str s => rw [hv] at h; cases h
  | null => rfl
  | bool b => rfl
  | num x => rfl
  | arr xs => rfl
  | obj kvs => rfl

theorem assertFloat64_some {ρ : Type} {m : List (String × JSON)} {k : String} {x : ℚ}
    (h : numField m k = some x) : assertFloat64 (ρ := ρ) (JSON.index m k) = .ok x := by
  unfold numField at h
  split at h
  · next hs => cases h; rw [hs]; rfl
  · cases h

theorem assertFloat64_none {ρ : Type} {m : List (String × JSON)} {k : String}
    (h : numField m k = none) :
    assertFloat64 (ρ := ρ) (JSON.index m k) = .error (.panics
      (castPanic (JSON.index m k) "float64")) := by
  unfold numField at h
  cases hv : JSON.index m k with
  | num x => rw [hv] at h; cases h
  | null => rfl
  | bool b => rfl
  | str s => rfl
  | arr xs => rfl
  | obj kvs => rfl

theorem forRange_cons_error {α : Type}
    {body : Nat → JSON → List α → Except (Outcome α) (List α)} {i : Nat} {x : JSON}
    {acc : List α} {out : Outcome α} (rest : List JSON) (h : body i x acc = .error out) :
    forRange body i (x :: rest) acc = out := by
  simp [forRange, h]

theorem forRange_cons_ok {α : Type}
    {body : Nat → JSON → List α → Except (Outcome α) (List α)} {i : Nat} {x : JSON}
    {acc acc1 : List α} (rest : List JSON) (h : body i x acc = .ok acc1) :
    forRange body i (x :: rest) acc = forRange body (i + 1) rest acc1 := by
  simp [forRange, h]

/-- The loop of `FindInItems` after a walked beginning `pre`. -/
theorem FindInItems_after (path : String) (pre post : List JSON)
    (hpre : (FindInItems (.arr pre) path).isOk = true) :
    FindInItems (.arr (pre ++ post)) path =
      forRange (FindInItems.body path) pre.length post (FindInItems (.arr pre) path).vals := by
  have h := (Outcome.isOk_iff _).1 hpre
  rw [FindInItems_arr] at h
  rw [FindInItems_arr, forRange_append (FindInItems_body_error path) pre post 0 [] _ h]
  simp [FindInItems_arr]

/-- The body of the loop of `FindInItems` at an object whose "_items" value, if any, is walked
without failure: what is left is the "Media" check. -/
theorem FindInItems_body_reached (path : String) (pre : List JSON) (m : List (String × JSON))
    (hr : ReachesEntry path pre m) :
    FindInItems.body path pre.length (.obj m) (FindInItems (.arr pre) path).vals =
      match JSON.get "Media" m with
      | none => .ok (collectedBefore path pre m)
      | some it =>
        match FindInItems.usbInfo m it path pre.length with
        | .error out => .error out
        | .ok usbInfo => .ok (collectedBefore path pre m ++ [usbInfo]) := by
  obtain ⟨-, hc⟩ := hr
  cases hget : JSON.get "_items" m with
  | none =>
    simp only [FindInItems.body, collectedBefore, hget, List.append_nil]
  | some it0 =>
    rw [hget] at hc
    simp only [] at hc
    have h := (Outcome.isOk_iff _).1 hc
    generalize (FindInItems it0 (path ++ "[" ++ fmtInt pre.length ++ "][_items]")).vals = l at h
    simp only [FindInItems.body, collectedBefore, hget, h, Outcome.vals, Slice.elems]

/-- The walk at an entry that has a "Media" key: the outcome is the one with which the device
block leaves, or the walk goes on after the entry with its device appended. -/
theorem FindInItems_at_entry (path : String) (pre post : List JSON) (m : List (String × JSON))
    (it : JSON) (hr : ReachesEntry path pre m) (hm : JSON.get "Media" m = some it) :
    FindInItems (.arr (pre ++ .obj m :: post)) path =
      match FindInItems.usbInfo m it path pre.length with
      | .error out => out
      | .ok usbInfo => forRange (FindInItems.body path) (pre.length + 1) post
          (collectedBefore path pre m ++ [usbInfo]) := by
  rw [FindInItems_after path pre _ hr.1]
  have hb := FindInItems_body_reached path pre m hr
  rw [hm] at hb
  simp only [] at hb
  cases hu : FindInItems.usbInfo m it path pre.length with
  | error out =>
    rw [hu] at hb
    exact forRange_cons_error post hb
  | ok usbInfo =>
    rw [hu] at hb
    exact forRange_cons_ok post hb

/-- The walk at an entry that has no "Media" key: it goes on after the entry. -/
theorem FindInItems_at_plain (path : String) (pre post : List JSON) (m : List (String × JSON))
    (hr : ReachesEntry path pre m) (hm : JSON.get "Media" m = none) :
    FindInItems (.arr (pre ++ .obj m :: post)) path =
      forRange (FindInItems.body path) (pre.length + 1) post (collectedBefore path pre m) := by
  rw [FindInItems_after path pre _ hr.1]
  have hb := FindInItems_body_reached path pre m hr
  rw [hm] at hb
  exact forRange_cons_ok post hb

/-! ## Identity fields of a device entry -/

/-- The device block with its first four assertions passed. -/
theorem usbInfo_after_strings {m : List (String × JSON)} {name serial manufacturer pid : String}
    (it : JSON) (path : String) (i : Nat)
    (h1 : strField m "_name" = some name) (h2 : strField m "serial_num" = some serial)
    (h3 : strField m "manufacturer" = some manufacturer)
    (h4 : strField m "product_id" = some pid) :
    FindInItems.usbInfo m it path i =
      match ParseUint pid 0 16 with
      | (_, some err) => .error (.returns .nil (some (.wrapf
          ("failed to parse " ++ path ++ "[" ++ fmtInt i ++ "][product_id] (" ++ pid ++ "): ")
          err)))
      | (val, none) =>
        assertString (JSON.index m "vendor_id") >>= fun s =>
        match SplitN s ' ' with
        | [] => .error (.panics "runtime error: index out of range [0] with length 0")
        | field0 :: _ =>
          match ParseUint field0 0 16 with
          | (_, some err) => .error (.returns .nil (some (.wrapf
              ("failed to parse " ++ path ++ "[" ++ fmtInt i ++ "][vendor_id] (" ++ field0 ++
                "): ") err)))
          | (val2, none) =>
            match GetMedia it (path ++ "[" ++ fmtInt i ++ "][Media]") with
            | .panics msg => .error (.panics msg)
            | .returns _ (some err) => .error (.returns .nil (some (.wrapf
                ("failed to get " ++ path ++ "[" ++ fmtInt i ++ "][Media]: ") err)))
            | .returns mi none =>
              .ok { Name := name, ProductID := uint16 val, VendorID := uint16 val2,
                    SerialNumber := serial, Manufacturer := manufacturer,
                    Media := if mi.len > 0 then mi else .nil } := by
  unfold FindInItems.usbInfo
  rw [assertString_some h1, ok_bind, assertString_some h2, ok_bind, assertString_some h3,
    ok_bind, assertString_some h4, ok_bind]
  rfl

/-- The device block panics at the first of "_name", "serial_num", "manufacturer" and
"product_id" that is not a string. -/
theorem usbInfo_string_panics {m : List (String × JSON)} (it : JSON) (path : String) (i : Nat)
    (hbad : strField m "_name" = none ∨ strField m "serial_num" = none ∨
      strField m "manufacturer" = none ∨ strField m "product_id" = none) :
    ∃ k, k ∈ ["_name", "serial_num", "manufacturer", "product_id"] ∧ strField m k = none ∧
      FindInItems.usbInfo m it path i = .error (.panics
        (castPanic (JSON.index m k) "string")) := by
  cases h1 : strField m "_name" with
  | none =>
    refine ⟨"_name", by simp, h1, ?_⟩
    unfold FindInItems.usbInfo
    rw [assertString_none h1, error_bind]
  | some name =>
    cases h2 : strField m "serial_num" with
    | none =>
      refine ⟨"serial_num", by simp, h2, ?_⟩
      unfold FindInItems.usbInfo
      rw [assertString_some h1, ok_bind, assertString_none h2, error_bind]
    | some serial =>
      cases h3 : strField m "manufacturer" with
      | none =>
        refine ⟨"manufacturer", by simp, h3, ?_⟩
        unfold FindInItems.usbInfo
        rw [assertString_some h1, ok_bind, assertString_some h2, ok_bind,
          assertString_none h3, error_bind]
      | some manufacturer =>
        cases h4 : strField m "product_id" with
        | none =>
          refine ⟨"product_id", by simp, h4, ?_⟩
          unfold FindInItems.usbInfo
          rw [assertString_some h1, ok_bind, assertString_some h2, ok_bind,
            assertString_some h3, ok_bind, assertString_none h4, error_bind]
        | some pid =>
          rw [h1, h2, h3, h4] at hbad
          simp at hbad

/-- C5, as stated, fails: on `[{"Media": [], "_name": 1}]` the call of `FindInItems` does not
return an error value; the assertion `itemMap["_name"].(string)` panics. -/
theorem FindInItems_identity_field_counterexample :
    FindInItems (.arr [.obj [("Media", .arr []), ("_name", .num 1)]]) "p" =
      .panics "interface conversion: interface {} is float64, not string" ∧
    ¬ ∃ (vals : Slice USBInfo) (e : GoError),
      FindInItems (.arr [.obj [("Media", .arr []), ("_name", .num 1)]]) "p" =
        .returns vals (some e) := by
  refine ⟨rfl, ?_⟩
  rintro ⟨vals, e, h⟩
  have h2 : FindInItems (.arr [.obj [("Media", .arr []), ("_name", .num 1)]]) "p" =
      .panics "interface conversion: interface {} is float64, not string" := rfl
  rw [h2] at h
  cases h

/-- C5, amended. When the walk of `FindInItems` gets to the "Media" check of element `i`, an
object with a "Media" key, and one of "_name", "serial_num", "manufacturer", "product_id" is
missing or not a string, or "product_id" is a literal that parses and "vendor_id" is missing
or not a string, then `FindInItems` does not return: the type assertion on such a field `k`
panics, with a message that gives the dynamic type found (and neither the path nor the
field). -/
theorem FindInItems_identity_field_panics (path : String) (pre post : List JSON)
    (m : List (String × JSON)) (it : JSON)
    (hr : ReachesEntry path pre m) (hm : JSON.get "Media" m = some it)
    (hbad : (strField m "_name" = none ∨ strField m "serial_num" = none ∨
        strField m "manufacturer" = none ∨ strField m "product_id" = none) ∨
      ∃ pid val, strField m "product_id" = some pid ∧ ParseUint pid 0 16 = (val, none) ∧
        strField m "vendor_id" = none) :
    ∃ k, k ∈ ["_name", "serial_num", "manufacturer", "product_id", "vendor_id"] ∧
      strField m k = none ∧
      FindInItems (.arr (pre ++ .obj m :: post)) path = .panics
        (castPanic (JSON.index m k) "string") := by
  rw [FindInItems_at_entry path pre post m it hr hm]
  by_cases h4 : strField m "_name" = none ∨ strField m "serial_num" = none ∨
        strField m "manufacturer" = none ∨ strField m "product_id" = none
  · obtain ⟨k, hk, hnone, hu⟩ := usbInfo_string_panics it path pre.length h4
    refine ⟨k, ?_, hnone, ?_⟩
    · simp only [List.mem_cons, List.mem_singleton, List.not_mem_nil, or_false] at hk ⊢
      tauto
    · rw [hu]
  · rcases hbad with hbad | ⟨pid, val, hpid, hparse, hvid⟩
    · exact absurd hbad h4
    · simp only [not_or] at h4
      obtain ⟨n1, n2, n3, -⟩ := h4
      obtain ⟨name, h1⟩ := Option.ne_none_iff_exists'.1 n1
      obtain ⟨serial, h2⟩ := Option.ne_none_iff_exists'.1 n2
      obtain ⟨manufacturer, h3⟩ := Option.ne_none_iff_exists'.1 n3
      refine ⟨"vendor_id", by simp, hvid, ?_⟩
      rw [usbInfo_after_strings it path pre.length h1 h2 h3 hpid, hparse]
      simp only []
      rw [assertString_none hvid, error_bind]

/-- C5, amended, at a concrete input: the array `[{"Media": [], "_name": 1}]`. -/
theorem FindInItems_identity_field_panics_witness :
    ∃ k, k ∈ ["_name", "serial_num", "manufacturer", "product_id", "vendor_id"] ∧
      strField [("Media", .arr []), ("_name", .num 1)] k = none ∧
      FindInItems (.arr ([] ++ .obj [("Media", .arr []), ("_name", .num 1)] :: [])) "p" =
        .panics (castPanic (JSON.index [("Media", .arr []), ("_name", .num 1)] k) "string") :=
  FindInItems_identity_field_panics "p" [] [] [("Media", .arr []), ("_name", .num 1)] (.arr [])
    ⟨rfl, True.intro⟩ rfl (Or.inl (Or.inl rfl))

/-! ## Required fields of a medium -/

/-- The loop of `GetMedia` after a walked beginning `pre`. -/
theorem GetMedia_after (path : String) (pre post : List JSON)
    (hpre : (GetMedia (.arr pre) path).isOk = true) :
    GetMedia (.arr (pre ++ post)) path =
      forRange (GetMedia.body path) pre.length post (GetMedia (.arr pre) path).vals := by
  have h := (Outcome.isOk_iff _).1 hpre
  simp only [GetMedia] at h ⊢
  rw [forRange_append (GetMedia_body_error path) pre post 0 [] _ h]
  simp

/-- The medium block panics at the first of "_name", "bsd_name", "partition_map_type" (strings)
and "size_in_bytes" (a number) that is missing or of another type. -/
theorem medium_field_panics {mi : List (String × JSON)} (path : String) (i : Nat)
    (hbad : strField mi "_name" = none ∨ strField mi "bsd_name" = none ∨
      strField mi "partition_map_type" = none ∨ numField mi "size_in_bytes" = none) :
    ∃ k ty, (k, ty) ∈ [("_name", "string"), ("bsd_name", "string"),
        ("partition_map_type", "string"), ("size_in_bytes", "float64")] ∧
      GetMedia.medium mi path i = .error (.panics
        (castPanic (JSON.index mi k) ty)) := by
  cases h1 : strField mi "_name" with
  | none =>
    refine ⟨"_name", "string", by simp, ?_⟩
    unfold GetMedia.medium
    rw [assertString_none h1, error_bind]
  | some name =>
    cases h2 : strField mi "bsd_name" with
    | none =>
      refine ⟨"bsd_name", "string", by simp, ?_⟩
      unfold GetMedia.medium
      rw [assertString_some h1, ok_bind, assertString_none h2, error_bind]
    | some devName =>
      cases h3 : strField mi "partition_map_type" with
      | none =>
        refine ⟨"partition_map_type", "string", by simp, ?_⟩
        unfold GetMedia.medium
        rw [assertString_some h1, ok_bind, assertString_some h2, ok_bind,
          assertString_none h3, error_bind]
      | some partitionName =>
        cases h4 : numField mi "size_in_bytes" with
        | none =>
          refine ⟨"size_in_bytes", "float64", by simp, ?_⟩
          unfold GetMedia.medium
          rw [assertString_some h1, ok_bind, assertString_some h2, ok_bind,
            assertString_some h3, ok_bind, assertFloat64_none h4, error_bind]
        | some size =>
          rw [h1, h2, h3, h4] at hbad
          simp at hbad

/-- C6, as stated, fails: on `[{"_name": "UDisk"}]` the call of `GetMedia` does not return an
error value; the assertion `mi["bsd_name"].(string)` panics. -/
theorem GetMedia_required_field_counterexample :
    GetMedia (.arr [.obj [("_name", .str "UDisk")]]) "p" =
      .panics "interface conversion: interface {} is nil, not string" ∧
    ¬ ∃ (vals : Slice MediaInfo) (e : GoError),
      GetMedia (.arr [.obj [("_name", .str "UDisk")]]) "p" = .returns vals (some e) := by
  refine ⟨rfl, ?_⟩
  rintro ⟨vals, e, h⟩
  have h2 : GetMedia (.arr [.obj [("_name", .str "UDisk")]]) "p" =
      .panics "interface conversion: interface {} is nil, not string" := rfl
  rw [h2] at h
  cases h

/-- C6, amended. When the loop of `GetMedia` gets to element `i`, an object in which one of
"_name", "bsd_name", "partition_map_type" (strings) and "size_in_bytes" (a number) is missing
or has another JSON type, then `GetMedia` does not return: the type assertion on such a field
`k` panics, with a message that gives the dynamic type found and the asserted type (and not
the path); no `MediaInfo` list and no error value are returned. -/
theorem GetMedia_required_field_panics (path : String) (pre post : List JSON)
    (mi : List (String × JSON))
    (hpre : (GetMedia (.arr pre) path).isOk = true)
    (hbad : strField mi "_name" = none ∨ strField mi "bsd_name" = none ∨
      strField mi "partition_map_type" = none ∨ numField mi "size_in_bytes" = none) :
    ∃ k ty, (k, ty) ∈ [("_name", "string"), ("bsd_name", "string"),
        ("partition_map_type", "string"), ("size_in_bytes", "float64")] ∧
      GetMedia (.arr (pre ++ .obj mi :: post)) path = .panics
        (castPanic (JSON.index mi k) ty) := by
  obtain ⟨k, ty, hk, hmed⟩ := medium_field_panics path pre.length hbad
  refine ⟨k, ty, hk, ?_⟩
  rw [GetMedia_after path pre _ hpre]
  apply forRange_cons_error
  simp only [GetMedia.body, hmed]

/-- C6, amended, at a concrete input: the array `[{"_name": "UDisk"}]`. -/
theorem GetMedia_required_field_panics_witness :
    ∃ k ty, (k, ty) ∈ [("_name", "string"), ("bsd_name", "string"),
        ("partition_map_type", "string"), ("size_in_bytes", "float64")] ∧
      GetMedia (.arr ([] ++ .obj [("_name", .str "UDisk")] :: [])) "p" = .panics
        (castPanic (JSON.index [("_name", .str "UDisk")] k) ty) :=
  GetMedia_required_field_panics "p" [] [] [("_name", .str "UDisk")] rfl (Or.inr (Or.inl rfl))

/-- The device block of an entry whose identity fields are well formed: what is left is the
call of `GetMedia`. -/
theorem usbInfo_of_identity {m : List (String × JSON)} {u : USBInfo} (it : JSON)
    (path : String) (i : Nat) (hid : identityOf m = some u) :
    FindInItems.usbInfo m it path i =
      match GetMedia it (path ++ "[" ++ fmtInt i ++ "][Media]") with
      | .panics msg => .error (.panics msg)
      | .returns _ (some err) => .error (.returns .nil (some (.wrapf
          ("failed to get " ++ path ++ "[" ++ fmtInt i ++ "][Media]: ") err)))
      | .returns mi none => .ok { u with Media := if mi.len > 0 then mi else .nil } := by
  unfold identityOf at hid
  split at hid
  · next name serial manufacturer pid vid h1 h2 h3 h4 h5 =>
    split at hid
    · next val field0 rest hp hs =>
      split at hid
      · next val2 hp2 =>
        cases hid
        rw [usbInfo_after_strings it path i h1 h2 h3 h4, hp]
        simp only []
        rw [assertString_some h5, ok_bind, hs]
        simp only []
        rw [hp2]
      · cases hid
    · cases hid
  · cases hid

/-! ## Elements that are not objects -/

/-- The message of the element error contains the path of the element and its type. -/
theorem element_message_names (label idx ty : String) :
    Occurs (label ++ "[" ++ idx ++ "]")
        (label ++ "[" ++ idx ++ "] (" ++ ty ++ ") is not map[string]interface{} type") ∧
      Occurs ty
        (label ++ "[" ++ idx ++ "] (" ++ ty ++ ") is not map[string]interface{} type") := by
  constructor
  · refine ⟨[], " (".data ++ ty.data ++ ") is not map[string]interface{} type".data, ?_⟩
    simp [String.data_append]
  · exact Occurs.middle _ _ _

theorem element_error_fails_naming {α : Type} (label idx ty : String) :
    (Outcome.returns (α := α) .nil (some (.errorf
      (label ++ "[" ++ idx ++ "] (" ++ ty ++ ") is not map[string]interface{} type")))).FailsNaming
      [label ++ "[" ++ idx ++ "]", ty] := by
  refine ⟨_, rfl, ?_⟩
  intro quote plusV t ht
  simp only [List.mem_cons, List.mem_singleton, List.not_mem_nil, or_false] at ht
  rcases ht with rfl | rfl
  · exact (element_message_names label idx _).1
  · exact (element_message_names label idx _).2

theorem top_element_error_fails_naming {α : Type} (idx ty : String) :
    (Outcome.returns (α := α) .nil (some (.errorf
      ("data[SPUSBDataType][" ++ idx ++ "] (" ++ ty ++
        ") is not map[string]interface{} type")))).FailsNaming
      ["data[SPUSBDataType]" ++ "[" ++ idx ++ "]", ty] := by
  refine ⟨_, rfl, ?_⟩
  intro quote plusV t ht
  simp only [List.mem_cons, List.mem_singleton, List.not_mem_nil, or_false] at ht
  rcases ht with rfl | rfl
  · refine ⟨[], " (".data ++ ty.data ++ ") is not map[string]interface{} type".data, ?_⟩
    simp [GoError.Error, String.data_append]
  · exact Occurs.middle _ _ _

/-- The loop of `GetVolumes` after a walked beginning `pre`. -/
theorem GetVolumes_after (path : String) (pre post : List JSON)
    (hpre : (GetVolumes (.arr pre) path).isOk = true) :
    GetVolumes (.arr (pre ++ post)) path =
      forRange (GetVolumes.body path) pre.length post (GetVolumes (.arr pre) path).vals := by
  have h := (Outcome.isOk_iff _).1 hpre
  simp only [GetVolumes] at h ⊢
  rw [forRange_append (GetVolumes_body_error path) pre post 0 [] _ h]
  simp

/-- The loop of `FindUSBStickInfo` after a walked beginning `pre` of the top-level array. -/
theorem FindUSBStickInfo_after (d : List (String × JSON)) (pre post : List JSON)
    (hd : JSON.get "SPUSBDataType" d = some (.arr (pre ++ post)))
    (hpre : (FindUSBStickInfo (.obj [("SPUSBDataType", .arr pre)])).isOk = true) :
    FindUSBStickInfo (.obj d) =
      forRange FindUSBStickInfo.body pre.length post
        (FindUSBStickInfo (.obj [("SPUSBDataType", .arr pre)])).vals := by
  have h := (Outcome.isOk_iff _).1 hpre
  have hF : FindUSBStickInfo (.obj [("SPUSBDataType", .arr pre)]) =
      forRange FindUSBStickInfo.body 0 pre [] := rfl
  rw [hF] at h ⊢
  simp only [FindUSBStickInfo, hd]
  rw [forRange_append FindUSBStickInfo_body_error pre post 0 [] _ h]
  simp

theorem body_of_non_object {x : JSON} (hx : ∀ m, x ≠ .obj m) :
    (∀ path i vis, GetVolumes.body path i x vis = .error (.returns .nil (some (.errorf
      (path ++ "[" ++ fmtInt i ++ "] (" ++ x.typeName ++
        ") is not map[string]interface{} type"))))) ∧
    (∀ path i mis, GetMedia.body path i x mis = .error (.returns .nil (some (.errorf
      (path ++ "[" ++ fmtInt i ++ "] (" ++ x.typeName ++
        ") is not map[string]interface{} type"))))) ∧
    (∀ path i uis, FindInItems.body path i x uis = .error (.returns .nil (some (.errorf
      (path ++ "[" ++ fmtInt i ++ "] (" ++ x.typeName ++
        ") is not map[string]interface{} type"))))) ∧
    (∀ i uis, FindUSBStickInfo.body i x uis = .error (.returns .nil (some (.errorf
      ("data[SPUSBDataType][" ++ fmtInt i ++ "] (" ++ x.typeName ++
        ") is not map[string]interface{} type"))))) := by
  cases x with
  | obj m => exact absurd rfl (hx m)
  | null => exact ⟨fun _ _ _ => rfl, fun _ _ _ => rfl, fun _ _ _ => rfl, fun _ _ => rfl⟩
  | bool b => exact ⟨fun _ _ _ => rfl, fun _ _ _ => rfl, fun _ _ _ => rfl, fun _ _ => rfl⟩
  | num q => exact ⟨fun _ _ _ => rfl, fun _ _ _ => rfl, fun _ _ _ => rfl, fun _ _ => rfl⟩
  | str t => exact ⟨fun _ _ _ => rfl, fun _ _ _ => rfl, fun _ _ _ => rfl, fun _ _ => rfl⟩
  | arr xs => exact ⟨fun _ _ _ => rfl, fun _ _ _ => rfl, fun _ _ _ => rfl, fun _ _ => rfl⟩

/-- The medium block of an object whose four required fields are well typed: what is left is
the "volumes" key. -/
theorem medium_of_fields {mi : List (String × JSON)} {name devName partitionName : String}
    {size : ℚ} (path : String) (i : Nat)
    (h1 : strField mi "_name" = some name) (h2 : strField mi "bsd_name" = some devName)
    (h3 : strField mi "partition_map_type" = some partitionName)
    (h4 : numField mi "size_in_bytes" = some size) :
    GetMedia.medium mi path i =
      match JSON.get "volumes" mi with
      | none => .ok { Name := name, DevName := devName, PartitionName := partitionName,
                      Size := int64 size, Volumes := .nil }
      | some it =>
        match GetVolumes it (path ++ "[" ++ fmtInt i ++ "][volumes]") with
        | .panics msg => .error (.panics msg)
        | .returns _ (some err) => .error (.returns .nil (some (.wrapf
            ("failed to get " ++ path ++ "[" ++ fmtInt i ++ "][volumes]: ") err)))
        | .returns vols none =>
          .ok { Name := name, DevName := devName, PartitionName := partitionName,
                Size := int64 size, Volumes := vols } := by
  unfold GetMedia.medium
  rw [assertString_some h1, ok_bind, assertString_some h2, ok_bind, assertString_some h3,
    ok_bind, assertFloat64_some h4, ok_bind]
  rfl

/-- C3. An element `x` that is not a JSON object, at index `i = pre.length` of a walked array
whose elements before it are walked without failure, makes the function that walks the array
return the nil slice and an error whose message contains the path of the element (the label
of the array followed by `[i]`) and the type of `x`: in a "volumes" array (`GetVolumes`), a
"Media" array (`GetMedia`), an "_items" array (`FindInItems`) and the top-level array
(`FindUSBStickInfo`, label `data[SPUSBDataType]`). And an error returned by a call that the
walk has got to is passed on by the caller with all the texts of its message kept: from
`GetVolumes` by `GetMedia`, from `GetMedia` by `FindInItems`, from `FindInItems` by
`FindInItems` and by `FindUSBStickInfo`; so the message of the failed extraction contains the
path and the type at every level. -/
theorem non_object_element_error (path : String) (pre post : List JSON) (x it : JSON)
    (ts : List String) (m d : List (String × JSON)) (u : USBInfo)
    (name devName partitionName : String) (size : ℚ) :
    ((∀ o, x ≠ .obj o) → (GetVolumes (.arr pre) path).isOk = true →
      (GetVolumes (.arr (pre ++ x :: post)) path).FailsNaming
        [path ++ "[" ++ fmtInt pre.length ++ "]", x.typeName]) ∧
    ((∀ o, x ≠ .obj o) → (GetMedia (.arr pre) path).isOk = true →
      (GetMedia (.arr (pre ++ x :: post)) path).FailsNaming
        [path ++ "[" ++ fmtInt pre.length ++ "]", x.typeName]) ∧
    ((∀ o, x ≠ .obj o) → (FindInItems (.arr pre) path).isOk = true →
      (FindInItems (.arr (pre ++ x :: post)) path).FailsNaming
        [path ++ "[" ++ fmtInt pre.length ++ "]", x.typeName]) ∧
    ((∀ o, x ≠ .obj o) → JSON.get "SPUSBDataType" d = some (.arr (pre ++ x :: post)) →
      (FindUSBStickInfo (.obj [("SPUSBDataType", .arr pre)])).isOk = true →
      (FindUSBStickInfo (.obj d)).FailsNaming
        ["data[SPUSBDataType]" ++ "[" ++ fmtInt pre.length ++ "]", x.typeName]) ∧
    ((GetMedia (.arr pre) path).isOk = true →
      strField m "_name" = some name → strField m "bsd_name" = some devName →
      strField m "partition_map_type" = some partitionName →
      numField m "size_in_bytes" = some size → JSON.get "volumes" m = some it →
      (GetVolumes it (path ++ "[" ++ fmtInt pre.length ++ "][volumes]")).FailsNaming ts →
      (GetMedia (.arr (pre ++ .obj m :: post)) path).FailsNaming ts) ∧
    (ReachesEntry path pre m → JSON.get "Media" m = some it → identityOf m = some u →
      (GetMedia it (path ++ "[" ++ fmtInt pre.length ++ "][Media]")).FailsNaming ts →
      (FindInItems (.arr (pre ++ .obj m :: post)) path).FailsNaming ts) ∧
    ((FindInItems (.arr pre) path).isOk = true → JSON.get "_items" m = some it →
      (FindInItems it (path ++ "[" ++ fmtInt pre.length ++ "][_items]")).FailsNaming ts →
      (FindInItems (.arr (pre ++ .obj m :: post)) path).FailsNaming ts) ∧
    (JSON.get "SPUSBDataType" d = some (.arr (pre ++ .obj m :: post)) →
      (FindUSBStickInfo (.obj [("SPUSBDataType", .arr pre)])).isOk = true →
      JSON.get "_items" m = some it →
      (FindInItems it ("data[SPUSBDataType][" ++ fmtInt pre.length ++ "][_items]")).FailsNaming
        ts →
      (FindUSBStickInfo (.obj d)).FailsNaming ts) := by
  refine ⟨?_, ?_, ?_, ?_, ?_, ?_, ?_, ?_⟩
  · intro hx hpre
    rw [GetVolumes_after path pre _ hpre,
      forRange_cons_error post ((body_of_non_object hx).1 path _ _)]
    exact element_error_fails_naming _ _ _
  · intro hx hpre
    rw [GetMedia_after path pre _ hpre,
      forRange_cons_error post ((body_of_non_object hx).2.1 path _ _)]
    exact element_error_fails_naming _ _ _
  · intro hx hpre
    rw [FindInItems_after path pre _ hpre,
      forRange_cons_error post ((body_of_non_object hx).2.2.1 path _ _)]
    exact element_error_fails_naming _ _ _
  · intro hx hd hpre
    rw [FindUSBStickInfo_after d pre _ hd hpre,
      forRange_cons_error post ((body_of_non_object hx).2.2.2 _ _)]
    exact top_element_error_fails_naming _ _
  · intro hpre h1 h2 h3 h4 hv hfail
    obtain ⟨e, he, hwrap⟩ := FailsNaming_wrapf (β := MediaInfo) hfail
      ("failed to get " ++ path ++ "[" ++ fmtInt pre.length ++ "][volumes]: ")
    rw [GetMedia_after path pre _ hpre]
    have hb : GetMedia.body path pre.length (.obj m) (GetMedia (.arr pre) path).vals =
        .error (.returns .nil (some (.wrapf
          ("failed to get " ++ path ++ "[" ++ fmtInt pre.length ++ "][volumes]: ") e))) := by
      simp only [GetMedia.body, medium_of_fields path pre.length h1 h2 h3 h4, hv, he]
    rw [forRange_cons_error post hb]
    exact hwrap
  · intro hr hm hid hfail
    obtain ⟨e, he, hwrap⟩ := FailsNaming_wrapf (β := USBInfo) hfail
      ("failed to get " ++ path ++ "[" ++ fmtInt pre.length ++ "][Media]: ")
    rw [FindInItems_at_entry path pre post m it hr hm, usbInfo_of_identity it path _ hid, he]
    exact hwrap
  · intro hpre hget hfail
    obtain ⟨e, he, hwrap⟩ := FailsNaming_wrapf (β := USBInfo) hfail
      ("failed to parse " ++ path ++ "[" ++ fmtInt pre.length ++ "][_items]: ")
    rw [FindInItems_after path pre _ hpre]
    have hb : FindInItems.body path pre.length (.obj m) (FindInItems (.arr pre) path).vals =
        .error (.returns .nil (some (.wrapf
          ("failed to parse " ++ path ++ "[" ++ fmtInt pre.length ++ "][_items]: ") e))) := by
      simp only [FindInItems.body, hget, he]
    rw [forRange_cons_error post hb]
    exact hwrap
  · intro hd hpre hget hfail
    obtain ⟨e, he, hwrap⟩ := FailsNaming_wrapf (β := USBInfo) hfail
      ("failed to parse data[SPUSBDataType][" ++ fmtInt pre.length ++ "][_items]: ")
    rw [FindUSBStickInfo_after d pre _ hd hpre]
    have hb : FindUSBStickInfo.body pre.length (.obj m)
        (FindUSBStickInfo (.obj [("SPUSBDataType", .arr pre)])).vals =
        .error (.returns .nil (some (.wrapf
          ("failed to parse data[SPUSBDataType][" ++ fmtInt pre.length ++ "][_items]: ")
          e))) := by
      simp only [FindUSBStickInfo.body, hget, he]
    rw [forRange_cons_error post hb]
    exact hwrap

/-- C3, at a concrete input: in `{"SPUSBDataType": [{}, {"_items": [{}, 3]}]}` the number `3`
is element 1 of the "_items" array of top-level entry 1; the extraction fails with an error
whose message contains `data[SPUSBDataType][1][_items][1]` and `float64`. -/
theorem non_object_element_error_witness :
    (FindUSBStickInfo (JSON.obj [("SPUSBDataType",
        JSON.arr [JSON.obj [], JSON.obj [("_items", JSON.arr [JSON.obj [], JSON.num 3])]])])).FailsNaming
      ["data[SPUSBDataType][1][_items]" ++ "[" ++ fmtInt 1 ++ "]", "float64"] :=
  (non_object_element_error "" [JSON.obj []] [] JSON.null (JSON.arr [JSON.obj [], JSON.num 3])
      ["data[SPUSBDataType][1][_items]" ++ "[" ++ fmtInt 1 ++ "]", "float64"]
      [("_items", JSON.arr [JSON.obj [], JSON.num 3])]
      [("SPUSBDataType",
        JSON.arr [JSON.obj [], JSON.obj [("_items", JSON.arr [JSON.obj [], JSON.num 3])]])]
      ⟨"", 0, 0, "", "", .nil⟩ "" "" "" 0).2.2.2.2.2.2.2 rfl rfl rfl
    ((non_object_element_error "data[SPUSBDataType][1][_items]" [JSON.obj []] [] (JSON.num 3)
      JSON.null [] [] [] ⟨"", 0, 0, "", "", .nil⟩ "" "" "" 0).2.2.1
        (by intro o h; cases h) rfl)

/-! ## Product and vendor ids that do not parse -/

/-- Every error of `ParseUint` is a `*NumError` for the function `ParseUint` and the text
given. -/
theorem ParseUint_error_form {s : String} {base bitSize val : Nat} {err : GoError}
    (h : ParseUint s base bitSize = (val, some err)) :
    ∃ kind, err = .numError "ParseUint" s kind := by
  unfold ParseUint at h
  split at h
  · cases h; exact ⟨_, rfl⟩
  · simp only [] at h
    split at h
    · cases h; exact ⟨_, rfl⟩
    · split at h
      · cases h; exact ⟨_, rfl⟩
      · split at h
        · cases h; exact ⟨_, rfl⟩
        · cases h; exact ⟨_, rfl⟩
        · split at h
          · cases h; exact ⟨_, rfl⟩
          · cases h

/-- C7. When the walk of `FindInItems` gets to the "Media" check of element `i = pre.length`,
an object with a "Media" key whose five identity fields are strings: if `ParseUint` rejects
the "product_id" string, `FindInItems` returns the nil slice and an error that wraps the error
of `ParseUint` (a `*NumError` for that text) and whose message contains `path[i][product_id]`
and the text; and if "product_id" parses and `ParseUint` rejects the text of "vendor_id"
before its first space, `FindInItems` returns the nil slice and an error that wraps the error
of `ParseUint` and whose message contains `path[i][vendor_id]` and that text. -/
theorem FindInItems_id_parse_error (path : String) (pre post : List JSON)
    (m : List (String × JSON)) (it : JSON)
    (name serial manufacturer pid vid field0 : String) (rest : List String) (val : Nat)
    (err : GoError)
    (hr : ReachesEntry path pre m) (hm : JSON.get "Media" m = some it)
    (h1 : strField m "_name" = some name) (h2 : strField m "serial_num" = some serial)
    (h3 : strField m "manufacturer" = some manufacturer)
    (h4 : strField m "product_id" = some pid) (h5 : strField m "vendor_id" = some vid)
    (hs : SplitN vid ' ' = field0 :: rest) :
    (ParseUint pid 0 16 = (val, some err) →
      FindInItems (.arr (pre ++ .obj m :: post)) path = .returns .nil (some (.wrapf
        ("failed to parse " ++ path ++ "[" ++ fmtInt pre.length ++ "][product_id] (" ++ pid ++
          "): ") err)) ∧
      (FindInItems (.arr (pre ++ .obj m :: post)) path).FailsNaming
        [path ++ "[" ++ fmtInt pre.length ++ "][product_id]", pid] ∧
      ∃ kind, err = .numError "ParseUint" pid kind) ∧
    (∀ val0, ParseUint pid 0 16 = (val0, none) → ParseUint field0 0 16 = (val, some err) →
      FindInItems (.arr (pre ++ .obj m :: post)) path = .returns .nil (some (.wrapf
        ("failed to parse " ++ path ++ "[" ++ fmtInt pre.length ++ "][vendor_id] (" ++ field0 ++
          "): ") err)) ∧
      (FindInItems (.arr (pre ++ .obj m :: post)) path).FailsNaming
        [path ++ "[" ++ fmtInt pre.length ++ "][vendor_id]", field0] ∧
      ∃ kind, err = .numError "ParseUint" field0 kind) := by
  constructor
  · intro hp
    have hF : FindInItems (.arr (pre ++ .obj m :: post)) path = .returns .nil (some (.wrapf
        ("failed to parse " ++ path ++ "[" ++ fmtInt pre.length ++ "][product_id] (" ++ pid ++
          "): ") err)) := by
      rw [FindInItems_at_entry path pre post m it hr hm,
        usbInfo_after_strings it path pre.length h1 h2 h3 h4, hp]
    refine ⟨hF, ?_, ParseUint_error_form hp⟩
    rw [hF]
    refine ⟨_, rfl, ?_⟩
    intro quote plusV t ht
    simp only [List.mem_cons, List.mem_singleton, List.not_mem_nil, or_false] at ht
    rcases ht with rfl | rfl
    · refine ⟨"failed to parse ".data,
        " (".data ++ pid.data ++ "): ".data ++ (err.Error quote plusV).data, ?_⟩
      simp [GoError.Error, String.data_append]
    · refine ⟨("failed to parse " ++ path ++ "[" ++ fmtInt pre.length ++ "][product_id] (").data,
        "): ".data ++ (err.Error quote plusV).data, ?_⟩
      simp [GoError.Error, String.data_append]
  · intro val0 hp hp2
    have hF : FindInItems (.arr (pre ++ .obj m :: post)) path = .returns .nil (some (.wrapf
        ("failed to parse " ++ path ++ "[" ++ fmtInt pre.length ++ "][vendor_id] (" ++ field0 ++
          "): ") err)) := by
      rw [FindInItems_at_entry path pre post m it hr hm,
        usbInfo_after_strings it path pre.length h1 h2 h3 h4, hp]
      simp only []
      rw [assertString_some h5, ok_bind, hs]
      simp only []
      rw [hp2]
    refine ⟨hF, ?_, ParseUint_error_form hp2⟩
    rw [hF]
    refine ⟨_, rfl, ?_⟩
    intro quote plusV t ht
    simp only [List.mem_cons, List.mem_singleton, List.not_mem_nil, or_false] at ht
    rcases ht with rfl | rfl
    · refine ⟨"failed to parse ".data,
        " (".data ++ field0.data ++ "): ".data ++ (err.Error quote plusV).data, ?_⟩
      simp [GoError.Error, String.data_append]
    · refine ⟨("failed to parse " ++ path ++ "[" ++ fmtInt pre.length ++ "][vendor_id] (").data,
        "): ".data ++ (err.Error quote plusV).data, ?_⟩
      simp [GoError.Error, String.data_append]

/-- C7, at concrete inputs: an entry with "product_id": "zz", and an entry with
"vendor_id": "apple_vendor_id", each alone in its array under the label `p`. -/
theorem FindInItems_id_parse_error_witness :
    (FindInItems (JSON.arr [JSON.obj [("Media", JSON.arr []), ("_name", JSON.str "K"),
        ("serial_num", JSON.str "1"), ("manufacturer", JSON.str "A"),
        ("product_id", JSON.str "zz"), ("vendor_id", JSON.str "0x1")]]) "p").FailsNaming
      ["p" ++ "[" ++ fmtInt 0 ++ "][product_id]", "zz"] ∧
    (FindInItems (JSON.arr [JSON.obj [("Media", JSON.arr []), ("_name", JSON.str "K"),
        ("serial_num", JSON.str "1"), ("manufacturer", JSON.str "A"),
        ("product_id", JSON.str "0x1"), ("vendor_id", JSON.str "apple_vendor_id")]])
        "p").FailsNaming
      ["p" ++ "[" ++ fmtInt 0 ++ "][vendor_id]", "apple_vendor_id"] :=
  ⟨((FindInItems_id_parse_error "p" [] []
      [("Media", JSON.arr []), ("_name", JSON.str "K"), ("serial_num", JSON.str "1"),
        ("manufacturer", JSON.str "A"), ("product_id", JSON.str "zz"),
        ("vendor_id", JSON.str "0x1")]
      (JSON.arr []) "K" "1" "A" "zz" "0x1" "0x1" [] 0
      (GoError.numError "ParseUint" "zz" NumErrKind.invalid)
      ⟨rfl, True.intro⟩ rfl rfl rfl rfl rfl rfl rfl).1 rfl).2.1,
   ((FindInItems_id_parse_error "p" [] []
      [("Media", JSON.arr []), ("_name", JSON.str "K"), ("serial_num", JSON.str "1"),
        ("manufacturer", JSON.str "A"), ("product_id", JSON.str "0x1"),
        ("vendor_id", JSON.str "apple_vendor_id")]
      (JSON.arr []) "K" "1" "A" "0x1" "apple_vendor_id" "apple_vendor_id" [] 0
      (GoError.numError "ParseUint" "apple_vendor_id" NumErrKind.invalid)
      ⟨rfl, True.intro⟩ rfl rfl rfl rfl rfl rfl rfl).2 1 rfl rfl).2.1⟩

/-! ## Integer literals -/

theorem lor_lower_case (k : Nat) (h1 : 97 ≤ k) (h2 : k ≤ 102) : k ||| 32 = k := by
  interval_cases k <;> rfl

theorem lor_upper_case (k : Nat) (h1 : 65 ≤ k) (h2 : k ≤ 70) : k ||| 32 = k + 32 := by
  interval_cases k <;> rfl

theorem ne_underscore_of_toNat {c : Char} (h : c.toNat ≠ 95) : c ≠ '_' := by
  rintro rfl
  exact h rfl

/-- A hexadecimal digit is read by the digit loop with its value, below 16. -/
theorem digitVal_of_hex {c : Char} {d : Nat} (h : hexDigitValue c = some d) :
    c ≠ '_' ∧ digitVal c = some d ∧ d < 16 := by
  unfold hexDigitValue at h
  split at h
  · next hc =>
    cases h
    refine ⟨ne_underscore_of_toNat (by omega), ?_, by omega⟩
    simp only [digitVal]
    rw [if_pos (by simpa using hc)]
    rfl
  · next hn =>
    split at h
    · next hc =>
      cases h
      refine ⟨ne_underscore_of_toNat (by omega), ?_, by omega⟩
      have hl : lower c = c.toNat := lor_lower_case _ hc.1 hc.2
      simp only [digitVal, hl]
      rw [if_neg (by simpa using hn), if_pos (by simp; omega)]
      congr 1
      simp
      omega
    · split at h
      · next hc =>
        cases h
        refine ⟨ne_underscore_of_toNat (by omega), ?_, by omega⟩
        have hl : lower c = c.toNat + 32 := lor_upper_case _ hc.1 hc.2
        simp only [digitVal, hl]
        rw [if_neg (by simpa using hn), if_pos (by simp; omega)]
        congr 1
        simp
        omega
      · cases h

/-- A decimal digit is read by the digit loop with its value, below 10. -/
theorem digitVal_of_dec {c : Char} {d : Nat} (h : decDigitValue c = some d) :
    c ≠ '_' ∧ digitVal c = some d ∧ d < 10 := by
  unfold decDigitValue at h
  split at h
  · next hc =>
    cases h
    refine ⟨ne_underscore_of_toNat (by omega), ?_, by omega⟩
    simp only [digitVal]
    rw [if_pos (by simpa using hc)]
    rfl
  · cases h

theorem denotes_ge (digit : Char → Option Nat) (base : Nat) (hb : 1 ≤ base) (cs : List Char)
    (n v : Nat) (h : denotes digit base cs n = some v) : n ≤ v := by
  induction cs generalizing n with
  | nil => simp [denotes] at h; omega
  | cons c cs ih =>
    simp only [denotes] at h
    split at h
    · cases h
    · have := ih _ h
      have : n ≤ n * base := Nat.le_mul_of_pos_right n hb
      omega

/-- The digit loop of `ParseUint` with 16 bits on a string of digits: it ends with the number
the digits denote when that is at most 65535, and with the range error otherwise. -/
theorem loop_of_denotes (digit : Char → Option Nat) (base cutoff : Nat)
    (hbase : 1 ≤ base ∧ base ≤ 16) (hcut : 65535 < cutoff)
    (hdigit : ∀ c d, digit c = some d → c ≠ '_' ∧ digitVal c = some d ∧ d < base)
    (base0 us : Bool) (cs : List Char) (n v : Nat) (hn : n ≤ 65535)
    (h : denotes digit base cs n = some v) :
    ParseUint.loop base0 base cutoff 65535 cs n us =
      if v ≤ 65535 then .done v us else .outOfRange := by
  induction cs generalizing n with
  | nil =>
    simp only [denotes, Option.some.injEq] at h
    subst h
    simp [ParseUint.loop, hn]
  | cons c cs ih =>
    simp only [denotes] at h
    cases hd : digit c with
    | none => rw [hd] at h; cases h
    | some d =>
      rw [hd] at h
      simp only [] at h
      obtain ⟨hne, hdv, hlt⟩ := hdigit c d hd
      have hmul : n * base ≤ 65535 * 16 := Nat.mul_le_mul hn hbase.2
      have hm1 : n * base % 2 ^ 64 = n * base := Nat.mod_eq_of_lt (by omega)
      have hm2 : (n * base + d) % 2 ^ 64 = n * base + d := Nat.mod_eq_of_lt (by omega)
      rw [ParseUint.loop]
      rw [if_neg (fun hc => hne hc.1)]
      simp only [hdv, hm1, hm2]
      rw [if_neg (by omega), if_neg (by omega)]
      by_cases hbig : n * base + d > 65535
      · rw [if_pos (Or.inr hbig)]
        have := denotes_ge digit base hbase.1 cs _ v h
        rw [if_neg (by omega)]
      · rw [if_neg (by omega)]
        exact ih _ (by omega) h

/-- `ParseUint` with base 0 and 16 bits on a hexadecimal literal. -/
theorem ParseUint_hex {s : String} {n : Nat} (h : hexLiteral s = some n) :
    ParseUint s 0 16 =
      if n ≤ 65535 then (n, none)
      else (65535, some (.numError "ParseUint" s .outOfRange)) := by
  unfold hexLiteral at h
  split at h
  · next c0 x d ds hs =>
    split at h
    · next hc =>
      obtain ⟨rfl, hx⟩ := hc
      have hdet : ParseUint.detect s.data = (16, d :: ds) := by
        rw [hs]
        rcases hx with rfl | rfl <;> rfl
      have hloop := loop_of_denotes hexDigitValue 16 1152921504606846976
        (by omega) (by norm_num) (fun c d => digitVal_of_hex) true false (d :: ds) 0 n
        (by omega) h
      unfold ParseUint
      rw [if_neg (by rw [hs]; simp)]
      simp only [hdet]
      by_cases hn : n ≤ 65535
      · simp [hn, hloop]
      · simp [hn, hloop]
    · cases h
  · cases h

/-- `ParseUint` with base 0 and 16 bits on a string of decimal digits that does not start
with a `0` followed by more digits. -/
theorem ParseUint_dec {s : String} {n : Nat} (h : decLiteral s = some n)
    (hz : leadingZero s = false) :
    ParseUint s 0 16 =
      if n ≤ 65535 then (n, none)
      else (65535, some (.numError "ParseUint" s .outOfRange)) := by
  unfold decLiteral at h
  split at h
  · cases h
  · next d ds hs =>
    by_cases hd : d = '0'
    · subst hd
      cases ds with
      | cons c cs => simp [leadingZero, hs] at hz
      | nil =>
        have hn : n = 0 := by
          simp [denotes, decDigitValue] at h
          omega
        subst hn
        unfold ParseUint
        rw [if_neg (by rw [hs]; simp)]
        simp only [hs]
        rfl
    · have hdet : ParseUint.detect s.data = (10, d :: ds) := by
        rw [hs]
        simp [ParseUint.detect, hd]
      have hloop := loop_of_denotes decDigitValue 10 1844674407370955162
        (by omega) (by norm_num) (fun c d => digitVal_of_dec) true false (d :: ds) 0 n
        (by omega) h
      unfold ParseUint
      rw [if_neg (by rw [hs]; simp)]
      simp only [hdet]
      by_cases hn : n ≤ 65535
      · simp [hn, hloop]
      · simp [hn, hloop]

/-- A value accepted by the digit loop is within the bound `maxVal`. -/
theorem loop_done_le (base0 : Bool) (base cutoff maxVal : Nat) (cs : List Char)
    (n : Nat) (us : Bool) (v : Nat) (us1 : Bool) (hn : n ≤ maxVal)
    (h : ParseUint.loop base0 base cutoff maxVal cs n us = .done v us1) : v ≤ maxVal := by
  induction cs generalizing n us with
  | nil =>
    simp only [ParseUint.loop, ParseLoop.done.injEq] at h
    omega
  | cons c cs ih =>
    rw [ParseUint.loop] at h
    split at h
    · exact ih _ _ hn h
    · split at h
      · cases h
      · split at h
        · cases h
        · split at h
          · cases h
          · simp only [] at h
            split at h
            · cases h
            · next hbig =>
              refine ih _ _ ?_ h
              omega

/-- A value accepted by `ParseUint` with 16 bits fits in 16 bits: the narrowing `uint16`
leaves it as it is. -/
theorem ParseUint_ok_bound {s : String} {base v : Nat}
    (h : ParseUint s base 16 = (v, none)) : v ≤ 65535 ∧ uint16 v = v := by
  have hv : v ≤ 65535 := by
    unfold ParseUint at h
    split at h
    · cases h
    · simp only [] at h
      split at h
      · cases h
      · split at h
        · cases h
        · split at h
          · cases h
          · cases h
          · next hl =>
            split at h
            · cases h
            · cases h
              have := loop_done_le _ _ _ _ _ _ _ _ _ (Nat.zero_le _) hl
              simpa using this
  exact ⟨hv, Nat.mod_eq_of_lt (by omega)⟩

theorem cut_absent (sep : Char) (cs : List Char) (h : sep ∉ cs) :
    SplitN.cut sep cs = none := by
  induction cs with
  | nil => rfl
  | cons c cs ih =>
    simp only [List.mem_cons, not_or] at h
    simp only [SplitN.cut]
    rw [if_neg (fun hc => h.1 hc.symm), ih h.2]

theorem cut_first (sep : Char) (cs rest : List Char) (h : sep ∉ cs) :
    SplitN.cut sep (cs ++ sep :: rest) = some (cs, rest) := by
  induction cs with
  | nil => simp [SplitN.cut]
  | cons c cs ih =>
    simp only [List.mem_cons, not_or] at h
    have ih2 := ih h.2
    simp only [List.cons_append, SplitN.cut]
    rw [if_neg (fun hc => h.1 hc.symm)]
    change (match SplitN.cut sep (cs ++ sep :: rest) with
      | none => none
      | some (before, rest) => some (c :: before, rest)) = some (c :: cs, rest)
    rw [ih2]

/-- `SplitN` on a text without a space gives the text alone. -/
theorem SplitN_single (t : String) (ht : ' ' ∉ t.data) : SplitN t ' ' = [t] := by
  simp [SplitN, cut_absent ' ' t.data ht]

/-- `SplitN` on a token, a space and a trailing text gives the token first. -/
theorem SplitN_token (t r : String) (ht : ' ' ∉ t.data) :
    SplitN (t ++ " " ++ r) ' ' = [t, r] := by
  have hd : (t ++ " " ++ r).data = t.data ++ ' ' :: r.data := by
    simp [String.data_append]
  simp [SplitN, hd, cut_first ' ' t.data r.data ht]

/-- The walk at an entry with a "Media" key whose identity fields are well formed and whose
media are read without failure: it goes on after the entry with the device appended. -/
theorem FindInItems_entry_ok (path : String) (pre post : List JSON) (m : List (String × JSON))
    (it : JSON) {name serial manufacturer pid vid field0 : String} {rest : List String}
    {pv vv : Nat} {mi : Slice MediaInfo}
    (hr : ReachesEntry path pre m) (hm : JSON.get "Media" m = some it)
    (h1 : strField m "_name" = some name) (h2 : strField m "serial_num" = some serial)
    (h3 : strField m "manufacturer" = some manufacturer)
    (h4 : strField m "product_id" = some pid) (h5 : strField m "vendor_id" = some vid)
    (hs : SplitN vid ' ' = field0 :: rest)
    (hp : ParseUint pid 0 16 = (pv, none)) (hv : ParseUint field0 0 16 = (vv, none))
    (hmed : GetMedia it (path ++ "[" ++ fmtInt pre.length ++ "][Media]") = .returns mi none) :
    FindInItems (.arr (pre ++ .obj m :: post)) path =
      forRange (FindInItems.body path) (pre.length + 1) post
        (collectedBefore path pre m ++
          [{ Name := name, ProductID := uint16 pv, VendorID := uint16 vv,
             SerialNumber := serial, Manufacturer := manufacturer,
             Media := if mi.len > 0 then mi else .nil }]) := by
  rw [FindInItems_at_entry path pre post m it hr hm,
    usbInfo_after_strings it path pre.length h1 h2 h3 h4, hp]
  simp only []
  rw [assertString_some h5, ok_bind, hs]
  simp only []
  rw [hv]
  simp only []
  rw [hmed]

/-- Two arrays that differ in one element on which the body of the loop does the same have
the same walk. -/
theorem forRange_congr_at {α : Type}
    {body : Nat → JSON → List α → Except (Outcome α) (List α)} {x1 x2 : JSON}
    (hx : ∀ i acc, body i x1 acc = body i x2 acc) (pre post : List JSON) (i : Nat)
    (acc : List α) :
    forRange body i (pre ++ x1 :: post) acc = forRange body i (pre ++ x2 :: post) acc := by
  induction pre generalizing i acc with
  | nil => simp [forRange, hx]
  | cons y pre ih =>
    simp only [List.cons_append, forRange]
    cases body i y acc with
    | error out => rfl
    | ok acc1 => exact ih _ _

/-! ## The vendor id is the text before the first space -/

/-- The body of the loop does the same on two objects that agree on every key but
"vendor_id", where one holds a token without a space and the other the same token followed by
a space and more text. -/
theorem body_vendor_token {m1 m2 : List (String × JSON)} {t r : String}
    (ht : ' ' ∉ t.data)
    (hsame : ∀ k, k ≠ "vendor_id" → JSON.get k m1 = JSON.get k m2)
    (h1 : JSON.get "vendor_id" m1 = some (.str (t ++ " " ++ r)))
    (h2 : JSON.get "vendor_id" m2 = some (.str t))
    (path : String) (i : Nat) (acc : List USBInfo) :
    FindInItems.body path i (.obj m1) acc = FindInItems.body path i (.obj m2) acc := by
  have hI : JSON.get "_items" m1 = JSON.get "_items" m2 := hsame _ (by decide)
  have hM : JSON.get "Media" m1 = JSON.get "Media" m2 := hsame _ (by decide)
  have idx : ∀ k, k ≠ "vendor_id" → JSON.index m1 k = JSON.index m2 k := by
    intro k hk
    simp [JSON.index, hsame k hk]
  have hv1 : JSON.index m1 "vendor_id" = .str (t ++ " " ++ r) := by simp [JSON.index, h1]
  have hv2 : JSON.index m2 "vendor_id" = .str t := by simp [JSON.index, h2]
  have hu : ∀ it, FindInItems.usbInfo m1 it path i = FindInItems.usbInfo m2 it path i := by
    intro it
    simp only [FindInItems.usbInfo, idx "_name" (by decide), idx "serial_num" (by decide),
      idx "manufacturer" (by decide), idx "product_id" (by decide), hv1, hv2, assertString,
      ok_bind, SplitN_token t r ht, SplitN_single t ht]
  simp only [FindInItems.body, hI, hM, hu]

/-- C8. Let `t` be a token without a space and `r` any text, and let two objects agree on every
key but "vendor_id", which holds `t ++ " " ++ r` in the first and `t` in the second. Then
`FindInItems` does the same on two arrays that differ only in having the one or the other
object at some index: the same devices, or the same failure. When the walk gets to the first
object, a well-formed entry with a "Media" key, the device built for it has for `VendorID`
the number that `ParseUint` gives for `t`. In particular a "vendor_id" of
`0x043e  (LG Electronics USA Inc.)` gives the `VendorID` `0x043e`. -/
theorem vendor_id_first_token (path : String) (pre post : List JSON)
    (m1 m2 : List (String × JSON)) (t r : String)
    (ht : ' ' ∉ t.data)
    (hsame : ∀ k, k ≠ "vendor_id" → JSON.get k m1 = JSON.get k m2)
    (h1 : JSON.get "vendor_id" m1 = some (.str (t ++ " " ++ r)))
    (h2 : JSON.get "vendor_id" m2 = some (.str t)) :
    FindInItems (.arr (pre ++ .obj m1 :: post)) path =
      FindInItems (.arr (pre ++ .obj m2 :: post)) path ∧
    (∀ (it : JSON) (name serial manufacturer pid : String) (pv tv : Nat)
        (mi : Slice MediaInfo),
      ReachesEntry path pre m1 → JSON.get "Media" m1 = some it →
      strField m1 "_name" = some name → strField m1 "serial_num" = some serial →
      strField m1 "manufacturer" = some manufacturer → strField m1 "product_id" = some pid →
      ParseUint pid 0 16 = (pv, none) → ParseUint t 0 16 = (tv, none) →
      GetMedia it (path ++ "[" ++ fmtInt pre.length ++ "][Media]") = .returns mi none →
      FindInItems (.arr (pre ++ [.obj m1])) path = .returns (.of (collectedBefore path pre m1 ++
        [{ Name := name, ProductID := uint16 pv, VendorID := tv, SerialNumber := serial,
           Manufacturer := manufacturer, Media := if mi.len > 0 then mi else .nil }])) none) ∧
    FindInItems (.arr [.obj [("_name", .str "LG Monitor Controls"), ("Media", .arr []),
        ("serial_num", .str "005INTX1F153"), ("manufacturer", .str "LG Electronics Inc."),
        ("product_id", .str "0x9a40"),
        ("vendor_id", .str "0x043e  (LG Electronics USA Inc.)")]]) "p" =
      .returns (.of
        [{ Name := "LG Monitor Controls", ProductID := 0x9a40, VendorID := 0x043e,
           SerialNumber := "005INTX1F153", Manufacturer := "LG Electronics Inc.",
           Media := .nil }]) none := by
  refine ⟨?_, ?_, rfl⟩
  · rw [FindInItems_arr, FindInItems_arr]
    exact forRange_congr_at (fun i acc => body_vendor_token ht hsame h1 h2 path i acc) _ _ _ _
  · intro it name serial manufacturer pid pv tv mi hr hm hn hse hma hpid hp hv hmed
    have h5 : strField m1 "vendor_id" = some (t ++ " " ++ r) := by
      simp [strField, JSON.index, h1]
    have hF := FindInItems_entry_ok path pre [] m1 it hr hm hn hse hma hpid h5
      (SplitN_token t r ht) hp hv hmed
    rw [hF, (ParseUint_ok_bound hv).2]
    rfl

/-- C8, at a concrete input: the token `0x043e` and the trailing text
` (LG Electronics USA Inc.)`, in an entry alone in its array under the label `p`. -/
theorem vendor_id_first_token_witness :
    FindInItems (JSON.arr [JSON.obj [("_name", JSON.str "LG Monitor Controls"),
        ("Media", JSON.arr []), ("serial_num", JSON.str "005INTX1F153"),
        ("manufacturer", JSON.str "LG Electronics Inc."), ("product_id", JSON.str "0x9a40"),
        ("vendor_id", JSON.str ("0x043e" ++ " " ++ " (LG Electronics USA Inc.)"))]]) "p" =
      FindInItems (JSON.arr [JSON.obj [("_name", JSON.str "LG Monitor Controls"),
        ("Media", JSON.arr []), ("serial_num", JSON.str "005INTX1F153"),
        ("manufacturer", JSON.str "LG Electronics Inc."), ("product_id", JSON.str "0x9a40"),
        ("vendor_id", JSON.str "0x043e")]]) "p" :=
  (vendor_id_first_token "p" [] []
    [("_name", JSON.str "LG Monitor Controls"),
        ("Media", JSON.arr []), ("serial_num", JSON.str "005INTX1F153"),
        ("manufacturer", JSON.str "LG Electronics Inc."), ("product_id", JSON.str "0x9a40"),
        ("vendor_id", JSON.str ("0x043e" ++ " " ++ " (LG Electronics USA Inc.)"))]
    [("_name", JSON.str "LG Monitor Controls"),
        ("Media", JSON.arr []), ("serial_num", JSON.str "005INTX1F153"),
        ("manufacturer", JSON.str "LG Electronics Inc."), ("product_id", JSON.str "0x9a40"),
        ("vendor_id", JSON.str "0x043e")]
    "0x043e" " (LG Electronics USA Inc.)" (by decide)
    (by
      intro k hk
      simp [JSON.get, Ne.symm hk])
    rfl rfl).1

/-! ## Product and vendor ids as integer literals -/

/-- `ParseUint` with base 0 and 16 bits on an integer literal: its number when that is at most
65535, and the range error otherwise. -/
theorem ParseUint_literal {s : String} {n : Nat} (h : IsLiteral s n) :
    ParseUint s 0 16 =
      if n ≤ 65535 then (n, none)
      else (65535, some (.numError "ParseUint" s .outOfRange)) := by
  rcases h with h | ⟨h, hz⟩
  · exact ParseUint_hex h
  · exact ParseUint_dec h hz

/-- C9, as stated, fails: the string of decimal digits `010` denotes 10, and an entry whose
"product_id" is `010` gets the `ProductID` 8, for a leading `0` makes `ParseUint` read the
digits in base 8. -/
theorem product_id_literal_counterexample :
    decLiteral "010" = some 10 ∧
    FindInItems (.arr [.obj [("_name", .str "K"), ("Media", .arr []),
        ("serial_num", .str "1"), ("manufacturer", .str "A"), ("product_id", .str "010"),
        ("vendor_id", .str "0x1")]]) "p" =
      .returns (.of
        [{ Name := "K", ProductID := 8, VendorID := 1, SerialNumber := "1",
           Manufacturer := "A", Media := .nil }]) none :=
  ⟨rfl, rfl⟩

/-- C9, amended. Product-id parsing reads the whole string as an integer literal: for every
`n ≤ 65535`, every hexadecimal literal (`0x` or `0X` and hexadecimal digits) that denotes `n`
and every string of decimal digits that denotes `n` and does not start with a `0` followed by
more digits is accepted by `ParseUint` with the value `n`, and when the walk gets to a
well-formed entry with a "Media" key whose "product_id" is that string, the device built for
it has `ProductID = n`. In particular `0x0407` yields `0x0407`. -/
theorem product_id_literal (path : String) (pre : List JSON) (m : List (String × JSON))
    (it : JSON) (name serial manufacturer s vid field0 : String) (rest : List String)
    (n vv : Nat) (mi : Slice MediaInfo)
    (hn : n ≤ 65535) (hlit : IsLiteral s n)
    (hr : ReachesEntry path pre m) (hm : JSON.get "Media" m = some it)
    (h1 : strField m "_name" = some name) (h2 : strField m "serial_num" = some serial)
    (h3 : strField m "manufacturer" = some manufacturer)
    (h4 : strField m "product_id" = some s) (h5 : strField m "vendor_id" = some vid)
    (hs : SplitN vid ' ' = field0 :: rest) (hv : ParseUint field0 0 16 = (vv, none))
    (hmed : GetMedia it (path ++ "[" ++ fmtInt pre.length ++ "][Media]") = .returns mi none) :
    ParseUint s 0 16 = (n, none) ∧
    FindInItems (.arr (pre ++ [.obj m])) path = .returns (.of (collectedBefore path pre m ++
      [{ Name := name, ProductID := n, VendorID := uint16 vv, SerialNumber := serial,
         Manufacturer := manufacturer, Media := if mi.len > 0 then mi else .nil }])) none ∧
    ParseUint "0x0407" 0 16 = (0x0407, none) := by
  have hp : ParseUint s 0 16 = (n, none) := by
    rw [ParseUint_literal hlit, if_pos hn]
  refine ⟨hp, ?_, rfl⟩
  have hF := FindInItems_entry_ok path pre [] m it hr hm h1 h2 h3 h4 h5 hs hp hv hmed
  rw [hF, (ParseUint_ok_bound hp).2]
  rfl

/-- C9, amended, at concrete inputs: the decimal string `1031` and the hexadecimal literal
`0x0407`, which denote the same number, in an entry alone in its array. -/
theorem product_id_literal_witness :
    FindInItems (JSON.arr ([] ++ [JSON.obj [("_name", JSON.str "K"), ("Media", JSON.arr []),
        ("serial_num", JSON.str "1"), ("manufacturer", JSON.str "A"),
        ("product_id", JSON.str "1031"), ("vendor_id", JSON.str "0x1")]])) "p" =
      .returns (.of
        [{ Name := "K", ProductID := 1031, VendorID := 1, SerialNumber := "1",
           Manufacturer := "A", Media := .nil }]) none ∧
    FindInItems (JSON.arr ([] ++ [JSON.obj [("_name", JSON.str "K"), ("Media", JSON.arr []),
        ("serial_num", JSON.str "1"), ("manufacturer", JSON.str "A"),
        ("product_id", JSON.str "0x0407"), ("vendor_id", JSON.str "0x1")]])) "p" =
      .returns (.of
        [{ Name := "K", ProductID := 1031, VendorID := 1, SerialNumber := "1",
           Manufacturer := "A", Media := .nil }]) none :=
  ⟨(product_id_literal "p" []
      [("_name", JSON.str "K"), ("Media", JSON.arr []), ("serial_num", JSON.str "1"),
        ("manufacturer", JSON.str "A"), ("product_id", JSON.str "1031"),
        ("vendor_id", JSON.str "0x1")]
      (JSON.arr []) "K" "1" "A" "1031" "0x1" "0x1" [] 1031 1 (Slice.of [])
      (by decide) (Or.inr ⟨rfl, rfl⟩) ⟨rfl, True.intro⟩ rfl rfl rfl rfl rfl rfl rfl rfl rfl).2.1,
   (product_id_literal "p" []
      [("_name", JSON.str "K"), ("Media", JSON.arr []), ("serial_num", JSON.str "1"),
        ("manufacturer", JSON.str "A"), ("product_id", JSON.str "0x0407"),
        ("vendor_id", JSON.str "0x1")]
      (JSON.arr []) "K" "1" "A" "0x0407" "0x1" "0x1" [] 1031 1 (Slice.of [])
      (by decide) (Or.inl rfl) ⟨rfl, True.intro⟩ rfl rfl rfl rfl rfl rfl rfl rfl rfl).2.1⟩

/-- C10, as stated, fails: the literal `0x10000` denotes 65536, and an entry whose
"product_id" is `0x10000` is not extracted with the id `65536 mod 2^16 = 0`: `FindInItems`
returns the nil slice and an error that wraps the range error of `ParseUint`. -/
theorem id_narrowing_counterexample :
    hexLiteral "0x10000" = some 65536 ∧
    FindInItems (.arr [.obj [("_name", .str "K"), ("Media", .arr []),
        ("serial_num", .str "1"), ("manufacturer", .str "A"), ("product_id", .str "0x10000"),
        ("vendor_id", .str "0x1")]]) "p" =
      .returns .nil (some (.wrapf "failed to parse p[0][product_id] (0x10000): "
        (.numError "ParseUint" "0x10000" .outOfRange))) :=
  ⟨rfl, rfl⟩

/-- C10, amended. Product and vendor ids are checked against the 16-bit range by `ParseUint`
before they are narrowed, so the narrowing never wraps a value around. When the walk gets to
an entry with a "Media" key whose "_name", "serial_num", "manufacturer" and "product_id" are
strings:
* a "product_id" that is an integer literal denoting `n > 65535` makes `FindInItems` return
  the nil slice and the error that wraps the range error of `ParseUint` on that literal,
  whatever the "vendor_id" is;
* when "vendor_id" is a string whose text before the first space is an integer literal
  denoting `n > 65535`, `FindInItems` returns the nil slice and an error, and when the
  "product_id" is accepted by `ParseUint` that error wraps the range error of `ParseUint` on
  the vendor literal;
* when the media are read without failure, a "product_id" literal denoting `n ≤ 65535` is
  stored as `ProductID = n` provided `ParseUint` accepts the vendor text, a vendor literal
  denoting `n ≤ 65535` is stored as `VendorID = n` provided `ParseUint` accepts the
  "product_id", and `n` is `n mod 2^16`. -/
theorem id_range_checked (path : String) (pre post : List JSON) (m : List (String × JSON))
    (it : JSON) (name serial manufacturer pid vid field0 : String) (rest : List String)
    (n other : Nat)
    (hr : ReachesEntry path pre m) (hm : JSON.get "Media" m = some it)
    (h1 : strField m "_name" = some name) (h2 : strField m "serial_num" = some serial)
    (h3 : strField m "manufacturer" = some manufacturer)
    (h4 : strField m "product_id" = some pid) :
    (IsLiteral pid n → 65535 < n →
      FindInItems (.arr (pre ++ .obj m :: post)) path = .returns .nil (some (.wrapf
        ("failed to parse " ++ path ++ "[" ++ fmtInt pre.length ++ "][product_id] (" ++ pid ++
          "): ") (.numError "ParseUint" pid .outOfRange)))) ∧
    (strField m "vendor_id" = some vid → SplitN vid ' ' = field0 :: rest →
      (IsLiteral field0 n → 65535 < n →
        (∃ e, FindInItems (.arr (pre ++ .obj m :: post)) path = .returns .nil (some e)) ∧
        (ParseUint pid 0 16 = (other, none) →
          FindInItems (.arr (pre ++ .obj m :: post)) path = .returns .nil (some (.wrapf
            ("failed to parse " ++ path ++ "[" ++ fmtInt pre.length ++ "][vendor_id] (" ++
              field0 ++ "): ") (.numError "ParseUint" field0 .outOfRange))))) ∧
      (∀ mi, GetMedia it (path ++ "[" ++ fmtInt pre.length ++ "][Media]") = .returns mi none →
        (IsLiteral pid n → n ≤ 65535 → ParseUint field0 0 16 = (other, none) →
          FindInItems (.arr (pre ++ [.obj m])) path =
            .returns (.of (collectedBefore path pre m ++
              [{ Name := name, ProductID := n, VendorID := other, SerialNumber := serial,
                 Manufacturer := manufacturer,
                 Media := if mi.len > 0 then mi else .nil }])) none ∧
          n = n % 2 ^ 16) ∧
        (IsLiteral field0 n → n ≤ 65535 → ParseUint pid 0 16 = (other, none) →
          FindInItems (.arr (pre ++ [.obj m])) path =
            .returns (.of (collectedBefore path pre m ++
              [{ Name := name, ProductID := other, VendorID := n, SerialNumber := serial,
                 Manufacturer := manufacturer,
                 Media := if mi.len > 0 then mi else .nil }])) none ∧
          n = n % 2 ^ 16))) := by
  have hentry := FindInItems_at_entry path pre post m it hr hm
  have hstr := usbInfo_after_strings it path pre.length h1 h2 h3 h4
  refine ⟨?_, ?_⟩
  · intro hlp hbig
    have hp : ParseUint pid 0 16 = (65535, some (.numError "ParseUint" pid .outOfRange)) := by
      rw [ParseUint_literal hlp, if_neg (by omega)]
    rw [hentry, hstr, hp]
  · intro h5 hs
    refine ⟨?_, ?_⟩
    · intro hlv hbig
      have hv : ParseUint field0 0 16 =
          (65535, some (.numError "ParseUint" field0 .outOfRange)) := by
        rw [ParseUint_literal hlv, if_neg (by omega)]
      have hacc : ∀ val, ParseUint pid 0 16 = (val, none) →
          FindInItems (.arr (pre ++ .obj m :: post)) path = .returns .nil (some (.wrapf
            ("failed to parse " ++ path ++ "[" ++ fmtInt pre.length ++ "][vendor_id] (" ++
              field0 ++ "): ") (.numError "ParseUint" field0 .outOfRange))) := by
        intro val hp
        rw [hentry, hstr, hp]
        simp only []
        rw [assertString_some h5, ok_bind, hs]
        simp only []
        rw [hv]
      refine ⟨?_, hacc other⟩
      cases hp : ParseUint pid 0 16 with
      | mk val err =>
        cases err with
        | some e =>
          rw [hentry, hstr, hp]
          exact ⟨_, rfl⟩
        | none => exact ⟨_, hacc val hp⟩
    · intro mi hmed
      refine ⟨?_, ?_⟩
      · intro hlp hsmall hv
        have hp : ParseUint pid 0 16 = (n, none) := by
          rw [ParseUint_literal hlp, if_pos hsmall]
        have hF := FindInItems_entry_ok path pre [] m it hr hm h1 h2 h3 h4 h5 hs hp hv hmed
        refine ⟨?_, (Nat.mod_eq_of_lt (by omega)).symm⟩
        rw [hF, (ParseUint_ok_bound hp).2, (ParseUint_ok_bound hv).2]
        rfl
      · intro hlv hsmall hp
        have hv : ParseUint field0 0 16 = (n, none) := by
          rw [ParseUint_literal hlv, if_pos hsmall]
        have hF := FindInItems_entry_ok path pre [] m it hr hm h1 h2 h3 h4 h5 hs hp hv hmed
        refine ⟨?_, (Nat.mod_eq_of_lt (by omega)).symm⟩
        rw [hF, (ParseUint_ok_bound hp).2, (ParseUint_ok_bound hv).2]
        rfl

/-- C10, amended, at concrete inputs, each an entry alone in its array under the label `p`:
with "product_id": "0x10000" and a "vendor_id" that is no number the extraction fails with
the range error of the product id; with "product_id": "0x0917" and a "vendor_id" that starts
with `65536` it fails with the range error of the vendor id. -/
theorem id_range_checked_witness :
    FindInItems (JSON.arr ([] ++ JSON.obj [("_name", JSON.str "K"), ("Media", JSON.arr []),
        ("serial_num", JSON.str "1"), ("manufacturer", JSON.str "A"),
        ("product_id", JSON.str "0x10000"), ("vendor_id", JSON.str "apple_vendor_id")] :: []))
        "p" =
      .returns .nil (some (.wrapf
        ("failed to parse " ++ "p" ++ "[" ++ fmtInt 0 ++ "][product_id] (" ++ "0x10000" ++ "): ")
        (.numError "ParseUint" "0x10000" .outOfRange))) ∧
    FindInItems (JSON.arr ([] ++ JSON.obj [("_name", JSON.str "K"), ("Media", JSON.arr []),
        ("serial_num", JSON.str "1"), ("manufacturer", JSON.str "A"),
        ("product_id", JSON.str "0x0917"), ("vendor_id", JSON.str "65536 (x)")] :: []))
        "p" =
      .returns .nil (some (.wrapf
        ("failed to parse " ++ "p" ++ "[" ++ fmtInt 0 ++ "][vendor_id] (" ++ "65536" ++ "): ")
        (.numError "ParseUint" "65536" .outOfRange))) :=
  ⟨(id_range_checked "p" [] []
      [("_name", JSON.str "K"), ("Media", JSON.arr []), ("serial_num", JSON.str "1"),
        ("manufacturer", JSON.str "A"), ("product_id", JSON.str "0x10000"),
        ("vendor_id", JSON.str "apple_vendor_id")]
      (JSON.arr []) "K" "1" "A" "0x10000" "" "" [] 65536 0
      ⟨rfl, True.intro⟩ rfl rfl rfl rfl rfl).1 (Or.inl rfl) (by decide),
   (((id_range_checked "p" [] []
      [("_name", JSON.str "K"), ("Media", JSON.arr []), ("serial_num", JSON.str "1"),
        ("manufacturer", JSON.str "A"), ("product_id", JSON.str "0x0917"),
        ("vendor_id", JSON.str "65536 (x)")]
      (JSON.arr []) "K" "1" "A" "0x0917" "65536 (x)" "65536" ["(x)"] 65536 0x0917
      ⟨rfl, True.intro⟩ rfl rfl rfl rfl rfl).2 rfl rfl).1 (Or.inr ⟨rfl, rfl⟩) (by decide)).2
      rfl⟩

/-! ## Well-formed inputs -/

/-- A loop whose body appends `f x` at every element `x` returns what was collected followed
by the `f x` in order. -/
theorem forRange_all_ok {α : Type}
    {body : Nat → JSON → List α → Except (Outcome α) (List α)} {f : JSON → List α}
    (xs : List JSON) (h : ∀ x ∈ xs, ∀ i acc, body i x acc = .ok (acc ++ f x))
    (i : Nat) (acc : List α) :
    forRange body i xs acc = .returns (.of (acc ++ (xs.map f).flatten)) none := by
  induction xs generalizing i acc with
  | nil => simp [forRange]
  | cons x xs ih =>
    simp only [forRange, h x (List.mem_cons_self _ _)]
    rw [ih (fun y hy => h y (List.mem_cons_of_mem _ hy))]
    simp

theorem join_map_singleton {α β : Type} (f : α → β) (xs : List α) :
    (xs.map (fun x => [f x])).flatten = xs.map f := by
  induction xs with
  | nil => rfl
  | cons x xs ih => simp [ih]

theorem index_of_get {m : List (String × JSON)} {k : String} {v : JSON}
    (h : JSON.get k m = some v) : JSON.index m k = v := by
  simp [JSON.index, h]

/-- The volume block on a well-formed volume gives its `Volume` record. -/
theorem volume_ok {m : List (String × JSON)} (h : wfVolume (.obj m) = true) :
    GetVolumes.volume m = .ok (volumeOf (.obj m)) := by
  simp only [wfVolume, Bool.and_eq_true, Option.isSome_iff_exists] at h
  obtain ⟨⟨⟨⟨⟨⟨name, h1⟩, ⟨dev, h2⟩⟩, ⟨size, h3⟩⟩, ⟨fs, h4⟩⟩, ⟨uuid, h5⟩⟩, hmount⟩ := h
  unfold GetVolumes.volume
  rw [assertString_some h1, ok_bind, assertString_some h2, ok_bind, assertFloat64_some h3,
    ok_bind, assertString_some h4, ok_bind, assertString_some h5, ok_bind]
  cases hg : JSON.get "mount_point" m with
  | none =>
    simp [volumeOf, fieldsOf, h1, h2, h3, h4, h5, hg, pure, Except.pure]
  | some mp =>
    rw [hg] at hmount
    simp only [Bool.and_eq_true, Option.isSome_iff_exists] at hmount
    obtain ⟨⟨⟨mpText, h6⟩, ⟨free, h7⟩⟩, ⟨w, h8⟩⟩ := hmount
    have h6a := assertString_some (ρ := VolumeInfo) h6
    rw [index_of_get hg] at h6a
    simp only []
    rw [h6a, ok_bind, assertFloat64_some h7, ok_bind, assertString_some h8, ok_bind]
    simp [volumeOf, fieldsOf, h1, h2, h3, h4, h5, h6, h7, h8, hg, pure, Except.pure]

/-- `GetVolumes` on a well-formed "volumes" value returns one `Volume` per element, in
order. -/
theorem GetVolumes_ok {v : JSON} (h : wfVolumes v = true) (path : String) :
    ∃ vs, v = .arr vs ∧ GetVolumes v path = .returns (.of (vs.map volumeOf)) none := by
  cases v with
  | arr vs =>
    refine ⟨vs, rfl, ?_⟩
    simp only [wfVolumes, List.all_eq_true] at h
    simp only [GetVolumes]
    rw [forRange_all_ok (f := fun x => [volumeOf x]) vs]
    · simp [join_map_singleton]
    · intro x hx i acc
      have hw := h x hx
      cases x with
      | obj m => simp only [GetVolumes.body, volume_ok hw]
      | null => simp [wfVolume] at hw
      | bool b => simp [wfVolume] at hw
      | num q => simp [wfVolume] at hw
      | str t => simp [wfVolume] at hw
      | arr ys => simp [wfVolume] at hw
  | null => simp [wfVolumes] at h
  | bool b => simp [wfVolumes] at h
  | num q => simp [wfVolumes] at h
  | str t => simp [wfVolumes] at h
  | obj m => simp [wfVolumes] at h

/-- The medium block on a well-formed medium gives its `Medium` record. -/
theorem medium_ok {m : List (String × JSON)} (h : wfMedium (.obj m) = true) (path : String)
    (i : Nat) : GetMedia.medium m path i = .ok (mediumOf (.obj m)) := by
  simp only [wfMedium, Bool.and_eq_true, Option.isSome_iff_exists] at h
  obtain ⟨⟨⟨⟨⟨name, h1⟩, ⟨dev, h2⟩⟩, ⟨part, h3⟩⟩, ⟨size, h4⟩⟩, hvol⟩ := h
  rw [medium_of_fields path i h1 h2 h3 h4]
  cases hg : JSON.get "volumes" m with
  | none => simp [mediumOf, fieldsOf, h1, h2, h3, h4, hg]
  | some v =>
    rw [hg] at hvol
    obtain ⟨vs, rfl, hv⟩ := GetVolumes_ok hvol (path ++ "[" ++ fmtInt i ++ "][volumes]")
    simp only [hv]
    simp [mediumOf, fieldsOf, h1, h2, h3, h4, hg]

/-- `GetMedia` on a well-formed "Media" value returns one `Medium` per element, in order. -/
theorem GetMedia_ok {md : JSON} (h : wfMedia md = true) (path : String) :
    ∃ ms, md = .arr ms ∧ GetMedia md path = .returns (.of (ms.map mediumOf)) none := by
  cases md with
  | arr ms =>
    refine ⟨ms, rfl, ?_⟩
    simp only [wfMedia, List.all_eq_true] at h
    simp only [GetMedia]
    rw [forRange_all_ok (f := fun x => [mediumOf x]) ms]
    · simp [join_map_singleton]
    · intro x hx i acc
      have hw := h x hx
      cases x with
      | obj m => simp only [GetMedia.body, medium_ok hw]
      | null => simp [wfMedium] at hw
      | bool b => simp [wfMedium] at hw
      | num q => simp [wfMedium] at hw
      | str t => simp [wfMedium] at hw
      | arr ys => simp [wfMedium] at hw
  | null => simp [wfMedia] at h
  | bool b => simp [wfMedia] at h
  | num q => simp [wfMedia] at h
  | str t => simp [wfMedia] at h
  | obj m => simp [wfMedia] at h

/-- The device block on an entry with well-formed identity fields and media gives its
`StorageDevice` record. -/
theorem usbInfo_ok {m : List (String × JSON)} {md : JSON} (hm : JSON.get "Media" m = some md)
    (hid : (identityOf m).isSome = true) (hmd : wfMedia md = true) (path : String) (i : Nat) :
    FindInItems.usbInfo m md path i = .ok (deviceOf m) := by
  obtain ⟨u, hu⟩ := Option.isSome_iff_exists.1 hid
  obtain ⟨ms, rfl, hg⟩ := GetMedia_ok hmd (path ++ "[" ++ fmtInt i ++ "][Media]")
  rw [usbInfo_of_identity _ path i hu, hg]
  cases ms with
  | nil => simp [deviceOf, hu, hm, Slice.len, Slice.elems]
  | cons x xs => simp [deviceOf, hu, hm, Slice.len, Slice.elems]

mutual
/-- `FindInItems` on a well-formed "_items" value returns the devices of its entries with a
"Media" key, in the order of the reference traversal. -/
theorem FindInItems_wf : ∀ (v : JSON) (path : String), wfItems v = true →
    FindInItems v path = .returns (.of ((mediaItems v).map deviceOf)) none
  | .arr xs, path, h => by
    rw [FindInItems, FindInItems_loop_wf xs path 0 [] (by simpa [wfItems] using h)]
    simp [mediaItems]
  | .null, _, h => by simp [wfItems] at h
  | .bool _, _, h => by simp [wfItems] at h
  | .num _, _, h => by simp [wfItems] at h
  | .str _, _, h => by simp [wfItems] at h
  | .obj _, _, h => by simp [wfItems] at h
/-- The loop of `FindInItems` on well-formed entries appends their devices. -/
theorem FindInItems_loop_wf : ∀ (xs : List JSON) (path : String) (i : Nat)
    (acc : List USBInfo), wfEntries xs = true →
    FindInItems.loop xs path i acc =
      .returns (.of (acc ++ (mediaEntries xs).map deviceOf)) none
  | [], path, i, acc, _ => by simp [FindInItems.loop, mediaEntries]
  | .obj m :: xs, path, i, acc, h => by
    simp only [wfEntries, wfEntry, Bool.and_eq_true] at h
    obtain ⟨⟨hf, hmedia⟩, hrest⟩ := h
    rw [FindInItems.loop]
    rcases FindInItems_items_wf m (path ++ "[" ++ fmtInt i ++ "][_items]") hf with
      ⟨hnone, hempty⟩ | hsome
    · rw [hnone]
      simp only []
      cases hg : JSON.get "Media" m with
      | none =>
        simp only []
        rw [FindInItems_loop_wf xs path (i + 1) acc hrest]
        simp [mediaEntries, mediaEntry, hempty, hg]
      | some md =>
        rw [hg] at hmedia
        simp only [Bool.and_eq_true] at hmedia
        simp only [usbInfo_ok hg hmedia.1 hmedia.2]
        rw [FindInItems_loop_wf xs path (i + 1) _ hrest]
        simp [mediaEntries, mediaEntry, hempty, hg]
    · rw [hsome]
      simp only [Slice.elems]
      cases hg : JSON.get "Media" m with
      | none =>
        simp only []
        rw [FindInItems_loop_wf xs path (i + 1) _ hrest]
        simp [mediaEntries, mediaEntry, hg]
      | some md =>
        rw [hg] at hmedia
        simp only [Bool.and_eq_true] at hmedia
        simp only [usbInfo_ok hg hmedia.1 hmedia.2]
        rw [FindInItems_loop_wf xs path (i + 1) _ hrest]
        simp [mediaEntries, mediaEntry, hg]
  | .null :: _, _, _, _, h => by simp [wfEntries, wfEntry] at h
  | .bool _ :: _, _, _, _, h => by simp [wfEntries, wfEntry] at h
  | .num _ :: _, _, _, _, h => by simp [wfEntries, wfEntry] at h
  | .str _ :: _, _, _, _, h => by simp [wfEntries, wfEntry] at h
  | .arr _ :: _, _, _, _, h => by simp [wfEntries, wfEntry] at h
/-- The read of "_items" and the recursive call on a well-formed object: the key is absent and
nothing is found under it, or the call returns the devices found under it. -/
theorem FindInItems_items_wf : ∀ (m : List (String × JSON)) (path : String),
    wfItemsField m = true →
    (FindInItems.items m path = none ∧ mediaItemsField m = []) ∨
      FindInItems.items m path =
        some (.returns (.of ((mediaItemsField m).map deviceOf)) none)
  | [], _, _ => by simp [FindInItems.items, mediaItemsField]
  | (k, v) :: rest, path, h => by
    by_cases hk : k = "_items"
    · right
      simp only [wfItemsField, hk, if_true] at h
      simp only [FindInItems.items, mediaItemsField, hk, if_true]
      rw [FindInItems_wf v path h]
    · simp only [wfItemsField, hk, if_false] at h
      simp only [FindInItems.items, mediaItemsField, hk, if_false]
      exact FindInItems_items_wf rest path h
end

/-- The body of the loop of `FindUSBStickInfo` on a well-formed bus appends the devices found
under its "_items". -/
theorem FindUSBStickInfo_body_wf {b : JSON} (h : wfBus b = true) (i : Nat)
    (acc : List USBInfo) :
    FindUSBStickInfo.body i b acc =
      .ok (acc ++ (mediaItemsField (fieldsOf b)).map deviceOf) := by
  cases b with
  | obj m =>
    simp only [wfBus] at h
    have hw := FindInItems_items_wf m ("data[SPUSBDataType][" ++ fmtInt i ++ "][_items]") h
    rw [FindInItems.items_eq] at hw
    cases hg : JSON.get "_items" m with
    | none =>
      rw [hg] at hw
      rcases hw with ⟨-, hempty⟩ | hsome
      · simp [FindUSBStickInfo.body, hg, fieldsOf, hempty]
      · simp at hsome
    | some it =>
      rw [hg] at hw
      rcases hw with ⟨hnone, -⟩ | hsome
      · simp at hnone
      · simp only [Option.map, Option.some.injEq] at hsome
        simp only [FindUSBStickInfo.body, hg, hsome, fieldsOf, Slice.elems]
  | null => simp [wfBus] at h
  | bool v => simp [wfBus] at h
  | num q => simp [wfBus] at h
  | str t => simp [wfBus] at h
  | arr ys => simp [wfBus] at h

theorem mediaBuses_eq (buses : List JSON) :
    (buses.map (fun b => (mediaItemsField (fieldsOf b)).map deviceOf)).flatten =
      (mediaBuses buses).map deviceOf := by
  induction buses with
  | nil => rfl
  | cons b bs ih => simp [mediaBuses, ih]

/-- C1. On every input that conforms to the schema (`wfRoot`: the root is an object whose
"SPUSBDataType" is an array of bus objects; every "_items" value is an array of objects, at
any depth; every entry under "_items" that has a "Media" key carries well-formed identity
fields, media and volumes), `FindUSBStickInfo` returns, with a nil error, the reference
flattening of the tree: exactly one `USBInfo` (the record `deviceOf` of the entry) per entry
under "_items" that has a "Media" key, in the order of a depth-first, left-to-right traversal
in which the devices under the "_items" of an entry come before the entry itself, and none
for the entries without that key. -/
theorem FindUSBStickInfo_reference (data : JSON) (h : wfRoot data = true) :
    FindUSBStickInfo data = .returns (.of (referenceDevices data)) none := by
  cases data with
  | obj d =>
    simp only [wfRoot] at h
    split at h
    · next buses hg =>
      simp only [List.all_eq_true] at h
      simp only [FindUSBStickInfo, referenceDevices, hg]
      rw [forRange_all_ok (f := fun b => (mediaItemsField (fieldsOf b)).map deviceOf) buses
        (fun b hb i acc => FindUSBStickInfo_body_wf (h b hb) i acc)]
      simp [mediaBuses_eq]
    · cases h
  | null => simp [wfRoot] at h
  | bool v => simp [wfRoot] at h
  | num q => simp [wfRoot] at h
  | str t => simp [wfRoot] at h
  | arr ys => simp [wfRoot] at h

/-- C1, at a concrete input: `sampleTree` conforms to the schema, and the devices returned are
the pen drive, the card and the card reader, in that order. -/
theorem FindUSBStickInfo_reference_witness :
    wfRoot sampleTree = true ∧
    FindUSBStickInfo sampleTree = .returns (.of (referenceDevices sampleTree)) none ∧
    (referenceDevices sampleTree).map (fun u => (u.Name, u.ProductID, u.VendorID, u.Media.len)) =
      [("PenDrive", 0x0917, 0x1f75, 1), ("Card", 8, 0x05e3, 0), ("Reader", 0x0749, 0x05e3, 1)] :=
  ⟨rfl, FindUSBStickInfo_reference sampleTree rfl, rfl⟩

/-! ## One record per element -/

theorem forall₂_map_of_forall {α β : Type} {R : α → β → Prop} (f : α → β) (l : List α)
    (h : ∀ x ∈ l, R x (f x)) : List.Forall₂ R l (l.map f) := by
  induction l with
  | nil => exact List.Forall₂.nil
  | cons x xs ih =>
    exact List.Forall₂.cons (h x (List.mem_cons_self _ _))
      (ih (fun y hy => h y (List.mem_cons_of_mem _ hy)))

/-- The `Medium` record of a well-formed medium carries its four required fields. -/
theorem mediumOf_fields {x : JSON} (h : wfMedium x = true) :
    ∃ m size, x = .obj m ∧ strField m "_name" = some (mediumOf x).Name ∧
      strField m "bsd_name" = some (mediumOf x).DevName ∧
      strField m "partition_map_type" = some (mediumOf x).PartitionName ∧
      numField m "size_in_bytes" = some size ∧ (mediumOf x).Size = int64 size := by
  cases x with
  | obj m =>
    simp only [wfMedium, Bool.and_eq_true, Option.isSome_iff_exists] at h
    obtain ⟨⟨⟨⟨⟨name, h1⟩, ⟨dev, h2⟩⟩, ⟨part, h3⟩⟩, ⟨size, h4⟩⟩, -⟩ := h
    exact ⟨m, size, rfl, by simp [mediumOf, fieldsOf, h1], by simp [mediumOf, fieldsOf, h2],
      by simp [mediumOf, fieldsOf, h3], h4, by simp [mediumOf, fieldsOf, h4]⟩
  | null => simp [wfMedium] at h
  | bool b => simp [wfMedium] at h
  | num q => simp [wfMedium] at h
  | str t => simp [wfMedium] at h
  | arr ys => simp [wfMedium] at h

/-- The `Volume` record of a well-formed volume carries its five required fields. -/
theorem volumeOf_fields {x : JSON} (h : wfVolume x = true) :
    ∃ m size, x = .obj m ∧ strField m "_name" = some (volumeOf x).Name ∧
      strField m "bsd_name" = some (volumeOf x).DevName ∧
      numField m "size_in_bytes" = some size ∧ (volumeOf x).Size = int64 size ∧
      strField m "file_system" = some (volumeOf x).FileSystem ∧
      strField m "volume_uuid" = some (volumeOf x).UUID := by
  cases x with
  | obj m =>
    simp only [wfVolume, Bool.and_eq_true, Option.isSome_iff_exists] at h
    obtain ⟨⟨⟨⟨⟨⟨name, h1⟩, ⟨dev, h2⟩⟩, ⟨size, h3⟩⟩, ⟨fs, h4⟩⟩, ⟨uuid, h5⟩⟩, -⟩ := h
    exact ⟨m, size, rfl, by simp [volumeOf, fieldsOf, h1], by simp [volumeOf, fieldsOf, h2],
      h3, by simp [volumeOf, fieldsOf, h3], by simp [volumeOf, fieldsOf, h4],
      by simp [volumeOf, fieldsOf, h5]⟩
  | null => simp [wfVolume] at h
  | bool b => simp [wfVolume] at h
  | num q => simp [wfVolume] at h
  | str t => simp [wfVolume] at h
  | arr ys => simp [wfVolume] at h

/-- C11. For every "Media" array `ms` of well-formed medium objects and every label,
`GetMedia` returns a nil error and a list with exactly one `MediaInfo` per element of `ms`,
in the order of the array (so of the same length), whose `Name`, `DevName`, `PartitionName`
and `Size` are the "_name", "bsd_name", "partition_map_type" of the element and the `int64`
of its "size_in_bytes". -/
theorem GetMedia_one_per_element (ms : List JSON) (path : String)
    (h : wfMedia (.arr ms) = true) :
    ∃ out, GetMedia (.arr ms) path = .returns (.of out) none ∧ out.length = ms.length ∧
      List.Forall₂ (fun x mi => ∃ m size, x = .obj m ∧
        strField m "_name" = some mi.Name ∧ strField m "bsd_name" = some mi.DevName ∧
        strField m "partition_map_type" = some mi.PartitionName ∧
        numField m "size_in_bytes" = some size ∧ mi.Size = int64 size) ms out := by
  obtain ⟨ms1, hms, hg⟩ := GetMedia_ok h path
  cases hms
  refine ⟨ms.map mediumOf, hg, by simp, ?_⟩
  apply forall₂_map_of_forall
  intro x hx
  simp only [wfMedia, List.all_eq_true] at h
  exact mediumOf_fields (h x hx)

/-- C11, at a concrete input: the two media of `sampleMedia`. -/
theorem GetMedia_one_per_element_witness :
    wfMedia (.arr sampleMedia) = true ∧
    ∃ out, GetMedia (.arr sampleMedia) "p" = .returns (.of out) none ∧
      out.length = sampleMedia.length ∧
      List.Forall₂ (fun x mi => ∃ m size, x = .obj m ∧
        strField m "_name" = some mi.Name ∧ strField m "bsd_name" = some mi.DevName ∧
        strField m "partition_map_type" = some mi.PartitionName ∧
        numField m "size_in_bytes" = some size ∧ mi.Size = int64 size) sampleMedia out :=
  ⟨rfl, GetMedia_one_per_element sampleMedia "p" rfl⟩

/-- C12. For every "volumes" array `vs` of well-formed volume objects and every label,
`GetVolumes` returns a nil error and a list with exactly one `VolumeInfo` per element of
`vs`, in the order of the array (so of the same length), whose `Name`, `DevName`, `Size`,
`FileSystem` and `UUID` are the "_name", "bsd_name", the `int64` of the "size_in_bytes",
the "file_system" and the "volume_uuid" of the element. -/
theorem GetVolumes_one_per_element (vs : List JSON) (path : String)
    (h : wfVolumes (.arr vs) = true) :
    ∃ out, GetVolumes (.arr vs) path = .returns (.of out) none ∧ out.length = vs.length ∧
      List.Forall₂ (fun x vi => ∃ m size, x = .obj m ∧
        strField m "_name" = some vi.Name ∧ strField m "bsd_name" = some vi.DevName ∧
        numField m "size_in_bytes" = some size ∧ vi.Size = int64 size ∧
        strField m "file_system" = some vi.FileSystem ∧
        strField m "volume_uuid" = some vi.UUID) vs out := by
  obtain ⟨vs1, hvs, hg⟩ := GetVolumes_ok h path
  cases hvs
  refine ⟨vs.map volumeOf, hg, by simp, ?_⟩
  apply forall₂_map_of_forall
  intro x hx
  simp only [wfVolumes, List.all_eq_true] at h
  exact volumeOf_fields (h x hx)

/-- C12, at a concrete input: the two volumes of `sampleVolumes`. -/
theorem GetVolumes_one_per_element_witness :
    wfVolumes (.arr sampleVolumes) = true ∧
    ∃ out, GetVolumes (.arr sampleVolumes) "p" = .returns (.of out) none ∧
      out.length = sampleVolumes.length ∧
      List.Forall₂ (fun x vi => ∃ m size, x = .obj m ∧
        strField m "_name" = some vi.Name ∧ strField m "bsd_name" = some vi.DevName ∧
        numField m "size_in_bytes" = some size ∧ vi.Size = int64 size ∧
        strField m "file_system" = some vi.FileSystem ∧
        strField m "volume_uuid" = some vi.UUID) sampleVolumes out :=
  ⟨rfl, GetVolumes_one_per_element sampleVolumes "p" rfl⟩

/-! ## Mounted volumes -/

/-- A loop that returns a list has passed every element: when the body appends one record
per element, the list is what was collected followed by one record per element, in order. -/
theorem forRange_ok_inv {α : Type}
    {body : Nat → JSON → List α → Except (Outcome α) (List α)} {P : JSON → α → Prop}
    (hfail : ∀ i x acc out, body i x acc = .error out → out.Failed)
    (hbody : ∀ i x acc acc1, body i x acc = .ok acc1 → ∃ y, acc1 = acc ++ [y] ∧ P x y)
    (xs : List JSON) (i : Nat) (acc out : List α)
    (h : forRange body i xs acc = .returns (.of out) none) :
    ∃ ys, out = acc ++ ys ∧ List.Forall₂ P xs ys := by
  induction xs generalizing i acc with
  | nil =>
    simp only [forRange, Outcome.returns.injEq, Slice.of.injEq, and_true] at h
    exact ⟨[], by simp [h], List.Forall₂.nil⟩
  | cons x xs ih =>
    simp only [forRange] at h
    cases hb : body i x acc with
    | error o =>
      rw [hb] at h
      exact absurd h ((hfail _ _ _ _ hb).ne_ok out)
    | ok acc1 =>
      rw [hb] at h
      obtain ⟨y, rfl, hy⟩ := hbody _ _ _ _ hb
      obtain ⟨ys, hout, hys⟩ := ih _ _ h
      exact ⟨y :: ys, by simp [hout], List.Forall₂.cons hy hys⟩

theorem bind_ok {ρ β γ : Type} {x : Except ρ β} {f : β → Except ρ γ} {c : γ}
    (h : x >>= f = .ok c) : ∃ b, x = .ok b ∧ f b = .ok c := by
  cases x with
  | error e => cases h
  | ok b => exact ⟨b, rfl, h⟩

theorem strField_of_assert {ρ : Type} {m : List (String × JSON)} {k s : String}
    (h : assertString (ρ := ρ) (JSON.index m k) = .ok s) : strField m k = some s := by
  unfold strField
  cases hv : JSON.index m k <;> rw [hv] at h <;> simp [assertString] at h
  simp [h]

theorem numField_of_assert {ρ : Type} {m : List (String × JSON)} {k : String} {x : ℚ}
    (h : assertFloat64 (ρ := ρ) (JSON.index m k) = .ok x) : numField m k = some x := by
  unfold numField
  cases hv : JSON.index m k <;> rw [hv] at h <;> simp [assertFloat64] at h
  simp [h]

/-- The volume block gives a record only on a well-formed volume. -/
theorem volume_ok_inv {m : List (String × JSON)} {vi : VolumeInfo}
    (h : GetVolumes.volume m = .ok vi) : wfVolume (.obj m) = true := by
  unfold GetVolumes.volume at h
  obtain ⟨name, h1, h⟩ := bind_ok h
  obtain ⟨dev, h2, h⟩ := bind_ok h
  obtain ⟨size, h3, h⟩ := bind_ok h
  obtain ⟨fs, h4, h⟩ := bind_ok h
  obtain ⟨uuid, h5, h⟩ := bind_ok h
  have e1 := strField_of_assert h1
  have e2 := strField_of_assert h2
  have e3 := numField_of_assert h3
  have e4 := strField_of_assert h4
  have e5 := strField_of_assert h5
  cases hg : JSON.get "mount_point" m with
  | none => simp [wfVolume, e1, e2, e3, e4, e5, hg]
  | some mp =>
    rw [hg] at h
    simp only [] at h
    obtain ⟨mpText, h6, h⟩ := bind_ok h
    obtain ⟨free, h7, h⟩ := bind_ok h
    obtain ⟨w, h8, h⟩ := bind_ok h
    rw [← index_of_get hg] at h6
    simp [wfVolume, e1, e2, e3, e4, e5, hg, strField_of_assert h6, numField_of_assert h7,
      strField_of_assert h8]

/-- When the body of the loop of `GetVolumes` falls through, the element is a well-formed
volume and its `Volume` record is appended. -/
theorem GetVolumes_body_ok_inv (path : String) (i : Nat) (x : JSON)
    (acc acc1 : List VolumeInfo) (h : GetVolumes.body path i x acc = .ok acc1) :
    ∃ y, acc1 = acc ++ [y] ∧ (wfVolume x = true ∧ y = volumeOf x) := by
  unfold GetVolumes.body at h
  split at h
  · next m =>
    split at h
    · cases h
    · next vi hv =>
      cases h
      have hw := volume_ok_inv hv
      have hv2 := volume_ok hw
      rw [hv] at hv2
      cases hv2
      exact ⟨_, rfl, hw, rfl⟩
  · cases h

theorem index_of_strField {m : List (String × JSON)} {k s : String}
    (h : strField m k = some s) : JSON.index m k = .str s := by
  unfold strField at h
  split at h
  · next t ht => cases h; exact ht
  · cases h

theorem index_of_numField {m : List (String × JSON)} {k : String} {x : ℚ}
    (h : numField m k = some x) : JSON.index m k = .num x := by
  unfold numField at h
  split at h
  · next t ht => cases h; exact ht
  · cases h

/-- The mount fields of the `Volume` record of a well-formed volume. -/
theorem volumeOf_mount {m : List (String × JSON)} (h : wfVolume (.obj m) = true) :
    ((volumeOf (.obj m)).Mounted = true ↔ JSON.get "mount_point" m ≠ none) ∧
    (∀ mp, JSON.get "mount_point" m = some mp →
      mp = .str (volumeOf (.obj m)).MountPoint ∧
      ∃ free, JSON.index m "free_space_in_bytes" = .num free ∧
        (volumeOf (.obj m)).Free = int64 free) ∧
    (JSON.get "mount_point" m = none →
      (volumeOf (.obj m)).Mounted = false ∧ (volumeOf (.obj m)).MountPoint = "" ∧
      (volumeOf (.obj m)).Free = 0 ∧ (volumeOf (.obj m)).Writable = false) ∧
    (∀ mp w, JSON.get "mount_point" m = some mp → strField m "writable" = some w →
      ((volumeOf (.obj m)).Writable = true ↔ w = "yes")) := by
  simp only [wfVolume, Bool.and_eq_true, Option.isSome_iff_exists] at h
  obtain ⟨-, hmount⟩ := h
  cases hg : JSON.get "mount_point" m with
  | none => simp [volumeOf, fieldsOf, hg]
  | some mp =>
    rw [hg] at hmount
    simp only [Bool.and_eq_true, Option.isSome_iff_exists] at hmount
    obtain ⟨⟨⟨mpText, h6⟩, ⟨free, h7⟩⟩, ⟨w, h8⟩⟩ := hmount
    have hmp : mp = .str mpText := by
      rw [← index_of_get hg]
      exact index_of_strField h6
    refine ⟨by simp [volumeOf, fieldsOf, hg], ?_, by simp, ?_⟩
    · intro mp1 hmp1
      cases hmp1
      exact ⟨by simp [volumeOf, fieldsOf, hg, h6, hmp],
        free, index_of_numField h7, by simp [volumeOf, fieldsOf, hg, h7]⟩
    · intro mp1 w1 _ hw1
      rw [h8] at hw1
      cases hw1
      simp [volumeOf, fieldsOf, hg, h8]

/-- C13. The presence of the "mount_point" key is the sole mount signal: whenever `GetVolumes`
returns a list for a "volumes" array, the list has one `VolumeInfo` per element, in order, and
for each element, an object `m`, the record has `Mounted = true` if and only if `m` has a
"mount_point" key, and when `m` has one, `MountPoint` is the string under "mount_point" and
`Free` is the `int64` of the number under "free_space_in_bytes". -/
theorem mount_point_is_mount_signal (vs : List JSON) (path : String) (out : List VolumeInfo)
    (h : GetVolumes (.arr vs) path = .returns (.of out) none) :
    List.Forall₂ (fun x vi => ∃ m, x = .obj m ∧
      (vi.Mounted = true ↔ JSON.get "mount_point" m ≠ none) ∧
      (∀ mp, JSON.get "mount_point" m = some mp →
        mp = .str vi.MountPoint ∧
        ∃ free, JSON.index m "free_space_in_bytes" = .num free ∧ vi.Free = int64 free))
      vs out := by
  simp only [GetVolumes] at h
  obtain ⟨ys, hout, hys⟩ := forRange_ok_inv (GetVolumes_body_error path)
    (GetVolumes_body_ok_inv path) vs 0 [] out h
  simp only [List.nil_append] at hout
  subst hout
  refine hys.imp ?_
  rintro x vi ⟨hw, rfl⟩
  cases x with
  | obj m => exact ⟨m, rfl, (volumeOf_mount hw).1, (volumeOf_mount hw).2.1⟩
  | null => simp [wfVolume] at hw
  | bool b => simp [wfVolume] at hw
  | num q => simp [wfVolume] at hw
  | str t => simp [wfVolume] at hw
  | arr zs => simp [wfVolume] at hw

/-- C13, at a concrete input: the unmounted and the mounted volume of `sampleVolumes`. -/
theorem mount_point_is_mount_signal_witness :
    List.Forall₂ (fun x vi => ∃ m, x = .obj m ∧
      (vi.Mounted = true ↔ JSON.get "mount_point" m ≠ none) ∧
      (∀ mp, JSON.get "mount_point" m = some mp →
        mp = .str vi.MountPoint ∧
        ∃ free, JSON.index m "free_space_in_bytes" = .num free ∧ vi.Free = int64 free))
      sampleVolumes (sampleVolumes.map volumeOf) ∧
    (sampleVolumes.map volumeOf).map (fun vi => (vi.Name, vi.Mounted, vi.MountPoint, vi.Free)) =
      [("EFI", false, "", 0), ("OEL9", true, "/Volumes/OEL9", 62491787264)] :=
  ⟨mount_point_is_mount_signal sampleVolumes "p" (sampleVolumes.map volumeOf) rfl, by decide⟩

/-- The volume block of an object without a "mount_point" key whose five required fields are
well typed: the record has the mount fields at their zero values. -/
theorem volume_unmounted {m : List (String × JSON)} {name dev fs uuid : String} {size : ℚ}
    (h1 : strField m "_name" = some name) (h2 : strField m "bsd_name" = some dev)
    (h3 : numField m "size_in_bytes" = some size) (h4 : strField m "file_system" = some fs)
    (h5 : strField m "volume_uuid" = some uuid) (hno : JSON.get "mount_point" m = none) :
    GetVolumes.volume m = .ok
      { Name := name, DevName := dev, Size := int64 size, FileSystem := fs, UUID := uuid,
        Mounted := false, MountPoint := "", Free := 0, Writable := false } := by
  unfold GetVolumes.volume
  rw [assertString_some h1, ok_bind, assertString_some h2, ok_bind, assertFloat64_some h3,
    ok_bind, assertString_some h4, ok_bind, assertString_some h5, ok_bind, hno]
  rfl

/-- The volume block does the same on two objects without a "mount_point" key that agree on
every key but "free_space_in_bytes" and "writable". -/
theorem volume_unmounted_congr {m1 m2 : List (String × JSON)}
    (hsame : ∀ k, k ≠ "free_space_in_bytes" → k ≠ "writable" → JSON.get k m1 = JSON.get k m2)
    (hno : JSON.get "mount_point" m1 = none) :
    GetVolumes.volume m1 = GetVolumes.volume m2 := by
  have hno2 : JSON.get "mount_point" m2 = none := by
    rw [← hsame "mount_point" (by decide) (by decide)]
    exact hno
  have idx : ∀ k, k ≠ "free_space_in_bytes" → k ≠ "writable" →
      JSON.index m1 k = JSON.index m2 k := by
    intro k hk1 hk2
    simp [JSON.index, hsame k hk1 hk2]
  simp only [GetVolumes.volume, idx "_name" (by decide) (by decide),
    idx "bsd_name" (by decide) (by decide), idx "size_in_bytes" (by decide) (by decide),
    idx "file_system" (by decide) (by decide), idx "volume_uuid" (by decide) (by decide),
    hno, hno2]

/-- C14. For a volume object without a "mount_point" key the mount-dependent source fields are
not read. Two "volumes" arrays that differ only in the "free_space_in_bytes" and "writable"
fields of such an object (absent, well typed or of a wrong type) make `GetVolumes` do the
same; and when the five required fields of the object are well typed and the elements before
it are read without failure, `GetVolumes` returns for it a record with `Mounted = false`,
`MountPoint = ""`, `Free = 0`, `Writable = false`, whatever those two fields are. -/
theorem unmounted_fields_not_read (path : String) (pre post : List JSON)
    (m1 m2 : List (String × JSON))
    (hsame : ∀ k, k ≠ "free_space_in_bytes" → k ≠ "writable" → JSON.get k m1 = JSON.get k m2)
    (hno : JSON.get "mount_point" m1 = none) :
    GetVolumes (.arr (pre ++ .obj m1 :: post)) path =
      GetVolumes (.arr (pre ++ .obj m2 :: post)) path ∧
    ∀ (name dev fs uuid : String) (size : ℚ),
      strField m1 "_name" = some name → strField m1 "bsd_name" = some dev →
      numField m1 "size_in_bytes" = some size → strField m1 "file_system" = some fs →
      strField m1 "volume_uuid" = some uuid → (GetVolumes (.arr pre) path).isOk = true →
      GetVolumes (.arr (pre ++ [.obj m1])) path = .returns (.of
        ((GetVolumes (.arr pre) path).vals ++
          [{ Name := name, DevName := dev, Size := int64 size, FileSystem := fs, UUID := uuid,
             Mounted := false, MountPoint := "", Free := 0, Writable := false }])) none := by
  constructor
  · simp only [GetVolumes]
    apply forRange_congr_at
    intro i acc
    simp only [GetVolumes.body, volume_unmounted_congr hsame hno]
  · intro name dev fs uuid size h1 h2 h3 h4 h5 hpre
    rw [GetVolumes_after path pre _ hpre]
    have hb : GetVolumes.body path pre.length (.obj m1) (GetVolumes (.arr pre) path).vals =
        .ok ((GetVolumes (.arr pre) path).vals ++
          [{ Name := name, DevName := dev, Size := int64 size, FileSystem := fs, UUID := uuid,
             Mounted := false, MountPoint := "", Free := 0, Writable := false }]) := by
      simp only [GetVolumes.body, volume_unmounted h1 h2 h3 h4 h5 hno]
    rw [forRange_cons_ok [] hb]
    rfl

/-- C14, at concrete inputs: an unmounted volume whose "free_space_in_bytes" is a string and
whose "writable" is a number gives the same as one that has neither field. -/
theorem unmounted_fields_not_read_witness :
    GetVolumes (.arr ([] ++ .obj (sampleUnmounted (some (.str "x")) (some (.num 1))) :: []))
        "p" =
      GetVolumes (.arr ([] ++ .obj (sampleUnmounted none none) :: [])) "p" ∧
    GetVolumes (.arr ([] ++ [.obj (sampleUnmounted (some (.str "x")) (some (.num 1)))])) "p" =
      .returns (.of ((GetVolumes (.arr []) "p").vals ++
        [{ Name := "EFI", DevName := "disk5s1", Size := int64 209715200,
           FileSystem := "MS-DOS FAT32", UUID := "0E239BC6-F960-3107-89CF-1C97F78BB46B",
           Mounted := false, MountPoint := "", Free := 0, Writable := false }])) none :=
  ⟨(unmounted_fields_not_read "p" [] [] (sampleUnmounted (some (.str "x")) (some (.num 1)))
      (sampleUnmounted none none)
      (by
        intro k h1 h2
        simp [sampleUnmounted, JSON.get, Ne.symm h1, Ne.symm h2])
      rfl).1,
   (unmounted_fields_not_read "p" [] [] (sampleUnmounted (some (.str "x")) (some (.num 1)))
      (sampleUnmounted none none)
      (by
        intro k h1 h2
        simp [sampleUnmounted, JSON.get, Ne.symm h1, Ne.symm h2])
      rfl).2 "EFI" "disk5s1" "MS-DOS FAT32" "0E239BC6-F960-3107-89CF-1C97F78BB46B" 209715200
      rfl rfl rfl rfl rfl rfl⟩

/-- C15. For every mounted volume object (one with a "mount_point" key) that is well formed,
with the string `w` under "writable", and that follows elements read without failure,
`GetVolumes` returns for it a record with `Writable = true` if and only if `w` is exactly
`yes`. -/
theorem writable_iff_yes (path : String) (pre : List JSON) (m : List (String × JSON))
    (w : String) (hpre : (GetVolumes (.arr pre) path).isOk = true)
    (hw : wfVolume (.obj m) = true) (hmp : JSON.get "mount_point" m ≠ none)
    (hwr : strField m "writable" = some w) :
    ∃ vi, GetVolumes (.arr (pre ++ [.obj m])) path =
        .returns (.of ((GetVolumes (.arr pre) path).vals ++ [vi])) none ∧
      (vi.Writable = true ↔ w = "yes") := by
  obtain ⟨mp, hg⟩ := Option.ne_none_iff_exists'.1 hmp
  refine ⟨volumeOf (.obj m), ?_, (volumeOf_mount hw).2.2.2 mp w hg hwr⟩
  rw [GetVolumes_after path pre _ hpre]
  have hb : GetVolumes.body path pre.length (.obj m) (GetVolumes (.arr pre) path).vals =
      .ok ((GetVolumes (.arr pre) path).vals ++ [volumeOf (.obj m)]) := by
    simp only [GetVolumes.body, volume_ok hw]
  rw [forRange_cons_ok [] hb]
  rfl

/-- C15, at concrete inputs: the strings `Yes`, `no`, the empty string and `yes ` (with a
trailing space) give `Writable = false`, and `yes` gives `Writable = true`. -/
theorem writable_iff_yes_witness :
    (∀ w ∈ ["Yes", "no", "", "yes "], ∃ vi,
      GetVolumes (.arr ([] ++ [.obj (sampleMounted w)])) "p" =
        .returns (.of ((GetVolumes (.arr []) "p").vals ++ [vi])) none ∧
      vi.Writable = false) ∧
    ∃ vi, GetVolumes (.arr ([] ++ [.obj (sampleMounted "yes")])) "p" =
        .returns (.of ((GetVolumes (.arr []) "p").vals ++ [vi])) none ∧
      vi.Writable = true := by
  constructor
  · intro w hmem
    obtain ⟨vi, hvi, hiff⟩ := writable_iff_yes "p" [] (sampleMounted w) w rfl rfl
      (by simp [sampleMounted, JSON.get]) rfl
    refine ⟨vi, hvi, ?_⟩
    have hne : w ≠ "yes" := by
      simp only [List.mem_cons, List.mem_singleton, List.not_mem_nil, or_false] at hmem
      rcases hmem with rfl | rfl | rfl | rfl <;> decide
    cases hW : vi.Writable with
    | false => rfl
    | true => exact absurd (hiff.1 hW) hne
  · obtain ⟨vi, hvi, hiff⟩ := writable_iff_yes "p" [] (sampleMounted "yes") "yes" rfl rfl
      (by simp [sampleMounted, JSON.get]) rfl
    exact ⟨vi, hvi, hiff.2 rfl⟩

/-! ## Empty media, absent volumes, plain entries -/

/-- The identity read from an entry carries its three name fields and no media. -/
theorem identityOf_fields {m : List (String × JSON)} {u : USBInfo}
    (h : identityOf m = some u) :
    strField m "_name" = some u.Name ∧ strField m "serial_num" = some u.SerialNumber ∧
      strField m "manufacturer" = some u.Manufacturer ∧ u.Media = .nil := by
  unfold identityOf at h
  split at h
  · next name serial manufacturer pid vid h1 h2 h3 h4 h5 =>
    split at h
    · split at h
      · cases h
        exact ⟨h1, h2, h3, rfl⟩
      · cases h
    · cases h
  · cases h

/-- C16. When the walk of `FindInItems` gets to an entry with well-formed identity fields and
"Media": [] (an empty array), `FindInItems` appends a `USBInfo` for the entry, with its
"_name", "serial_num" and "manufacturer" and an empty `Media` list (the nil slice, of length 0),
and returns no error: the device is not left out. -/
theorem empty_media_device (path : String) (pre : List JSON) (m : List (String × JSON))
    (u : USBInfo) (hr : ReachesEntry path pre m)
    (hm : JSON.get "Media" m = some (.arr [])) (hid : identityOf m = some u) :
    FindInItems (.arr (pre ++ [.obj m])) path =
      .returns (.of (collectedBefore path pre m ++ [u])) none ∧
    strField m "_name" = some u.Name ∧ strField m "serial_num" = some u.SerialNumber ∧
    strField m "manufacturer" = some u.Manufacturer ∧ u.Media = .nil ∧ u.Media.len = 0 := by
  obtain ⟨h1, h2, h3, h4⟩ := identityOf_fields hid
  refine ⟨?_, h1, h2, h3, h4, by rw [h4]; rfl⟩
  rw [FindInItems_at_entry path pre [] m _ hr hm, usbInfo_of_identity _ path _ hid]
  have hg : GetMedia (.arr []) (path ++ "[" ++ fmtInt pre.length ++ "][Media]") =
      .returns (.of []) none := rfl
  rw [hg]
  have hu : ({ u with Media := if (Slice.of ([] : List MediaInfo)).len > 0 then .of [] else .nil }
      : USBInfo) = u := by
    cases u
    simp only [USBInfo.mk.injEq, true_and] at h4 ⊢
    simp [Slice.len, Slice.elems, h4]
  simp only [hu]
  rfl

/-- C16, at a concrete input: the entry `sampleEmptyMedia`, alone in its array. -/
theorem empty_media_device_witness :
    FindInItems (.arr ([] ++ [.obj sampleEmptyMedia])) "p" =
      .returns (.of (collectedBefore "p" [] sampleEmptyMedia ++
        [{ Name := "Card Reader", ProductID := 0x0749, VendorID := 0x05e3,
           SerialNumber := "000000001206", Manufacturer := "Generic", Media := .nil }])) none :=
  (empty_media_device "p" [] sampleEmptyMedia _ ⟨rfl, True.intro⟩ rfl rfl).1

/-- C17. When the loop of `GetMedia` gets to a medium object whose four required fields are
well typed: if the object has no "volumes" key, `GetMedia` returns for it a `MediaInfo` with
an empty `Volumes` list (the nil slice) and no error; and if it has one and `GetVolumes`
returns the list `vols` for its value under the label `path[i][volumes]`, the `Volumes` of
the `MediaInfo` is exactly `vols`. -/
theorem medium_volumes (path : String) (pre : List JSON) (m : List (String × JSON))
    (name dev part : String) (size : ℚ)
    (hpre : (GetMedia (.arr pre) path).isOk = true)
    (h1 : strField m "_name" = some name) (h2 : strField m "bsd_name" = some dev)
    (h3 : strField m "partition_map_type" = some part)
    (h4 : numField m "size_in_bytes" = some size) :
    (JSON.get "volumes" m = none →
      GetMedia (.arr (pre ++ [.obj m])) path = .returns (.of
        ((GetMedia (.arr pre) path).vals ++
          [{ Name := name, DevName := dev, PartitionName := part, Size := int64 size,
             Volumes := .nil }])) none) ∧
    (∀ v vols, JSON.get "volumes" m = some v →
      GetVolumes v (path ++ "[" ++ fmtInt pre.length ++ "][volumes]") = .returns vols none →
      GetMedia (.arr (pre ++ [.obj m])) path = .returns (.of
        ((GetMedia (.arr pre) path).vals ++
          [{ Name := name, DevName := dev, PartitionName := part, Size := int64 size,
             Volumes := vols }])) none) := by
  constructor
  · intro hno
    rw [GetMedia_after path pre _ hpre]
    have hb : GetMedia.body path pre.length (.obj m) (GetMedia (.arr pre) path).vals =
        .ok ((GetMedia (.arr pre) path).vals ++
          [{ Name := name, DevName := dev, PartitionName := part, Size := int64 size,
             Volumes := .nil }]) := by
      simp only [GetMedia.body, medium_of_fields path pre.length h1 h2 h3 h4, hno]
    rw [forRange_cons_ok [] hb]
    rfl
  · intro v vols hv hg
    rw [GetMedia_after path pre _ hpre]
    have hb : GetMedia.body path pre.length (.obj m) (GetMedia (.arr pre) path).vals =
        .ok ((GetMedia (.arr pre) path).vals ++
          [{ Name := name, DevName := dev, PartitionName := part, Size := int64 size,
             Volumes := vols }]) := by
      simp only [GetMedia.body, medium_of_fields path pre.length h1 h2 h3 h4, hv, hg]
    rw [forRange_cons_ok [] hb]
    rfl

/-- C17, at concrete inputs: a medium without a "volumes" key, and the same medium with the two
volumes of `sampleVolumes` under "volumes", each alone in its array. -/
theorem medium_volumes_witness :
    GetMedia (.arr ([] ++ [.obj [("_name", .str "UDisk"), ("bsd_name", .str "disk5"),
        ("partition_map_type", .str "unknown_partition_map_type"),
        ("size_in_bytes", .num 63909113344)]])) "p" =
      .returns (.of ((GetMedia (.arr []) "p").vals ++
        [{ Name := "UDisk", DevName := "disk5",
           PartitionName := "unknown_partition_map_type", Size := int64 63909113344,
           Volumes := .nil }])) none ∧
    GetMedia (.arr ([] ++ [.obj [("_name", .str "UDisk"), ("bsd_name", .str "disk5"),
        ("partition_map_type", .str "guid_partition_map_type"),
        ("size_in_bytes", .num 63909113344), ("volumes", .arr sampleVolumes)]])) "p" =
      .returns (.of ((GetMedia (.arr []) "p").vals ++
        [{ Name := "UDisk", DevName := "disk5",
           PartitionName := "guid_partition_map_type", Size := int64 63909113344,
           Volumes := .of (sampleVolumes.map volumeOf) }])) none :=
  ⟨(medium_volumes "p" [] [("_name", .str "UDisk"), ("bsd_name", .str "disk5"),
        ("partition_map_type", .str "unknown_partition_map_type"),
        ("size_in_bytes", .num 63909113344)]
      "UDisk" "disk5" "unknown_partition_map_type" 63909113344 rfl rfl rfl rfl rfl).1 rfl,
   (medium_volumes "p" [] [("_name", .str "UDisk"), ("bsd_name", .str "disk5"),
        ("partition_map_type", .str "guid_partition_map_type"),
        ("size_in_bytes", .num 63909113344), ("volumes", .arr sampleVolumes)]
      "UDisk" "disk5" "guid_partition_map_type" 63909113344 rfl rfl rfl rfl rfl).2
      (.arr sampleVolumes) (.of (sampleVolumes.map volumeOf)) rfl rfl⟩

/-- C18. Entries with neither an "_items" nor a "Media" key are skipped, without error and
without any other field of theirs being read: for every array of JSON objects none of which
has either key, whatever else the objects hold, `FindInItems` returns the empty device list
(non-nil, with no element) and a nil error. -/
theorem plain_entries_skipped (xs : List JSON) (path : String)
    (h : ∀ x ∈ xs, ∃ m, x = .obj m ∧ JSON.get "_items" m = none ∧
      JSON.get "Media" m = none) :
    FindInItems (.arr xs) path = .returns (.of []) none := by
  rw [FindInItems_arr, forRange_all_ok (f := fun _ => []) xs]
  · simp
  · intro x hx i acc
    obtain ⟨m, rfl, hi, hm⟩ := h x hx
    simp only [FindInItems.body, hi, hm, List.append_nil]

/-- C18, at a concrete input: the entries of `samplePlain`, among them a keyboard without
"serial_num" and "manufacturer" whose "vendor_id" is `apple_vendor_id`. -/
theorem plain_entries_skipped_witness :
    (∀ x ∈ samplePlain, ∃ m, x = .obj m ∧ JSON.get "_items" m = none ∧
      JSON.get "Media" m = none) ∧
    FindInItems (.arr samplePlain) "p" = .returns (.of []) none :=
  ⟨by
    intro x hx
    simp only [samplePlain, List.mem_cons, List.mem_singleton, List.not_mem_nil,
      or_false] at hx
    rcases hx with rfl | rfl | rfl <;> exact ⟨_, rfl, rfl, rfl⟩,
   plain_entries_skipped samplePlain "p" (by
    intro x hx
    simp only [samplePlain, List.mem_cons, List.mem_singleton, List.not_mem_nil,
      or_false] at hx
    rcases hx with rfl | rfl | rfl <;> exact ⟨_, rfl, rfl, rfl⟩)⟩

/-! ## The fixtures -/

/-- C19. On the decoded fixture `noPartition`, `FindUSBStickInfo` returns a nil error and
exactly one device: `Name` "PenDrive", `Manufacturer` "Innostor", `ProductID` 0x0917,
`VendorID` 0x1f75, with exactly one medium (`DevName` "disk5", `PartitionName`
"unknown_partition_map_type") that has no volume (the nil slice). -/
theorem noPartition_devices :
    FindUSBStickInfo noPartition = .returns (.of
      [{ Name := "PenDrive", ProductID := 0x0917, VendorID := 0x1f75,
         SerialNumber := "000000000000005309", Manufacturer := "Innostor",
         Media := .of
           [{ Name := "Innostor", DevName := "disk5",
              PartitionName := "unknown_partition_map_type", Size := 63909113344,
              Volumes := .nil }] }]) none := by
  rfl

/-- C20. On the decoded fixture `GPTPartitioned`, `FindUSBStickInfo` returns a nil error and
the one device "PenDrive", whose sole medium has exactly two volumes, in this order: "EFI"
(`Mounted = false`, `FileSystem` "MS-DOS FAT32") and "OEL9" (`Mounted = true`, `MountPoint`
"/Volumes/OEL9", `Writable = true`, `Free = 62491787264`). -/
theorem GPTPartitioned_devices :
    FindUSBStickInfo GPTPartitioned = .returns (.of
      [{ Name := "PenDrive", ProductID := 0x0917, VendorID := 0x1f75,
         SerialNumber := "000000000000004010", Manufacturer := "Innostor",
         Media := .of
           [{ Name := "Innostor", DevName := "disk5",
              PartitionName := "guid_partition_map_type", Size := 63909113344,
              Volumes := .of
                [{ Name := "EFI", DevName := "disk5s1", Size := 209715200,
                   FileSystem := "MS-DOS FAT32",
                   UUID := "0E239BC6-F960-3107-89CF-1C97F78BB46B", Mounted := false,
                   MountPoint := "", Free := 0, Writable := false },
                 { Name := "OEL9", DevName := "disk5s2", Size := 63697846272,
                   FileSystem := "MS-DOS FAT32",
                   UUID := "6ABA678A-0FF6-3876-83B7-FE44B24110EB", Mounted := true,
                   MountPoint := "/Volumes/OEL9", Free := 62491787264,
                   Writable := true }] }] }]) none := by
  rfl

/-- C21. On the decoded fixture `MBRPartitioned`, `FindUSBStickInfo` returns a nil error and
the one device "Flash Disk", whose sole medium (`DevName` "disk5", `PartitionName`
"master_boot_record_partition_map_type") has exactly one volume, "TEST", which is mounted
(`FileSystem` "MS-DOS FAT16", `MountPoint` "/Volumes/TEST"). -/
theorem MBRPartitioned_devices :
    FindUSBStickInfo MBRPartitioned = .returns (.of
      [{ Name := "Flash Disk", ProductID := 0x6387, VendorID := 0x058f,
         SerialNumber := "59402D7A", Manufacturer := "USB",
         Media := .of
           [{ Name := "Flash Disk", DevName := "disk5",
              PartitionName := "master_boot_record_partition_map_type", Size := 1930428416,
              Volumes := .of
                [{ Name := "TEST", DevName := "disk5s1", Size := 1929379840,
                   FileSystem := "MS-DOS FAT16",
                   UUID := "182684DE-533E-394C-A563-1D491C94108A", Mounted := true,
                   MountPoint := "/Volumes/TEST", Free := 1926168576,
                   Writable := true }] }] }]) none := by
  rfl

/-! ## The top-level loop and the walker -/

/-- Two loops whose bodies do the same on every element of the array end the same. -/
theorem forRange_congr {α : Type}
    {body1 body2 : Nat → JSON → List α → Except (Outcome α) (List α)} (xs : List JSON)
    (h : ∀ x ∈ xs, ∀ i acc, body1 i x acc = body2 i x acc) (i : Nat) (acc : List α) :
    forRange body1 i xs acc = forRange body2 i xs acc := by
  induction xs generalizing i acc with
  | nil => rfl
  | cons x xs ih =>
    simp only [forRange, h x (List.mem_cons_self _ _)]
    cases body2 i x acc with
    | error out => rfl
    | ok acc1 => exact ih (fun y hy => h y (List.mem_cons_of_mem _ hy)) _ _

/-- On an element that is not an object with a "Media" key, the body of the loop of
`FindUSBStickInfo` is the body of the loop of `FindInItems` under the label
`data[SPUSBDataType]`. -/
theorem top_body_eq (i : Nat) (x : JSON) (acc : List USBInfo)
    (hx : ∀ m, x = .obj m → JSON.get "Media" m = none) :
    FindUSBStickInfo.body i x acc = FindInItems.body "data[SPUSBDataType]" i x acc := by
  cases x with
  | obj m =>
    simp only [FindUSBStickInfo.body, FindInItems.body, hx m rfl]
    cases JSON.get "_items" m with
    | none => rfl
    | some it =>
      have hl : "data[SPUSBDataType][" ++ fmtInt i ++ "][_items]" =
          "data[SPUSBDataType]" ++ "[" ++ fmtInt i ++ "][_items]" := rfl
      simp only [hl]
      cases FindInItems it ("data[SPUSBDataType]" ++ "[" ++ fmtInt i ++ "][_items]") with
      | panics msg => rfl
      | returns vals err => cases err <;> rfl
  | null => rfl
  | bool b => rfl
  | num q => rfl
  | str t => rfl
  | arr ys => rfl

theorem get_eraseKey_ne (m : List (String × JSON)) (k e : String) (hk : k ≠ e) :
    JSON.get k (eraseKey e m) = JSON.get k m := by
  induction m with
  | nil => rfl
  | cons kv rest ih =>
    obtain ⟨k1, v⟩ := kv
    by_cases h1 : k1 = e
    · subst h1
      have h2 : ¬ k1 = k := fun h => hk h.symm
      simp only [eraseKey, JSON.get, h2, if_true, if_false, ih]
    · by_cases h2 : k1 = k
      · subst h2
        simp only [eraseKey, JSON.get, h1, if_true, if_false]
      · simp only [eraseKey, JSON.get, h1, h2, if_false, ih]

theorem get_eraseKey_self (m : List (String × JSON)) (e : String) :
    JSON.get e (eraseKey e m) = none := by
  induction m with
  | nil => rfl
  | cons kv rest ih =>
    obtain ⟨k1, v⟩ := kv
    by_cases h1 : k1 = e
    · simp only [eraseKey, h1, if_true, ih]
    · simp only [eraseKey, JSON.get, h1, if_false, ih]

/-- The body of the loop of `FindUSBStickInfo` does not read the "Media" key. -/
theorem top_body_dropMedia (i : Nat) (x : JSON) (acc : List USBInfo) :
    FindUSBStickInfo.body i x acc = FindUSBStickInfo.body i (dropMedia x) acc := by
  cases x with
  | obj m =>
    simp only [FindUSBStickInfo.body, dropMedia, get_eraseKey_ne m "_items" "Media" (by decide)]
  | null => rfl
  | bool b => rfl
  | num q => rfl
  | str t => rfl
  | arr ys => rfl

/-- C22, as stated, fails: for the array that holds the one entry `sampleEmptyMedia`, which has
a "Media" key, `FindInItems` returns the device of the entry, and `FindUSBStickInfo` on
`{"SPUSBDataType": arr}` returns the empty list: the top-level entry is not returned as a
device. -/
theorem top_level_walk_counterexample :
    FindInItems (.arr [.obj sampleEmptyMedia]) "data[SPUSBDataType]" =
      .returns (.of
        [{ Name := "Card Reader", ProductID := 0x0749, VendorID := 0x05e3,
           SerialNumber := "000000001206", Manufacturer := "Generic", Media := .nil }]) none ∧
    FindUSBStickInfo (.obj [("SPUSBDataType", .arr [.obj sampleEmptyMedia])]) =
      .returns (.of []) none ∧
    FindUSBStickInfo (.obj [("SPUSBDataType", .arr [.obj sampleEmptyMedia])]) ≠
      FindInItems (.arr [.obj sampleEmptyMedia]) "data[SPUSBDataType]" := by
  refine ⟨rfl, rfl, ?_⟩
  have h1 : FindInItems (.arr [.obj sampleEmptyMedia]) "data[SPUSBDataType]" =
      .returns (.of
        [{ Name := "Card Reader", ProductID := 0x0749, VendorID := 0x05e3,
           SerialNumber := "000000001206", Manufacturer := "Generic", Media := .nil }])
        none := rfl
  have h2 : FindUSBStickInfo (.obj [("SPUSBDataType", .arr [.obj sampleEmptyMedia])]) =
      .returns (.of []) none := rfl
  rw [h1, h2]
  intro h
  injection h with h3 _
  injection h3 with h4
  cases h4

/-- C22, amended. The top-level entries are walked as a nested "_items" array is, except that
their own "Media" key is not read. For every JSON array `arr`, `FindUSBStickInfo` on an
object whose "SPUSBDataType" is `arr` has the outcome (the same devices, the same error or
panic) of `FindInItems` applied, under the label `data[SPUSBDataType]`, to `arr` with the
"Media" key of its elements removed; so when no element of `arr` has a "Media" key the
outcome is that of `FindInItems` applied to `arr`, and a top-level entry that has a "Media"
key is not returned as a device. -/
theorem top_level_walk (d : List (String × JSON)) (arr : List JSON)
    (hd : JSON.get "SPUSBDataType" d = some (.arr arr)) :
    FindUSBStickInfo (.obj d) = FindInItems (.arr (arr.map dropMedia)) "data[SPUSBDataType]" ∧
    ((∀ x ∈ arr, ∀ m, x = .obj m → JSON.get "Media" m = none) →
      FindUSBStickInfo (.obj d) = FindInItems (.arr arr) "data[SPUSBDataType]") := by
  have hF : FindUSBStickInfo (.obj d) = forRange FindUSBStickInfo.body 0 arr [] := by
    simp only [FindUSBStickInfo, hd]
  constructor
  · rw [hF, FindInItems_arr]
    have hmap : ∀ (xs : List JSON) (i : Nat) (acc : List USBInfo),
        forRange FindUSBStickInfo.body i xs acc =
          forRange (FindInItems.body "data[SPUSBDataType]") i (xs.map dropMedia) acc := by
      intro xs
      induction xs with
      | nil => intro i acc; rfl
      | cons x xs ih =>
        intro i acc
        have hb : FindUSBStickInfo.body i x acc =
            FindInItems.body "data[SPUSBDataType]" i (dropMedia x) acc := by
          rw [top_body_dropMedia]
          apply top_body_eq
          intro m hm
          cases x with
          | obj m0 =>
            simp only [dropMedia, JSON.obj.injEq] at hm
            subst hm
            exact get_eraseKey_self m0 "Media"
          | null => cases hm
          | bool b => cases hm
          | num q => cases hm
          | str t => cases hm
          | arr ys => cases hm
        simp only [List.map_cons, forRange, hb]
        cases FindInItems.body "data[SPUSBDataType]" i (dropMedia x) acc with
        | error out => rfl
        | ok acc1 => exact ih _ _
    exact hmap arr 0 []
  · intro h
    rw [hF, FindInItems_arr]
    exact forRange_congr arr (fun x hx i acc => top_body_eq i x acc (h x hx)) 0 []

/-- C22, amended, at a concrete input: the array `samplePlain`, none of whose entries has a
"Media" key. -/
theorem top_level_walk_witness :
    FindUSBStickInfo (.obj [("SPUSBDataType", .arr samplePlain)]) =
      FindInItems (.arr samplePlain) "data[SPUSBDataType]" :=
  (top_level_walk [("SPUSBDataType", .arr samplePlain)] samplePlain rfl).2 (by
    intro x hx m hm
    simp only [samplePlain, List.mem_cons, List.mem_singleton, List.not_mem_nil,
      or_false] at hx
    rcases hx with rfl | rfl | rfl <;> cases hm <;> rfl)

/-! ## An entry with both keys -/

theorem wfItems_of_field {m : List (String × JSON)} {it : JSON}
    (hw : wfItemsField m = true) (hi : JSON.get "_items" m = some it) :
    wfItems it = true ∧ mediaItemsField m = mediaItems it := by
  induction m with
  | nil => simp [JSON.get] at hi
  | cons kv rest ih =>
    obtain ⟨k, v⟩ := kv
    by_cases hk : k = "_items"
    · simp only [JSON.get, hk, if_true, Option.some.injEq] at hi
      subst hi
      simp only [wfItemsField, hk, if_true] at hw
      exact ⟨hw, by simp only [mediaItemsField, hk, if_true]⟩
    · simp only [JSON.get, hk, if_false] at hi
      simp only [wfItemsField, hk, if_false] at hw
      simp only [mediaItemsField, hk, if_false]
      exact ih hw hi

/-- C23. The "_items" and "Media" checks are independent on one object: when the loop of
`FindInItems` gets to a well-formed object that has both keys, `FindInItems` walks its
"_items" (under the label `path[i][_items]`) and also treats the object as a device, and the
devices it appends for the element are all the devices found under its "_items", in order,
followed by the `USBInfo` of the object itself: the children come before the parent. -/
theorem both_keys_children_then_parent (path : String) (pre : List JSON)
    (m : List (String × JSON)) (it md : JSON)
    (hpre : (FindInItems (.arr pre) path).isOk = true) (hw : wfEntry (.obj m) = true)
    (hi : JSON.get "_items" m = some it) (hm : JSON.get "Media" m = some md) :
    FindInItems it (path ++ "[" ++ fmtInt pre.length ++ "][_items]") =
      .returns (.of ((mediaItems it).map deviceOf)) none ∧
    FindInItems (.arr (pre ++ [.obj m])) path = .returns (.of
      ((FindInItems (.arr pre) path).vals ++ (mediaItems it).map deviceOf ++ [deviceOf m]))
      none := by
  simp only [wfEntry, hm, Bool.and_eq_true] at hw
  obtain ⟨hf, hid, hmd⟩ := hw
  have hchild := FindInItems_wf it (path ++ "[" ++ fmtInt pre.length ++ "][_items]")
    (wfItems_of_field hf hi).1
  refine ⟨hchild, ?_⟩
  have hr : ReachesEntry path pre m := by
    refine ⟨hpre, ?_⟩
    rw [hi]
    simp only [hchild]
    rfl
  rw [FindInItems_at_entry path pre [] m md hr hm, usbInfo_ok hm hid hmd]
  simp only [collectedBefore, hi, hchild, Outcome.vals, Slice.elems, forRange,
    List.append_assoc]

/-- C23, at a concrete input: the entry `sampleBoth`, alone in its array; the device under its
"_items" comes first, the entry itself second. -/
theorem both_keys_children_then_parent_witness :
    FindInItems (.arr ([] ++ [.obj sampleBoth])) "p" = .returns (.of
      ((FindInItems (.arr []) "p").vals ++
        (mediaItems (.arr [.obj sampleEmptyMedia])).map deviceOf ++ [deviceOf sampleBoth]))
      none ∧
    ((mediaItems (.arr [.obj sampleEmptyMedia])).map deviceOf ++ [deviceOf sampleBoth]).map
        (fun u => (u.Name, u.Media.len)) = [("Card Reader", 0), ("Hub Disk", 2)] :=
  ⟨(both_keys_children_then_parent "p" [] sampleBoth (.arr [.obj sampleEmptyMedia])
      (.arr sampleMedia) rfl rfl rfl rfl).2, rfl⟩

/-! ## Termination of the walk -/

/-- A value held by an object is less deep than the object. -/
theorem depth_get_lt {k : String} {m : List (String × JSON)} {v : JSON}
    (h : JSON.get k m = some v) : v.depth < (JSON.obj m).depth := by
  have hm : v.depth ≤ JSON.depthFields m := by
    induction m with
    | nil => simp [JSON.get] at h
    | cons kv rest ih =>
      obtain ⟨k1, w⟩ := kv
      simp only [JSON.get] at h
      simp only [JSON.depthFields]
      split at h
      · cases h
        exact Nat.le_max_left _ _
      · exact Nat.le_trans (ih h) (Nat.le_max_right _ _)
  simp only [JSON.depth]
  omega

/-- An element of an array is less deep than the array. -/
theorem depth_mem_lt {x : JSON} {xs : List JSON} (h : x ∈ xs) :
    x.depth < (JSON.arr xs).depth := by
  have hm : x.depth ≤ JSON.depthList xs := by
    induction xs with
    | nil => cases h
    | cons y ys ih =>
      simp only [JSON.depthList]
      rcases List.mem_cons.1 h with h1 | h1
      · rw [h1]
        exact Nat.le_max_left _ _
      · exact Nat.le_trans (ih h1) (Nat.le_max_right _ _)
  simp only [JSON.depth]
  omega

/-- A loop whose body returns at every element returns, with the outcome of `forRange`. -/
theorem forRangeRun_eq {α : Type}
    {bodyR : Nat → JSON → List α → Option (Except (Outcome α) (List α))}
    {body : Nat → JSON → List α → Except (Outcome α) (List α)} (xs : List JSON)
    (h : ∀ x ∈ xs, ∀ i acc, bodyR i x acc = some (body i x acc)) (i : Nat) (acc : List α) :
    forRangeRun bodyR i xs acc = some (forRange body i xs acc) := by
  induction xs generalizing i acc with
  | nil => rfl
  | cons x xs ih =>
    simp only [forRangeRun, forRange, h x (List.mem_cons_self _ _)]
    cases body i x acc with
    | error out => rfl
    | ok acc1 => exact ih (fun y hy => h y (List.mem_cons_of_mem _ hy)) _ _

/-- A loop that has returned, with a body that gives what `body` gives when it returns, has
the outcome of `forRange`. -/
theorem forRangeRun_sound {α : Type}
    {bodyR : Nat → JSON → List α → Option (Except (Outcome α) (List α))}
    {body : Nat → JSON → List α → Except (Outcome α) (List α)} (xs : List JSON)
    (h : ∀ x ∈ xs, ∀ i acc r, bodyR i x acc = some r → r = body i x acc) (i : Nat)
    (acc : List α) (out : Outcome α) (hr : forRangeRun bodyR i xs acc = some out) :
    out = forRange body i xs acc := by
  induction xs generalizing i acc with
  | nil =>
    simp only [forRangeRun, Option.some.injEq] at hr
    rw [← hr]
    rfl
  | cons x xs ih =>
    simp only [forRangeRun] at hr
    cases hb : bodyR i x acc with
    | none => rw [hb] at hr; cases hr
    | some r =>
      rw [hb] at hr
      have hr1 := h x (List.mem_cons_self _ _) i acc r hb
      simp only [forRange, ← hr1]
      cases r with
      | error o =>
        simp only [Option.some.injEq] at hr
        exact hr.symm
      | ok acc1 => exact ih (fun y hy => h y (List.mem_cons_of_mem _ hy)) _ _ hr

/-- The body of the loop of `FindInItems` returns when the call on the "_items" value of the
element returns. -/
theorem FindInItems_bodyRun_eq (callee : JSON → String → Option (Outcome USBInfo))
    (path : String) (i : Nat) (item : JSON) (uis : List USBInfo)
    (h : ∀ m it, item = .obj m → JSON.get "_items" m = some it →
      callee it (path ++ "[" ++ fmtInt i ++ "][_items]") =
        some (FindInItems it (path ++ "[" ++ fmtInt i ++ "][_items]"))) :
    FindInItems.bodyRun callee path i item uis = some (FindInItems.body path i item uis) := by
  cases item with
  | obj m =>
    cases hg : JSON.get "_items" m with
    | none =>
      simp only [FindInItems.bodyRun, FindInItems.body, hg]
      cases JSON.get "Media" m with
      | none => rfl
      | some md =>
        simp only []
        cases FindInItems.usbInfo m md path i <;> rfl
    | some it =>
      simp only [FindInItems.bodyRun, FindInItems.body, hg, h m it rfl hg]
      cases FindInItems it (path ++ "[" ++ fmtInt i ++ "][_items]") with
      | panics msg => rfl
      | returns vals err =>
        cases err with
        | some e => rfl
        | none =>
          simp only []
          cases JSON.get "Media" m with
          | none => rfl
          | some md =>
            simp only []
            cases FindInItems.usbInfo m md path i <;> rfl
  | null => rfl
  | bool b => rfl
  | num q => rfl
  | str t => rfl
  | arr ys => rfl

/-- The body of the loop of `FindInItems`, when it returns with a callee that gives what
`FindInItems` gives when it returns, gives what `FindInItems.body` gives. -/
theorem FindInItems_bodyRun_sound (callee : JSON → String → Option (Outcome USBInfo))
    (path : String) (i : Nat) (item : JSON) (uis : List USBInfo)
    (h : ∀ it label out, callee it label = some out → out = FindInItems it label)
    (r : Except (Outcome USBInfo) (List USBInfo))
    (hr : FindInItems.bodyRun callee path i item uis = some r) :
    r = FindInItems.body path i item uis := by
  cases item with
  | obj m =>
    cases hg : JSON.get "_items" m with
    | none =>
      rw [FindInItems_bodyRun_eq callee path i (.obj m) uis
        (by intro m1 it h1 h2; cases h1; rw [hg] at h2; cases h2)] at hr
      exact (Option.some.inj hr).symm
    | some it =>
      cases hc : callee it (path ++ "[" ++ fmtInt i ++ "][_items]") with
      | none =>
        simp only [FindInItems.bodyRun, hg, hc] at hr
        cases hr
      | some out =>
        have ho := h _ _ _ hc
        rw [ho] at hc
        rw [FindInItems_bodyRun_eq callee path i (.obj m) uis
          (by intro m1 it1 h1 h2; cases h1; rw [hg] at h2; cases h2; exact hc)] at hr
        exact (Option.some.inj hr).symm
  | null => exact (Option.some.inj hr).symm
  | bool b => exact (Option.some.inj hr).symm
  | num q => exact (Option.some.inj hr).symm
  | str t => exact (Option.some.inj hr).symm
  | arr ys => exact (Option.some.inj hr).symm

/-- With more fuel than the depth of its argument the run of `FindInItems` returns, and the
outcome is that of `FindInItems`. -/
theorem FindInItems_run_eq (fuel : Nat) : ∀ (items : JSON) (path : String),
    items.depth < fuel → FindInItems.run fuel items path = some (FindInItems items path) := by
  induction fuel with
  | zero => intro items path h; omega
  | succ fuel ih =>
    intro items path h
    cases items with
    | arr ita =>
      rw [FindInItems_arr]
      simp only [FindInItems.run]
      refine forRangeRun_eq ita ?_ 0 []
      intro x hx i acc
      refine FindInItems_bodyRun_eq _ path i x acc ?_
      intro m it hm hg
      refine ih it _ ?_
      have h1 := depth_mem_lt hx
      rw [hm] at h1
      have h2 := depth_get_lt hg
      omega
    | null => rfl
    | bool b => rfl
    | num q => rfl
    | str t => rfl
    | obj m => rfl

/-- A run of `FindInItems` that has returned has the outcome of `FindInItems`, whatever
the fuel. -/
theorem FindInItems_run_sound (fuel : Nat) : ∀ (items : JSON) (path : String)
    (out : Outcome USBInfo), FindInItems.run fuel items path = some out →
    out = FindInItems items path := by
  induction fuel with
  | zero => intro items path out h; cases h
  | succ fuel ih =>
    intro items path out h
    cases items with
    | arr ita =>
      rw [FindInItems_arr]
      simp only [FindInItems.run] at h
      refine forRangeRun_sound ita ?_ 0 [] out h
      intro x _ i acc r hr
      exact FindInItems_bodyRun_sound _ path i x acc ih r hr
    | null => exact (Option.some.inj h).symm
    | bool b => exact (Option.some.inj h).symm
    | num q => exact (Option.some.inj h).symm
    | str t => exact (Option.some.inj h).symm
    | obj m => exact (Option.some.inj h).symm

/-- The body of the loop of `FindUSBStickInfo` returns when the call on the "_items" value of
the element returns. -/
theorem FindUSBStickInfo_bodyRun_eq (callee : JSON → String → Option (Outcome USBInfo))
    (i : Nat) (dti : JSON) (uis : List USBInfo)
    (h : ∀ m it, dti = .obj m → JSON.get "_items" m = some it →
      callee it ("data[SPUSBDataType][" ++ fmtInt i ++ "][_items]") =
        some (FindInItems it ("data[SPUSBDataType][" ++ fmtInt i ++ "][_items]"))) :
    FindUSBStickInfo.bodyRun callee i dti uis = some (FindUSBStickInfo.body i dti uis) := by
  cases dti with
  | obj m =>
    cases hg : JSON.get "_items" m with
    | none => simp only [FindUSBStickInfo.bodyRun, FindUSBStickInfo.body, hg]
    | some it =>
      simp only [FindUSBStickInfo.bodyRun, FindUSBStickInfo.body, hg, h m it rfl hg]
      cases FindInItems it ("data[SPUSBDataType][" ++ fmtInt i ++ "][_items]") with
      | panics msg => rfl
      | returns vals err => cases err <;> rfl
  | null => rfl
  | bool b => rfl
  | num q => rfl
  | str t => rfl
  | arr ys => rfl

/-- With at least as much fuel as the depth of the input the run of `FindUSBStickInfo`
returns, and the outcome is that of `FindUSBStickInfo`. -/
theorem FindUSBStickInfo_run_eq (fuel : Nat) (data : JSON) (h : data.depth ≤ fuel) :
    FindUSBStickInfo.run fuel data = some (FindUSBStickInfo data) := by
  cases data with
  | obj d =>
    cases hd : JSON.get "SPUSBDataType" d with
    | none => simp only [FindUSBStickInfo.run, FindUSBStickInfo, hd]
    | some dt =>
      cases dt with
      | arr dta =>
        simp only [FindUSBStickInfo.run, FindUSBStickInfo, hd]
        refine forRangeRun_eq dta ?_ 0 []
        intro x hx i acc
        refine FindUSBStickInfo_bodyRun_eq _ i x acc ?_
        intro m it hm hg
        refine FindInItems_run_eq fuel it _ ?_
        have h0 := depth_get_lt hd
        have h1 := depth_mem_lt hx
        rw [hm] at h1
        have h2 := depth_get_lt hg
        omega
      | null => simp only [FindUSBStickInfo.run, FindUSBStickInfo, hd]
      | bool b => simp only [FindUSBStickInfo.run, FindUSBStickInfo, hd]
      | num q => simp only [FindUSBStickInfo.run, FindUSBStickInfo, hd]
      | str t => simp only [FindUSBStickInfo.run, FindUSBStickInfo, hd]
      | obj m => simp only [FindUSBStickInfo.run, FindUSBStickInfo, hd]
  | null => rfl
  | bool b => rfl
  | num q => rfl
  | str t => rfl
  | arr ys => rfl

/-- The loop of `FindInItems` on an array returns as soon as the calls on the "_items" values
of the objects of the array return; these values are at least two levels less deep than the
array. -/
theorem FindInItems_loop_returns (callee : JSON → String → Option (Outcome USBInfo))
    (path : String) (ita : List JSON)
    (h : ∀ m it label, JSON.obj m ∈ ita → JSON.get "_items" m = some it →
      it.depth + 2 ≤ (JSON.arr ita).depth → (callee it label).isSome = true) :
    (forRangeRun (FindInItems.bodyRun callee path) 0 ita []).isSome = true := by
  have hloop : ∀ (xs : List JSON) (i : Nat) (acc : List USBInfo),
      (∀ m it label, JSON.obj m ∈ xs → JSON.get "_items" m = some it →
        (callee it label).isSome = true) →
      (forRangeRun (FindInItems.bodyRun callee path) i xs acc).isSome = true := by
    intro xs
    induction xs with
    | nil => intro i acc _; rfl
    | cons x xs ih =>
      intro i acc hx
      have htail := fun acc1 => ih (i + 1) acc1
        (fun m it label hm => hx m it label (List.mem_cons_of_mem _ hm))
      simp only [forRangeRun]
      cases x with
      | obj m =>
        cases hg : JSON.get "_items" m with
        | none =>
          simp only [FindInItems.bodyRun, hg]
          cases JSON.get "Media" m with
          | none => exact htail _
          | some md =>
            simp only []
            cases FindInItems.usbInfo m md path i with
            | error o => rfl
            | ok u => exact htail _
        | some it =>
          have hc := hx m it (path ++ "[" ++ fmtInt i ++ "][_items]")
            (List.mem_cons_self _ _) hg
          cases hcall : callee it (path ++ "[" ++ fmtInt i ++ "][_items]") with
          | none => rw [hcall] at hc; cases hc
          | some out =>
            simp only [FindInItems.bodyRun, hg, hcall]
            cases out with
            | panics msg => rfl
            | returns vals err =>
              cases err with
              | some e => rfl
              | none =>
                simp only []
                cases JSON.get "Media" m with
                | none => exact htail _
                | some md =>
                  simp only []
                  cases FindInItems.usbInfo m md path i with
                  | error o => rfl
                  | ok u => exact htail _
      | null => rfl
      | bool b => rfl
      | num q => rfl
      | str t => rfl
      | arr ys => rfl
  refine hloop ita 0 [] ?_
  intro m it label hm hg
  refine h m it label hm hg ?_
  have h1 := depth_mem_lt hm
  have h2 := depth_get_lt hg
  omega

/-- C24. The recursive walk terminates on every JSON value. `FindInItems.run` is `FindInItems`
as the source has it, a function that calls itself, run with a bound `fuel` on the depth of
the nested calls, and `none` when that bound is used up. On every value, with more fuel than
the nesting depth of the value, the run returns, with the outcome of `FindInItems`; so does
the run of `FindUSBStickInfo` with fuel at least the depth of its input, for any nesting
depth; a run that returns with any fuel has that same outcome; and the loop of `FindInItems`
on an array returns as soon as the calls made on the "_items" values of the objects of the
array return, all of which are at least two levels less deep than the array: those are the
only calls the function makes. With no fuel no call returns. -/
theorem walk_terminates (fuel : Nat) (items data : JSON) (path : String) (ita : List JSON)
    (out : Outcome USBInfo) (callee : JSON → String → Option (Outcome USBInfo)) :
    (items.depth < fuel → FindInItems.run fuel items path = some (FindInItems items path)) ∧
    (data.depth ≤ fuel → FindUSBStickInfo.run fuel data = some (FindUSBStickInfo data)) ∧
    (FindInItems.run fuel items path = some out → out = FindInItems items path) ∧
    ((∀ m it label, JSON.obj m ∈ ita → JSON.get "_items" m = some it →
        it.depth + 2 ≤ (JSON.arr ita).depth → (callee it label).isSome = true) →
      (forRangeRun (FindInItems.bodyRun callee path) 0 ita []).isSome = true) ∧
    FindInItems.run 0 items path = none :=
  ⟨FindInItems_run_eq fuel items path, FindUSBStickInfo_run_eq fuel data,
    FindInItems_run_sound fuel items path out, FindInItems_loop_returns callee path ita, rfl⟩

/-- C24, at concrete inputs: the run of `FindUSBStickInfo` on `sampleTree`, whose depth is
11, returns with fuel 11, and the run of `FindInItems` on the array that holds `sampleBoth`,
whose depth is 5, returns with fuel 6. A run can be short of fuel: on the fixture
`GPTPartitioned`, whose devices are found by the third nested call, the run with fuel 2 has
not returned and the run with fuel 3 has. -/
theorem walk_terminates_witness :
    sampleTree.depth = 11 ∧
    FindUSBStickInfo.run 11 sampleTree = some (FindUSBStickInfo sampleTree) ∧
    (JSON.arr [JSON.obj sampleBoth]).depth = 5 ∧
    FindInItems.run 6 (JSON.arr [JSON.obj sampleBoth]) "p" =
      some (FindInItems (JSON.arr [JSON.obj sampleBoth]) "p") ∧
    FindUSBStickInfo.run 2 GPTPartitioned = none ∧
    FindUSBStickInfo.run 3 GPTPartitioned = some (FindUSBStickInfo GPTPartitioned) :=
  ⟨by decide,
   (walk_terminates 11 JSON.null sampleTree "" [] (.panics "") (fun _ _ => none)).2.1
      (by decide),
   by decide,
   (walk_terminates 6 (JSON.arr [JSON.obj sampleBoth]) JSON.null "p" [] (.panics "")
      (fun _ _ => none)).1 (by decide),
   rfl, rfl⟩

/-! ## Labels of the nested calls -/

/-- The error of a function called with `label` on a value that is not an array names the
label. -/
theorem not_array_error (label : String) {v : JSON} (hv : ∀ xs, v ≠ .arr xs) :
    FindInItems v label = .returns .nil (some (.errorf
      (label ++ " (" ++ v.typeName ++ ") is not []interface{} type"))) ∧
    GetMedia v label = .returns .nil (some (.errorf
      (label ++ " (" ++ v.typeName ++ ") is not []interface{} type"))) ∧
    GetVolumes v label = .returns .nil (some (.errorf
      (label ++ " (" ++ v.typeName ++ ") is not []interface{} type"))) := by
  cases v with
  | arr xs => exact absurd rfl (hv xs)
  | null => exact ⟨by simp [FindInItems], rfl, rfl⟩
  | bool b => exact ⟨by simp [FindInItems], rfl, rfl⟩
  | num q => exact ⟨by simp [FindInItems], rfl, rfl⟩
  | str t => exact ⟨by simp [FindInItems], rfl, rfl⟩
  | obj m => exact ⟨by simp [FindInItems], rfl, rfl⟩

theorem not_array_message_names (label ty : String) :
    Occurs label (label ++ " (" ++ ty ++ ") is not []interface{} type") :=
  Occurs.append_left _ (Occurs.append_left _ (Occurs.append_left _ (Occurs.refl label)))

/-- C25. Error paths are composed from the label of the call, the index of the element and
the key. When `FindInItems` is called with the label `p` and its loop gets to element `i`:
a value under "_items" that is not an array gives an error whose message contains
`p[i][_items]`, the label under which it was walked; a value under "Media" that is not an
array gives an error whose message contains `p[i][Media]`; and when "Media" is an array in
which the loop of `GetMedia` gets to medium `j`, a value under "volumes" that is not an array
gives an error whose message contains `p[i][Media][j][volumes]`. So in `sampleBadVolumes`,
where the "volumes" of medium 0 of item 2 of top-level entry 3 is not an array, the message of
the error of `FindUSBStickInfo` contains
`data[SPUSBDataType][3][_items][2][Media][0][volumes]`. -/
theorem error_paths_composed (p : String) (pre post : List JSON) (m : List (String × JSON))
    (it md v : JSON) (u : USBInfo) (mpre mpost : List JSON) (mm : List (String × JSON))
    (name dev part : String) (size : ℚ) :
    ((FindInItems (.arr pre) p).isOk = true → JSON.get "_items" m = some it →
      (∀ xs, it ≠ .arr xs) →
      (FindInItems (.arr (pre ++ .obj m :: post)) p).FailsNaming
        [p ++ "[" ++ fmtInt pre.length ++ "][_items]"]) ∧
    (ReachesEntry p pre m → JSON.get "Media" m = some md → identityOf m = some u →
      (∀ xs, md ≠ .arr xs) →
      (FindInItems (.arr (pre ++ .obj m :: post)) p).FailsNaming
        [p ++ "[" ++ fmtInt pre.length ++ "][Media]"]) ∧
    (ReachesEntry p pre m → JSON.get "Media" m = some (.arr (mpre ++ .obj mm :: mpost)) →
      identityOf m = some u →
      (GetMedia (.arr mpre) (p ++ "[" ++ fmtInt pre.length ++ "][Media]")).isOk = true →
      strField mm "_name" = some name → strField mm "bsd_name" = some dev →
      strField mm "partition_map_type" = some part →
      numField mm "size_in_bytes" = some size → JSON.get "volumes" mm = some v →
      (∀ xs, v ≠ .arr xs) →
      (FindInItems (.arr (pre ++ .obj m :: post)) p).FailsNaming
        [p ++ "[" ++ fmtInt pre.length ++ "][Media]" ++ "[" ++ fmtInt mpre.length ++
          "][volumes]"]) ∧
    (FindUSBStickInfo sampleBadVolumes).FailsNaming
      ["data[SPUSBDataType][3][_items][2][Media][0][volumes]"] := by
  refine ⟨?_, ?_, ?_, ?_⟩
  · intro hpre hget hna
    rw [FindInItems_after p pre _ hpre]
    have hb : FindInItems.body p pre.length (.obj m) (FindInItems (.arr pre) p).vals =
        .error (.returns .nil (some (.wrapf
          ("failed to parse " ++ p ++ "[" ++ fmtInt pre.length ++ "][_items]: ")
          (.errorf (p ++ "[" ++ fmtInt pre.length ++ "][_items]" ++ " (" ++ it.typeName ++
            ") is not []interface{} type"))))) := by
      simp only [FindInItems.body, hget, (not_array_error _ hna).1]
    rw [forRange_cons_error post hb]
    refine ⟨_, rfl, ?_⟩
    intro quote plusV t ht
    simp only [List.mem_singleton] at ht
    subst ht
    exact Occurs.append_right _ (not_array_message_names _ _)
  · intro hr hm hid hna
    rw [FindInItems_at_entry p pre post m md hr hm, usbInfo_of_identity md p _ hid,
      (not_array_error _ hna).2.1]
    refine ⟨_, rfl, ?_⟩
    intro quote plusV t ht
    simp only [List.mem_singleton] at ht
    subst ht
    exact Occurs.append_right _ (not_array_message_names _ _)
  · intro hr hm hid hmpre h1 h2 h3 h4 hv hna
    have hmed : GetMedia (.arr (mpre ++ .obj mm :: mpost))
        (p ++ "[" ++ fmtInt pre.length ++ "][Media]") =
        .returns .nil (some (.wrapf
          ("failed to get " ++ (p ++ "[" ++ fmtInt pre.length ++ "][Media]") ++ "[" ++
            fmtInt mpre.length ++ "][volumes]: ")
          (.errorf (p ++ "[" ++ fmtInt pre.length ++ "][Media]" ++ "[" ++
            fmtInt mpre.length ++ "][volumes]" ++ " (" ++ v.typeName ++
            ") is not []interface{} type")))) := by
      rw [GetMedia_after _ mpre _ hmpre]
      apply forRange_cons_error
      simp only [GetMedia.body, medium_of_fields _ mpre.length h1 h2 h3 h4, hv,
        (not_array_error _ hna).2.2]
    rw [FindInItems_at_entry p pre post m _ hr hm, usbInfo_of_identity _ p _ hid, hmed]
    refine ⟨_, rfl, ?_⟩
    intro quote plusV t ht
    simp only [List.mem_singleton] at ht
    subst ht
    exact Occurs.append_right _ (Occurs.append_right _ (not_array_message_names _ _))
  · refine ⟨_, rfl, ?_⟩
    intro quote plusV t ht
    simp only [List.mem_singleton] at ht
    subst ht
    exact Occurs.append_right _ (Occurs.append_right _ (Occurs.append_right _
      (not_array_message_names "data[SPUSBDataType][3][_items][2][Media][0][volumes]"
        "string")))

/-- C25, at a concrete input: the "_items" array of top-level entry 3 of `sampleBadVolumes`,
walked under its label; item 2 is `sampleBadEntry`, whose medium 0 has a "volumes" value that
is not an array. -/
theorem error_paths_composed_witness :
    (FindInItems (.arr ([.obj [("_name", .str "Keyboard")], .obj [("_name", .str "Camera")]] ++
        .obj sampleBadEntry :: [])) "data[SPUSBDataType][3][_items]").FailsNaming
      ["data[SPUSBDataType][3][_items]" ++ "[" ++ fmtInt 2 ++ "][Media]" ++ "[" ++ fmtInt 0 ++
        "][volumes]"] :=
  (error_paths_composed "data[SPUSBDataType][3][_items]"
      [.obj [("_name", .str "Keyboard")], .obj [("_name", .str "Camera")]] []
      sampleBadEntry .null .null (.str "none")
      ⟨"PenDrive", 0x0917, 0x1f75, "000000000000004010", "Innostor", .nil⟩
      [] [] sampleBadMedium "Innostor" "disk5" "guid_partition_map_type" 63909113344).2.2.1
    ⟨rfl, True.intro⟩ rfl rfl rfl rfl rfl rfl rfl rfl (by intro xs h; cases h)

/-! ## Ids are range-checked -/

/-- A literal that `ParseUint` accepts with 16 bits is read as the number it denotes, which is
at most 65535. -/
theorem literal_value {s : String} {n v : Nat} (hl : IsLiteral s n)
    (hp : ParseUint s 0 16 = (v, none)) : v = n ∧ n ≤ 65535 := by
  rw [ParseUint_literal hl] at hp
  by_cases hn : n ≤ 65535
  · rw [if_pos hn] at hp
    cases hp
    exact ⟨rfl, hn⟩
  · rw [if_neg hn] at hp
    cases hp

/-- A device built by the device block of the entry `m` has the ids written in `m`. -/
theorem usbInfo_ids {m : List (String × JSON)} {it : JSON} {path : String} {i : Nat}
    {u : USBInfo} (h : FindInItems.usbInfo m it path i = .ok u) : IdsOf m u := by
  unfold FindInItems.usbInfo at h
  obtain ⟨name, h1, h⟩ := bind_ok h
  obtain ⟨serial, -, h⟩ := bind_ok h
  obtain ⟨manufacturer, -, h⟩ := bind_ok h
  obtain ⟨pid, h4, h⟩ := bind_ok h
  split at h
  · cases h
  · next val hp =>
    obtain ⟨vid, h5, h⟩ := bind_ok h
    split at h
    · cases h
    · next field0 rest hs =>
      split at h
      · cases h
      · next val2 hp2 =>
        split at h
        · cases h
        · cases h
        · cases h
          have b1 := ParseUint_ok_bound hp
          have b2 := ParseUint_ok_bound hp2
          refine ⟨strField_of_assert h1, pid, vid, field0, rest, strField_of_assert h4,
            strField_of_assert h5, hs, ?_, ?_, ?_, ?_, ?_, ?_⟩
          · simp only [b1.2]; exact hp
          · simp only [b2.2]; exact hp2
          · simp only [b1.2]; exact b1.1
          · simp only [b2.2]; exact b2.1
          · intro n hl
            simp only [b1.2]
            exact (literal_value hl hp).1
          · intro n hl
            simp only [b2.2]
            exact (literal_value hl hp2).1

/-- A loop whose body appends, at every element `x`, records that match the entries `f x` one
by one returns the records collected before followed by records that match the entries of
all the elements, in order. -/
theorem forRange_forall₂ {α β : Type}
    {body : Nat → JSON → List α → Except (Outcome α) (List α)} {R : β → α → Prop}
    {f : JSON → List β}
    (hfail : ∀ i x acc out, body i x acc = .error out → out.Failed)
    (xs : List JSON)
    (hbody : ∀ x ∈ xs, ∀ i acc acc1, body i x acc = .ok acc1 →
      ∃ new, acc1 = acc ++ new ∧ List.Forall₂ R (f x) new)
    (i : Nat) (acc out : List α) (h : forRange body i xs acc = .returns (.of out) none) :
    ∃ new, out = acc ++ new ∧ List.Forall₂ R (xs.map f).flatten new := by
  induction xs generalizing i acc with
  | nil =>
    simp only [forRange, Outcome.returns.injEq, Slice.of.injEq, and_true] at h
    subst h
    exact ⟨[], by simp, by simp⟩
  | cons x xs ih =>
    simp only [forRange] at h
    cases hb : body i x acc with
    | error o =>
      rw [hb] at h
      exact absurd h ((hfail _ _ _ _ hb).ne_ok out)
    | ok acc1 =>
      rw [hb] at h
      obtain ⟨new1, hacc1, hr1⟩ := hbody x (List.mem_cons_self _ _) _ _ _ hb
      obtain ⟨new2, hout, hr2⟩ := ih (fun y hy => hbody y (List.mem_cons_of_mem _ hy)) _ _ h
      refine ⟨new1 ++ new2, ?_, ?_⟩
      · rw [hout, hacc1, List.append_assoc]
      · simp only [List.map_cons, List.flatten_cons]
        exact List.rel_append hr1 hr2

/-- The entries with a "Media" key under the "_items" key of an object are those found in the
value of the key. -/
theorem mediaItemsField_get (m : List (String × JSON)) :
    mediaItemsField m =
      match JSON.get "_items" m with
      | none => []
      | some it => mediaItems it := by
  induction m with
  | nil => rfl
  | cons kv rest ih =>
    obtain ⟨k, v⟩ := kv
    by_cases hk : k = "_items"
    · simp only [mediaItemsField, JSON.get, hk, if_true]
    · simp only [mediaItemsField, JSON.get, hk, if_false]
      exact ih

theorem mediaEntries_flatten (xs : List JSON) :
    mediaEntries xs = (xs.map mediaEntry).flatten := by
  induction xs with
  | nil => rfl
  | cons x xs ih => simp [mediaEntries, ih]

theorem mediaBuses_flatten (buses : List JSON) :
    mediaBuses buses = (buses.map (fun b => mediaItemsField (fieldsOf b))).flatten := by
  induction buses with
  | nil => rfl
  | cons b bs ih => simp [mediaBuses, ih]

/-- The body of the loop of `FindInItems` appends devices that match, one by one, the entries
with a "Media" key in or under the element, when the call on the "_items" value does. -/
theorem FindInItems_body_ids (path : String) (i : Nat) (m : List (String × JSON))
    (acc acc1 : List USBInfo)
    (hchild : ∀ it label vals, JSON.get "_items" m = some it →
      FindInItems it label = .returns vals none →
      List.Forall₂ IdsOf (mediaItems it) vals.elems)
    (h : FindInItems.body path i (.obj m) acc = .ok acc1) :
    ∃ new, acc1 = acc ++ new ∧ List.Forall₂ IdsOf (mediaEntry (.obj m)) new := by
  have hmedia : ∀ (uis1 : List USBInfo),
      (match JSON.get "Media" m with
        | none => Except.ok uis1
        | some it =>
          match FindInItems.usbInfo m it path i with
          | .error out => Except.error out
          | .ok usbInfo => Except.ok (uis1 ++ [usbInfo])) = Except.ok acc1 →
      ∃ own, acc1 = uis1 ++ own ∧
        List.Forall₂ IdsOf (if (JSON.get "Media" m).isSome then [m] else []) own := by
    intro uis1 h2
    cases hg : JSON.get "Media" m with
    | none =>
      rw [hg] at h2
      cases h2
      exact ⟨[], by simp, by simp⟩
    | some md =>
      rw [hg] at h2
      simp only [] at h2
      cases hu : FindInItems.usbInfo m md path i with
      | error o => rw [hu] at h2; cases h2
      | ok usbInfo =>
        rw [hu] at h2
        cases h2
        refine ⟨[usbInfo], rfl, ?_⟩
        simp only [Option.isSome_some, if_true]
        exact List.Forall₂.cons (usbInfo_ids hu) List.Forall₂.nil
  simp only [FindInItems.body] at h
  simp only [mediaEntry, mediaItemsField_get]
  cases hg : JSON.get "_items" m with
  | none =>
    rw [hg] at h
    obtain ⟨own, h1, h2⟩ := hmedia acc h
    exact ⟨own, h1, by simpa using h2⟩
  | some it =>
    rw [hg] at h
    simp only [] at h
    cases hc : FindInItems it (path ++ "[" ++ fmtInt i ++ "][_items]") with
    | panics msg => rw [hc] at h; cases h
    | returns vals err =>
      rw [hc] at h
      cases err with
      | some e => cases h
      | none =>
        obtain ⟨own, h1, h2⟩ := hmedia (acc ++ vals.elems) h
        refine ⟨vals.elems ++ own, ?_, ?_⟩
        · rw [h1, List.append_assoc]
        · exact List.rel_append (hchild it _ vals hg hc) h2

/-- The devices that `FindInItems` returns match, one by one and in order, the entries with a
"Media" key of its argument: each has the ids written in its entry. -/
theorem FindInItems_ids (n : Nat) : ∀ (v : JSON) (path : String) (vals : Slice USBInfo),
    v.depth < n → FindInItems v path = .returns vals none →
    List.Forall₂ IdsOf (mediaItems v) vals.elems := by
  induction n with
  | zero => intro v path vals hn; omega
  | succ n ih =>
    intro v path vals hn h
    cases v with
    | arr xs =>
      rw [FindInItems_arr] at h
      rcases forRange_ok_or_failed (FindInItems_body_error path) xs 0 [] with ⟨l, hl⟩ | hf
      · rw [hl] at h
        cases h
        obtain ⟨new, hout, hr⟩ := forRange_forall₂ (R := IdsOf) (f := mediaEntry)
          (FindInItems_body_error path) xs (by
            intro x hx i acc acc1 hb
            cases x with
            | obj m =>
              refine FindInItems_body_ids path i m acc acc1 ?_ hb
              intro it label vals hg hc
              refine ih it label vals ?_ hc
              have h1 := depth_mem_lt hx
              have h2 := depth_get_lt hg
              omega
            | null => cases hb
            | bool b => cases hb
            | num q => cases hb
            | str t => cases hb
            | arr ys => cases hb) 0 [] l hl
        simp only [List.nil_append] at hout
        subst hout
        simpa [mediaItems, mediaEntries_flatten, Slice.elems] using hr
      · rw [h] at hf
        exact absurd hf (by simp [Outcome.Failed])
    | null => simp [FindInItems] at h
    | bool b => simp [FindInItems] at h
    | num q => simp [FindInItems] at h
    | str t => simp [FindInItems] at h
    | obj m => simp [FindInItems] at h

/-- The devices that `FindUSBStickInfo` returns match, one by one and in order, the entries
with a "Media" key under the "_items" of the top-level entries. -/
theorem FindUSBStickInfo_ids (data : JSON) (vals : Slice USBInfo)
    (h : FindUSBStickInfo data = .returns vals none) :
    ∃ d buses, data = .obj d ∧ JSON.get "SPUSBDataType" d = some (.arr buses) ∧
      List.Forall₂ IdsOf (mediaBuses buses) vals.elems := by
  cases data with
  | obj d =>
    cases hd : JSON.get "SPUSBDataType" d with
    | none => simp [FindUSBStickInfo, hd] at h
    | some dt =>
      cases dt with
      | arr dta =>
        refine ⟨d, dta, rfl, hd, ?_⟩
        simp only [FindUSBStickInfo, hd] at h
        rcases forRange_ok_or_failed FindUSBStickInfo_body_error dta 0 [] with ⟨l, hl⟩ | hf
        · rw [hl] at h
          cases h
          obtain ⟨new, hout, hr⟩ := forRange_forall₂ (R := IdsOf)
            (f := fun b => mediaItemsField (fieldsOf b))
            FindUSBStickInfo_body_error dta (by
              intro x hx i acc acc1 hb
              cases x with
              | obj m =>
                simp only [FindUSBStickInfo.body] at hb
                simp only [fieldsOf, mediaItemsField_get]
                cases hg : JSON.get "_items" m with
                | none =>
                  rw [hg] at hb
                  cases hb
                  exact ⟨[], by simp, by simp⟩
                | some it =>
                  rw [hg] at hb
                  simp only [] at hb
                  cases hc : FindInItems it
                      ("data[SPUSBDataType][" ++ fmtInt i ++ "][_items]") with
                  | panics msg => rw [hc] at hb; cases hb
                  | returns ui err =>
                    rw [hc] at hb
                    cases err with
                    | some e => cases hb
                    | none =>
                      cases hb
                      exact ⟨ui.elems, rfl,
                        FindInItems_ids (it.depth + 1) it _ ui (by omega) hc⟩
              | null => cases hb
              | bool b => cases hb
              | num q => cases hb
              | str t => cases hb
              | arr ys => cases hb) 0 [] l hl
          simp only [List.nil_append] at hout
          subst hout
          simpa [mediaBuses_flatten, Slice.elems] using hr
        · rw [h] at hf
          exact absurd hf (by simp [Outcome.Failed])
      | null => simp [FindUSBStickInfo, hd] at h
      | bool b => simp [FindUSBStickInfo, hd] at h
      | num q => simp [FindUSBStickInfo, hd] at h
      | str t => simp [FindUSBStickInfo, hd] at h
      | obj m => simp [FindUSBStickInfo, hd] at h
  | null => simp [FindUSBStickInfo] at h
  | bool b => simp [FindUSBStickInfo] at h
  | num q => simp [FindUSBStickInfo] at h
  | str t => simp [FindUSBStickInfo] at h
  | arr ys => simp [FindUSBStickInfo] at h

/-- C26. Ids are range-checked while they are parsed, so the narrowing to 16 bits never
changes a value. Whenever `FindInItems` returns a list and a nil error, the devices of the
list match, one by one and in order, the entries with a "Media" key found in its argument at
any depth, and each device has the ids written in its own entry (`IdsOf`): its `ProductID` is
the number that `ParseUint` read from the "product_id" string of the entry, its `VendorID`
the number read from the text before the first space of the "vendor_id" string, both are at
most 65535, and when the text is an integer literal the id is the number the literal denotes.
The same holds of `FindUSBStickInfo` and the entries under the "_items" of the top-level
entries. And when the walk gets to an entry with a "Media" key whose identity fields are
strings and whose "product_id", or first token of "vendor_id", is an integer literal that
denotes a number above 65535, `FindInItems` returns the nil slice and an error. -/
theorem ids_range_checked (items data : JSON) (path : String) (vals : Slice USBInfo)
    (pre post : List JSON) (m : List (String × JSON)) (md : JSON)
    (name serial manufacturer pid vid field0 : String) (rest : List String) (n : Nat) :
    (FindInItems items path = .returns vals none →
      List.Forall₂ IdsOf (mediaItems items) vals.elems) ∧
    (FindUSBStickInfo data = .returns vals none →
      ∃ d buses, data = .obj d ∧ JSON.get "SPUSBDataType" d = some (.arr buses) ∧
        List.Forall₂ IdsOf (mediaBuses buses) vals.elems) ∧
    (ReachesEntry path pre m → JSON.get "Media" m = some md →
      strField m "_name" = some name → strField m "serial_num" = some serial →
      strField m "manufacturer" = some manufacturer → strField m "product_id" = some pid →
      strField m "vendor_id" = some vid → SplitN vid ' ' = field0 :: rest →
      65535 < n → (IsLiteral pid n ∨ IsLiteral field0 n) →
      ∃ e, FindInItems (.arr (pre ++ .obj m :: post)) path = .returns .nil (some e)) := by
  refine ⟨?_, FindUSBStickInfo_ids data vals, ?_⟩
  · intro h
    exact FindInItems_ids (items.depth + 1) items path vals (by omega) h
  · intro hr hm h1 h2 h3 h4 h5 hs hn hlit
    rw [FindInItems_at_entry path pre post m md hr hm,
      usbInfo_after_strings md path pre.length h1 h2 h3 h4]
    cases hp : ParseUint pid 0 16 with
    | mk val err =>
      cases err with
      | some e => exact ⟨_, rfl⟩
      | none =>
        rcases hlit with hl | hl
        · rw [ParseUint_literal hl, if_neg (by omega)] at hp
          cases hp
        · have hv : ParseUint field0 0 16 =
              (65535, some (.numError "ParseUint" field0 .outOfRange)) := by
            rw [ParseUint_literal hl, if_neg (by omega)]
          simp only []
          rw [assertString_some h5, ok_bind, hs]
          simp only []
          rw [hv]
          exact ⟨_, rfl⟩

/-- C26, at concrete inputs: the device that `FindInItems` returns on the array that holds
`sampleEmptyMedia` has the ids written in that entry, which are the numbers its two
hexadecimal literals denote; and an entry whose "vendor_id" starts with the literal `0x1f750`
is refused. -/
theorem ids_range_checked_witness :
    List.Forall₂ IdsOf (mediaItems (.arr [.obj sampleEmptyMedia]))
      [{ Name := "Card Reader", ProductID := 0x0749, VendorID := 0x05e3,
         SerialNumber := "000000001206", Manufacturer := "Generic", Media := .nil }] ∧
    ∃ e, FindInItems (.arr ([] ++ .obj [("_name", .str "PenDrive"), ("Media", .arr []),
        ("manufacturer", .str "Innostor"), ("product_id", .str "0x0917"),
        ("serial_num", .str "1"), ("vendor_id", .str "0x1f750 (Innostor Co., Ltd.)")] :: []))
        "p" = .returns .nil (some e) :=
  ⟨(ids_range_checked (.arr [.obj sampleEmptyMedia]) .null "p"
      (.of [{ Name := "Card Reader", ProductID := 0x0749, VendorID := 0x05e3,
              SerialNumber := "000000001206", Manufacturer := "Generic", Media := .nil }])
      [] [] [] .null "" "" "" "" "" "" [] 0).1 rfl,
   (ids_range_checked .null .null "p" .nil [] []
      [("_name", .str "PenDrive"), ("Media", .arr []),
        ("manufacturer", .str "Innostor"), ("product_id", .str "0x0917"),
        ("serial_num", .str "1"), ("vendor_id", .str "0x1f750 (Innostor Co., Ltd.)")]
      (.arr []) "PenDrive" "1" "Innostor" "0x0917" "0x1f750 (Innostor Co., Ltd.)" "0x1f750"
      ["(Innostor Co., Ltd.)"] 0x1f750).2.2 ⟨rfl, True.intro⟩ rfl rfl rfl rfl rfl rfl rfl
      (by decide) (Or.inr (Or.inl rfl))⟩

end USBStick
